import Mathlib

/-!
# SCserver: the multi-platform publish orchestrator and the account store

A shallow embedding of `src/routes/posts.js` and `src/routes/social.js`.

* JavaScript values are the type `JsVal`; a missing property is `undefined`.
* Code that calls out (file system, HTTP client, Twitter client, database) runs
  in `Eff`: explicit passing of the list of calls made so far, with a result
  that is either a value or a thrown error.  What a call answers is given by a
  `World`; every answer may depend on the whole history of calls.
* In a `World` a call that fails throws a `JsError`, an error object with
  arbitrary own properties (`message`, `response`, ...), as the libraries used
  do.  The adapters are given a second time over an `AnyWorld`, in which a call
  may throw any value, `null` and `undefined` included (`EffAny`,
  `AnyThrow.postToTwitter`, ...); on a `World` the two agree
  (`postToTwitter_agrees`, ...).
-/

namespace SCserver

/-! ## JavaScript values -/

/-- JavaScript values as far as the routes look into them.  Numbers are the
integers and `NaN`; objects are lists of own properties. -/
inductive JsVal where
  | undefined
  | null
  | bool (b : Bool)
  | num (n : Int)
  | nan
  | str (s : String)
  | arr (xs : List JsVal)
  | obj (fields : List (String × JsVal))

namespace JsVal

/-- Truthiness, as tested by `if (v)`, `!v`, `a || b`, `a && b` and `c ? x : y`. -/
def truthy : JsVal → Bool
  | .undefined => false
  | .null => false
  | .bool b => b
  | .num n => n != 0
  | .nan => false
  | .str s => s != ""
  | .arr _ => true
  | .obj _ => true

/-- The value of `a || b`. -/
def orElse (a b : JsVal) : JsVal := if a.truthy then a else b

/-- Whether the value is `null` or `undefined`. -/
def isNullish : JsVal → Bool
  | .undefined => true
  | .null => true
  | _ => false

/-- Whether the value is `null`. -/
def isNull : JsVal → Bool
  | .null => true
  | _ => false

/-- Whether the value is exactly the string `s` (the comparison `v === s`). -/
def isStr (v : JsVal) (s : String) : Bool :=
  match v with
  | .str t => t == s
  | _ => false

/-- Length of a string in UTF-16 code units, the `length` of a JavaScript string. -/
def utf16Length (s : String) : Nat :=
  s.data.foldl (fun n c => n + (if c.toNat < 65536 then 1 else 2)) 0

/-- Property read `v.k` on a value that is not `null` or `undefined`: own
properties of objects, `length` of arrays and strings, `undefined` otherwise. -/
def get (v : JsVal) (k : String) : JsVal :=
  match v with
  | .obj fields => (fields.lookup k).getD .undefined
  | .arr xs => if k = "length" then .num xs.length else .undefined
  | .str s => if k = "length" then .num (utf16Length s) else .undefined
  | _ => .undefined

/-- Optional chaining `v?.k`. -/
def optGet (v : JsVal) (k : String) : JsVal :=
  if v.isNullish then .undefined else v.get k

mutual
/-- String conversion, as done by template literals and by `JSON.parse` on its
argument; a number is written in decimal digits, as JavaScript does for an
integer of magnitude below `10^21`. -/
def toJsString : JsVal → String
  | .undefined => "undefined"
  | .null => "null"
  | .bool true => "true"
  | .bool false => "false"
  | .num n => toString n
  | .nan => "NaN"
  | .str s => s
  | .arr xs => joinElems xs
  | .obj _ => "[object Object]"
termination_by structural v => v
/-- Elements of an array joined by commas; `null` and `undefined` give the
empty string. -/
def joinElems : List JsVal → String
  | [] => ""
  | x :: rest =>
    (match x with
      | .undefined => ""
      | .null => ""
      | v => toJsString v)
      ++ (match rest with
          | [] => ""
          | _ :: _ => ",")
      ++ joinElems rest
termination_by structural xs => xs
end

end JsVal

/-! ## Thrown errors -/

/-- A thrown error object, with its own properties.  A thrown value that is not
an object is a `JsVal`, see `EffAny`. -/
structure JsError where
  props : List (String × JsVal)

namespace JsError

/-- Property read `error.k`. -/
def get (e : JsError) (k : String) : JsVal := (e.props.lookup k).getD .undefined

/-- The `TypeError` of the runtime, with its message. -/
def typeError (msg : String) : JsError :=
  ⟨[("name", .str "TypeError"), ("message", .str msg)]⟩

end JsError

/-- Property read `v.k` as an expression: reading a property of `null` or
`undefined` throws a `TypeError`. -/
def getProp (v : JsVal) (k : String) : Except JsError JsVal :=
  if v.isNullish then
    .error (JsError.typeError
      ("Cannot read properties of " ++ v.toJsString ++ " (reading \x27" ++ k ++ "\x27)"))
  else .ok (v.get k)

/-! ## Data model (`src/models/User.js`, `src/models/Post.js`) -/

/-- The four platforms, in the order in which the handler goes through them. -/
inductive Platform where
  | twitter
  | linkedin
  | facebook
  | tiktok
  deriving DecidableEq, Repr

/-- The name of a platform in requests and documents. -/
def Platform.name : Platform → String
  | .twitter => "twitter"
  | .linkedin => "linkedin"
  | .facebook => "facebook"
  | .tiktok => "tiktok"

/-- All platforms. -/
def Platform.all : List Platform := [.twitter, .linkedin, .facebook, .tiktok]

/-- Stored `connectedAccounts.twitter`. -/
structure TwitterAccount where
  connected : Bool
  accessToken : JsVal
  accessTokenSecret : JsVal
  username : JsVal
  userId : JsVal

/-- Stored `connectedAccounts.linkedin`. -/
structure LinkedInAccount where
  connected : Bool
  accessToken : JsVal
  profileId : JsVal
  name : JsVal

/-- Stored `connectedAccounts.facebook`. -/
structure FacebookAccount where
  connected : Bool
  accessToken : JsVal
  pageId : JsVal
  pageName : JsVal
  userId : JsVal

/-- Stored `connectedAccounts.tiktok`. -/
structure TikTokAccount where
  connected : Bool
  accessToken : JsVal
  openId : JsVal
  username : JsVal

/-- The `connectedAccounts` of a user document. -/
structure ConnectedAccounts where
  twitter : TwitterAccount
  linkedin : LinkedInAccount
  facebook : FacebookAccount
  tiktok : TikTokAccount

/-- A user document; `id` is its `_id`. -/
structure User where
  id : String
  email : String
  password : String
  name : String
  connectedAccounts : ConnectedAccounts

/-- The `connected` flag of the account of platform `p`. -/
def ConnectedAccounts.connected (a : ConnectedAccounts) : Platform → Bool
  | .twitter => a.twitter.connected
  | .linkedin => a.linkedin.connected
  | .facebook => a.facebook.connected
  | .tiktok => a.tiktok.connected

/-- What an adapter returns: `success`, `postId`, `error`, `postedAt`; a
property the adapter does not set is `undefined`. -/
structure Outcome where
  success : Bool
  postId : JsVal
  error : JsVal
  postedAt : JsVal

/-- One entry of `results` and of `post.platforms`. -/
structure PlatformResult where
  posted : Bool
  postId : JsVal
  error : JsVal
  postedAt : JsVal

/-- The entry `{ posted: false }`: the platform was not attempted. -/
def PlatformResult.notAttempted : PlatformResult :=
  ⟨false, .undefined, .undefined, .undefined⟩

/-- The entry recorded from an adapter outcome. -/
def PlatformResult.ofOutcome (o : Outcome) : PlatformResult :=
  ⟨o.success, o.postId, o.error, o.postedAt⟩

/-- The object `results` of the handler, also the `platforms` of a post. -/
structure Results where
  twitter : PlatformResult
  linkedin : PlatformResult
  facebook : PlatformResult
  tiktok : PlatformResult

/-- The entry of platform `p`. -/
def Results.get (r : Results) : Platform → PlatformResult
  | .twitter => r.twitter
  | .linkedin => r.linkedin
  | .facebook => r.facebook
  | .tiktok => r.tiktok

/-- A post document. -/
structure Post where
  userId : String
  content : JsVal
  mediaUrls : List JsVal
  platforms : Results
  status : String

/-! ## Calls to the outside and the effect type -/

/-- The calls the routes make to the outside, with their arguments, and the
entry into an adapter (`adapter`), recorded when the handler invokes it. -/
inductive Call where
  | userFindById (id : String)
  | postSave (post : Post)
  | adapter (p : Platform) (content mediaPath : JsVal)
  | newTwitterApi (options : JsVal)
  | existsSync (path : JsVal)
  | uploadMedia (path : JsVal)
  | tweet (data : JsVal)
  | newFormData
  | formAppend (field : String) (value : JsVal)
  | createReadStream (path : JsVal)
  | formGetHeaders (form : JsVal)
  | statSync (path : JsVal)
  | readFileSync (path : JsVal)
  | axiosPost (url : JsVal) (body : JsVal) (config : JsVal)
  | axiosPut (url : JsVal) (body : JsVal) (config : JsVal)
  | axiosGet (url : JsVal) (config : JsVal)
  | twitterMe
  | userFindByIdAndUpdate (id : String) (path : String)

/-- A call that was made, and whether it threw. -/
structure Event where
  call : Call
  threw : Bool

/-- Whether a result is a thrown error. -/
def threw {α : Type} : Except JsError α → Bool
  | .ok _ => false
  | .error _ => true

/-- Effectful code: given the calls made before it starts, the value it returns
or the error it throws, and the calls it makes itself, in order. -/
def Eff (α : Type) : Type := List Event → Except JsError α × List Event

namespace Eff

/-- Sequencing: the second part sees the calls of the first in its history; a
thrown error skips the second part. -/
def bind {α β : Type} (m : Eff α) (f : α → Eff β) : Eff β := fun h =>
  match m h with
  | (.ok a, evs) => ((f a (h ++ evs)).1, evs ++ (f a (h ++ evs)).2)
  | (.error e, evs) => (.error e, evs)

/-- An expression that may throw without calling out. -/
def ofExcept {α : Type} (r : Except JsError α) : Eff α := fun _ => (r, [])

/-- A call to the outside: its answer, given the history; the call is recorded
together with whether it threw. -/
def call {α : Type} (c : Call) (answer : List Event → Except JsError α) : Eff α := fun h =>
  (answer h, [⟨c, threw (answer h)⟩])

/-- The entry into a function of the program, recorded as a call that does not
throw. -/
def enter (c : Call) : Eff Unit := fun _ => (.ok (), [⟨c, false⟩])

/-- A value read from the outside that cannot fail (the clock). -/
def read {α : Type} (f : List Event → α) : Eff α := fun h => (.ok (f h), [])

/-- The statement `try { m } catch (error) { handler error }`. -/
def tryCatch {α : Type} (m : Eff α) (handler : JsError → Eff α) : Eff α := fun h =>
  match m h with
  | (.ok a, evs) => (.ok a, evs)
  | (.error e, evs) => ((handler e (h ++ evs)).1, evs ++ (handler e (h ++ evs)).2)

end Eff

instance : Monad Eff where
  pure a := fun _ => (.ok a, [])
  bind := Eff.bind

/-- The outside: what each call answers, given the calls made before it.
`JSON.parse` is a function of the text alone; of its values only that of the
text `[]`, the empty array, is fixed. -/
structure World where
  jsonParse : String → Except JsError JsVal
  jsonParse_empty : jsonParse "[]" = .ok (.arr [])
  now : List Event → JsVal
  twitterApiKey : JsVal
  twitterApiSecret : JsVal
  userFindById : List Event → String → Except JsError (Option User)
  postSave : List Event → Post → Except JsError Unit
  newTwitterApi : List Event → JsVal → Except JsError Unit
  existsSync : List Event → JsVal → Bool
  uploadMedia : List Event → JsVal → Except JsError JsVal
  tweet : List Event → JsVal → Except JsError JsVal
  newFormData : List Event → Except JsError Unit
  formAppend : List Event → String → JsVal → Except JsError Unit
  createReadStream : List Event → JsVal → Except JsError JsVal
  formGetHeaders : List Event → JsVal → Except JsError JsVal
  statSync : List Event → JsVal → Except JsError JsVal
  readFileSync : List Event → JsVal → Except JsError JsVal
  axiosPost : List Event → JsVal → JsVal → JsVal → Except JsError JsVal
  axiosPut : List Event → JsVal → JsVal → JsVal → Except JsError JsVal
  axiosGet : List Event → JsVal → JsVal → Except JsError JsVal
  twitterMe : List Event → Except JsError JsVal
  userUpdateFault : List Event → Option JsError

/-! ## The platform adapters (`src/routes/posts.js`) -/

/-- The test `mediaPath && fs.existsSync(mediaPath)`: the file system is asked
only when `mediaPath` is truthy. -/
def mediaExists (w : World) (mediaPath : JsVal) : Eff Bool :=
  if mediaPath.truthy then
    Eff.call (.existsSync mediaPath) (fun tr => .ok (w.existsSync tr mediaPath))
  else pure false

/-- The call `content.substring(0, n)`; length is counted in characters, which
is the count of UTF-16 code units for text within the Basic Multilingual Plane. -/
def substring0 (content : JsVal) (n : Nat) : Except JsError JsVal :=
  match content with
  | .str s => .ok (.str (s.take n))
  | .undefined => .error (JsError.typeError "Cannot read properties of undefined (reading \x27substring\x27)")
  | .null => .error (JsError.typeError "Cannot read properties of null (reading \x27substring\x27)")
  | _ => .error (JsError.typeError "content.substring is not a function")

/-- The options given to `new TwitterApi`. -/
def twitterOptions (w : World) (accessToken accessSecret : JsVal) : JsVal :=
  .obj [("appKey", w.twitterApiKey), ("appSecret", w.twitterApiSecret),
    ("accessToken", accessToken), ("accessSecret", accessSecret)]

/-- The object `tweetData`: the text, and the media id when there is one. -/
def tweetData (content mediaId : JsVal) : JsVal :=
  if mediaId.truthy then
    .obj [("text", content), ("media", .obj [("media_ids", .arr [mediaId])])]
  else .obj [("text", content)]

/-- The body of the `try` of `postToTwitter`. -/
def postToTwitterTry (w : World) (content mediaPath : JsVal) (credentials : TwitterAccount) :
    Eff Outcome := do
  let options := twitterOptions w credentials.accessToken credentials.accessTokenSecret
  Eff.call (.newTwitterApi options) (fun tr => w.newTwitterApi tr options)
  let hasMedia ← mediaExists w mediaPath
  let mediaId ← (if hasMedia then
      Eff.call (.uploadMedia mediaPath) (fun tr => w.uploadMedia tr mediaPath)
    else pure JsVal.undefined)
  let tweet ← Eff.call (.tweet (tweetData content mediaId))
    (fun tr => w.tweet tr (tweetData content mediaId))
  let data ← Eff.ofExcept (getProp tweet "data")
  let id ← Eff.ofExcept (getProp data "id")
  let postedAt ← Eff.read w.now
  pure ⟨true, id, .undefined, postedAt⟩

/-- The function `postToTwitter`. -/
def postToTwitter (w : World) (content mediaPath : JsVal) (credentials : TwitterAccount) :
    Eff Outcome :=
  Eff.tryCatch (postToTwitterTry w content mediaPath credentials) (fun error =>
    pure ⟨false, .undefined,
      (error.get "message").orElse (.str "Failed to post to Twitter"), .undefined⟩)

/-- The feed endpoint of a page. -/
def facebookFeedUrl (pageId : JsVal) : JsVal :=
  .str ("https://graph.facebook.com/v18.0/" ++ pageId.toJsString ++ "/feed")

/-- The photos endpoint of a page. -/
def facebookPhotosUrl (pageId : JsVal) : JsVal :=
  .str ("https://graph.facebook.com/v18.0/" ++ pageId.toJsString ++ "/photos")

/-- The form sent to the photos endpoint, in the order of the `append` calls. -/
def facebookForm (content source accessToken : JsVal) : JsVal :=
  .obj [("message", content), ("source", source), ("access_token", accessToken)]

/-- The body of the `try` of `postToFacebook`.  With a file, the form is
created and filled by three `append` calls, each of which may throw, the file
being opened for the second. -/
def postToFacebookTry (w : World) (content mediaPath pageId accessToken : JsVal) :
    Eff Outcome := do
  let hasMedia ← mediaExists w mediaPath
  if hasMedia then
    Eff.call .newFormData (fun tr => w.newFormData tr)
    Eff.call (.formAppend "message" content) (fun tr => w.formAppend tr "message" content)
    let source ← Eff.call (.createReadStream mediaPath) (fun tr => w.createReadStream tr mediaPath)
    Eff.call (.formAppend "source" source) (fun tr => w.formAppend tr "source" source)
    Eff.call (.formAppend "access_token" accessToken)
      (fun tr => w.formAppend tr "access_token" accessToken)
    let formData := facebookForm content source accessToken
    let headers ← Eff.call (.formGetHeaders formData) (fun tr => w.formGetHeaders tr formData)
    let config := JsVal.obj [("headers", headers)]
    let response ← Eff.call (.axiosPost (facebookPhotosUrl pageId) formData config)
      (fun tr => w.axiosPost tr (facebookPhotosUrl pageId) formData config)
    let data ← Eff.ofExcept (getProp response "data")
    let id ← Eff.ofExcept (getProp data "id")
    let postId ← (if id.truthy then pure id else Eff.ofExcept (getProp data "post_id"))
    let postedAt ← Eff.read w.now
    pure ⟨true, postId, .undefined, postedAt⟩
  else
    let config := JsVal.obj [("params", .obj [("message", content), ("access_token", accessToken)])]
    let response ← Eff.call (.axiosPost (facebookFeedUrl pageId) .null config)
      (fun tr => w.axiosPost tr (facebookFeedUrl pageId) .null config)
    let data ← Eff.ofExcept (getProp response "data")
    let id ← Eff.ofExcept (getProp data "id")
    let postedAt ← Eff.read w.now
    pure ⟨true, id, .undefined, postedAt⟩

/-- The value `error.response?.data?.error?.message`. -/
def responseErrorMessage (error : JsError) : JsVal :=
  (((error.get "response").optGet "data").optGet "error").optGet "message"

/-- The function `postToFacebook`. -/
def postToFacebook (w : World) (content mediaPath pageId accessToken : JsVal) : Eff Outcome :=
  Eff.tryCatch (postToFacebookTry w content mediaPath pageId accessToken) (fun error =>
    pure ⟨false, .undefined,
      ((responseErrorMessage error).orElse (error.get "message")).orElse
        (.str "Failed to post to Facebook"), .undefined⟩)

/-- The address of the upload initialisation of TikTok. -/
def tiktokInitUrl : JsVal := .str "https://open.tiktokapis.com/v2/post/publish/video/init/"

/-- The body of the upload initialisation. -/
def tiktokInitBody (title size : JsVal) : JsVal :=
  .obj [
    ("post_info", .obj [("title", title), ("privacy_level", .str "SELF_ONLY"),
      ("disable_comment", .bool false), ("disable_duet", .bool false),
      ("disable_stitch", .bool false), ("video_cover_timestamp_ms", .num 1000)]),
    ("source_info", .obj [("source", .str "FILE_UPLOAD"), ("video_size", size),
      ("chunk_size", .num 10000000), ("total_chunk_count", .num 1)])]

/-- The headers `Authorization: Bearer <token>` and `Content-Type: application/json`. -/
def bearerJsonConfig (accessToken : JsVal) : JsVal :=
  .obj [("headers", .obj [("Authorization", .str ("Bearer " ++ accessToken.toJsString)),
    ("Content-Type", .str "application/json")])]

/-- The configuration of the upload of the video. -/
def tiktokPutConfig : JsVal := .obj [("headers", .obj [("Content-Type", .str "video/mp4")])]

/-- The body of the `try` of `postToTikTok`; the early `return` when there is
no video is the first branch. -/
def postToTikTokTry (w : World) (content mediaPath accessToken : JsVal) : Eff Outcome := do
  let hasMedia ← mediaExists w mediaPath
  if !hasMedia then
    pure ⟨false, .undefined, .str "TikTok requires video content", .undefined⟩
  else
    let title ← Eff.ofExcept (substring0 content 150)
    let stat ← Eff.call (.statSync mediaPath) (fun tr => w.statSync tr mediaPath)
    let size ← Eff.ofExcept (getProp stat "size")
    let body := tiktokInitBody title size
    let initResponse ← Eff.call (.axiosPost tiktokInitUrl body (bearerJsonConfig accessToken))
      (fun tr => w.axiosPost tr tiktokInitUrl body (bearerJsonConfig accessToken))
    let data ← Eff.ofExcept (getProp initResponse "data")
    let inner ← Eff.ofExcept (getProp data "data")
    let uploadUrl ← Eff.ofExcept (getProp inner "upload_url")
    let data2 ← Eff.ofExcept (getProp initResponse "data")
    let inner2 ← Eff.ofExcept (getProp data2 "data")
    let publishId ← Eff.ofExcept (getProp inner2 "publish_id")
    let videoBuffer ← Eff.call (.readFileSync mediaPath) (fun tr => w.readFileSync tr mediaPath)
    let _ ← Eff.call (.axiosPut uploadUrl videoBuffer tiktokPutConfig)
      (fun tr => w.axiosPut tr uploadUrl videoBuffer tiktokPutConfig)
    let postedAt ← Eff.read w.now
    pure ⟨true, publishId, .undefined, postedAt⟩

/-- The function `postToTikTok`. -/
def postToTikTok (w : World) (content mediaPath accessToken : JsVal) : Eff Outcome :=
  Eff.tryCatch (postToTikTokTry w content mediaPath accessToken) (fun error =>
    pure ⟨false, .undefined,
      ((responseErrorMessage error).orElse (error.get "message")).orElse
        (.str "Failed to post to TikTok"), .undefined⟩)

/-- The address of the post creation of LinkedIn. -/
def linkedinUrl : JsVal := .str "https://api.linkedin.com/v2/ugcPosts"

/-- The object `postData` of `postToLinkedIn`. -/
def linkedinPostData (content mediaPath profileId : JsVal) : JsVal :=
  .obj [
    ("author", .str ("urn:li:person:" ++ profileId.toJsString)),
    ("lifecycleState", .str "PUBLISHED"),
    ("specificContent", .obj [("com.linkedin.ugc.ShareContent", .obj [
      ("shareCommentary", .obj [("text", content)]),
      ("shareMediaCategory", if mediaPath.truthy then .str "IMAGE" else .str "NONE")])]),
    ("visibility", .obj [("com.linkedin.ugc.MemberNetworkVisibility", .str "PUBLIC")])]

/-- The configuration of the LinkedIn request. -/
def linkedinConfig (accessToken : JsVal) : JsVal :=
  .obj [("headers", .obj [("Authorization", .str ("Bearer " ++ accessToken.toJsString)),
    ("Content-Type", .str "application/json"),
    ("X-Restli-Protocol-Version", .str "2.0.0")])]

/-- The body of the `try` of `postToLinkedIn`; the file test only logs. -/
def postToLinkedInTry (w : World) (content mediaPath accessToken profileId : JsVal) :
    Eff Outcome := do
  let postData := linkedinPostData content mediaPath profileId
  let _ ← mediaExists w mediaPath
  let response ← Eff.call (.axiosPost linkedinUrl postData (linkedinConfig accessToken))
    (fun tr => w.axiosPost tr linkedinUrl postData (linkedinConfig accessToken))
  let data ← Eff.ofExcept (getProp response "data")
  let id ← Eff.ofExcept (getProp data "id")
  let postedAt ← Eff.read w.now
  pure ⟨true, id, .undefined, postedAt⟩

/-- The function `postToLinkedIn`. -/
def postToLinkedIn (w : World) (content mediaPath accessToken profileId : JsVal) : Eff Outcome :=
  Eff.tryCatch (postToLinkedInTry w content mediaPath accessToken profileId) (fun error =>
    pure ⟨false, .undefined,
      ((((error.get "response").optGet "data").optGet "message").orElse
        (error.get "message")).orElse (.str "Failed to post to LinkedIn"), .undefined⟩)

/-! ## The handler of `POST /create` (`src/routes/posts.js`) -/

/-- What the handler reads of the request: `req.userId` (set by the
authentication middleware), `req.body.content`, `req.body.platforms` and for
`req.files`, when defined, the `path` of each file. -/
structure CreateRequest where
  userId : String
  content : JsVal
  platforms : JsVal
  files : Option (List JsVal)

/-- The response: status code, `message`, `error`, `post` and `results`. -/
structure Response where
  status : Nat
  message : String
  error : JsVal
  post : Option Post
  results : Option Results

/-- Whether `t` occurs in `s` as a substring. -/
def strIncludes (s t : String) : Bool :=
  s.data.tails.any (fun l => t.data.isPrefixOf l)

/-- The call `selectedPlatforms.includes(name)`: membership for an array,
substring search for a string, a `TypeError` for every other value. -/
def includes (selected : JsVal) (name : String) : Except JsError Bool :=
  match selected with
  | .arr xs => .ok (xs.any (fun x => x.isStr name))
  | .str s => .ok (strIncludes s name)
  | .undefined => .error (JsError.typeError "Cannot read properties of undefined (reading \x27includes\x27)")
  | .null => .error (JsError.typeError "Cannot read properties of null (reading \x27includes\x27)")
  | _ => .error (JsError.typeError "selectedPlatforms.includes is not a function")

/-- One of the four blocks `if (selectedPlatforms.includes(name) && account.connected)`:
the blocks differ only in the platform and the adapter called.  The entry
recorded when the adapter is not called is `{ posted: false }`. -/
def dispatch (selected : JsVal) (p : Platform) (connected : Bool) (content mediaPath : JsVal)
    (adapter : Eff Outcome) : Eff PlatformResult := do
  let requested ← Eff.ofExcept (includes selected p.name)
  if requested && connected then
    Eff.enter (.adapter p content mediaPath)
    let result ← adapter
    pure (PlatformResult.ofOutcome result)
  else
    pure PlatformResult.notAttempted

/-- The number `successCount`. -/
def successCount (r : Results) : Nat :=
  (if r.twitter.posted then 1 else 0) + (if r.linkedin.posted then 1 else 0)
    + (if r.facebook.posted then 1 else 0) + (if r.tiktok.posted then 1 else 0)

/-- The comparison `successCount === totalSelected`. -/
def strictEqNat (n : Nat) (v : JsVal) : Bool :=
  match v with
  | .num k => k == (n : Int)
  | _ => false

/-- The status set at the end of the handler. -/
def statusOf (count : Nat) (totalSelected : JsVal) : String :=
  if count = 0 then "failed"
  else if strictEqNat count totalSelected then "completed"
  else "partial"

/-- The value `mediaPath`: the path of the first file, or `null`. -/
def firstMediaPath (files : Option (List JsVal)) : JsVal :=
  match files with
  | some (f :: _) => f
  | _ => .null

/-- The post record created before the platforms are tried. -/
def newPost (req : CreateRequest) : Post :=
  { userId := req.userId
    content := req.content
    mediaUrls := req.files.getD []
    platforms := ⟨.notAttempted, .notAttempted, .notAttempted, .notAttempted⟩
    status := "posting" }

/-- The body of the `try` of the handler. -/
def createTry (w : World) (req : CreateRequest) : Eff Response := do
  let selectedPlatforms ←
    Eff.ofExcept (w.jsonParse (req.platforms.orElse (.str "[]")).toJsString)
  if !req.content.truthy then
    pure ⟨400, "Content is required", .undefined, none, none⟩
  else
    let found ← Eff.call (.userFindById req.userId) (fun h => w.userFindById h req.userId)
    match found with
    | none => pure ⟨404, "User not found", .undefined, none, none⟩
    | some user =>
      let post := newPost req
      Eff.call (.postSave post) (fun h => w.postSave h post)
      let mediaPath := firstMediaPath req.files
      let accounts := user.connectedAccounts
      let twitter ← dispatch selectedPlatforms .twitter accounts.twitter.connected
        req.content mediaPath (postToTwitter w req.content mediaPath accounts.twitter)
      let linkedin ← dispatch selectedPlatforms .linkedin accounts.linkedin.connected
        req.content mediaPath (postToLinkedIn w req.content mediaPath
          accounts.linkedin.accessToken accounts.linkedin.profileId)
      let facebook ← dispatch selectedPlatforms .facebook accounts.facebook.connected
        req.content mediaPath (postToFacebook w req.content mediaPath
          accounts.facebook.pageId accounts.facebook.accessToken)
      let tiktok ← dispatch selectedPlatforms .tiktok accounts.tiktok.connected
        req.content mediaPath (postToTikTok w req.content mediaPath accounts.tiktok.accessToken)
      let results : Results := ⟨twitter, linkedin, facebook, tiktok⟩
      let totalSelected ← Eff.ofExcept (getProp selectedPlatforms "length")
      let final : Post :=
        { post with platforms := results, status := statusOf (successCount results) totalSelected }
      Eff.call (.postSave final) (fun h => w.postSave h final)
      pure ⟨200, "Post published", .undefined, some final, some results⟩

/-- The handler of `POST /create`: the response sent and the calls made, given
the calls made before.  A thrown error gives the response of the `catch`. -/
def createHandler (w : World) (req : CreateRequest) (h : List Event) : Response × List Event :=
  match createTry w req h with
  | (.ok response, evs) => (response, evs)
  | (.error e, evs) => (⟨500, "Server error", e.get "message", none, none⟩, evs)

/-- Whether the call is the entry into the adapter of platform `p`. -/
def Call.isAdapter (p : Platform) : Call → Bool
  | .adapter q _ _ => q == p
  | _ => false

/-- How often the adapter of platform `p` was invoked in a list of calls. -/
def adapterCalls (p : Platform) (evs : List Event) : Nat :=
  evs.countP (fun ev => ev.call.isAdapter p)

/-- Whether the call is an outbound HTTP request. -/
def Call.isHttp : Call → Bool
  | .axiosPost _ _ _ => true
  | .axiosPut _ _ _ => true
  | .axiosGet _ _ => true
  | .tweet _ => true
  | .uploadMedia _ => true
  | .twitterMe => true
  | _ => false

/-! ## The account store (`src/routes/social.js`) -/

/-- The response of a route of the account store: status code, `message`,
`error`, `details` and `connectedAccounts`. -/
structure SocialResponse where
  status : Nat
  message : String
  error : JsVal
  details : JsVal
  connectedAccounts : Option ConnectedAccounts

/-- The update `User.findByIdAndUpdate(id, change, { new: true })` on the stored
users: the document with this id is changed and returned, `null` when there is
none. -/
def findByIdAndUpdate (db : List User) (id : String) (change : User → User) :
    List User × Option User :=
  match db with
  | [] => ([], none)
  | u :: rest =>
    if u.id = id then (change u :: rest, some (change u))
    else ((u :: (findByIdAndUpdate rest id change).1), (findByIdAndUpdate rest id change).2)

/-- The document with this id. -/
def findUser (db : List User) (id : String) : Option User :=
  db.find? (fun u => u.id == id)

/-- The common shape of the eight routes: the part before the database call
(`prepare`, empty for a disconnect), then `findByIdAndUpdate` of one account,
then the response with `user.connectedAccounts`; any thrown error gives the
response of the `catch`.  A database call that throws leaves the store as it
was.  Returns the response, the store afterwards and the calls made. -/
def storeAccount {α : Type} (w : World) (db : List User) (userId path : String)
    (prepare : Eff α) (set : α → User → User) (okMessage : String)
    (failure : JsError → SocialResponse) (h : List Event) :
    (SocialResponse × List User) × List Event :=
  match prepare h with
  | (.error e, evs) => ((failure e, db), evs)
  | (.ok account, evs) =>
    match w.userUpdateFault (h ++ evs) with
    | some e => ((failure e, db), evs ++ [⟨.userFindByIdAndUpdate userId path, true⟩])
    | none =>
      match findByIdAndUpdate db userId (set account) with
      | (db', some user) =>
        ((⟨200, okMessage, .undefined, .undefined, some user.connectedAccounts⟩, db'),
          evs ++ [⟨.userFindByIdAndUpdate userId path, false⟩])
      | (db', none) =>
        ((failure (JsError.typeError "Cannot read properties of null (reading \x27connectedAccounts\x27)"),
          db'), evs ++ [⟨.userFindByIdAndUpdate userId path, false⟩])

/-- The response of the `catch` of the disconnect routes and of the form
`{ message, error: error.message }`. -/
def failWith (message : String) (e : JsError) : SocialResponse :=
  ⟨500, message, e.get "message", .undefined, none⟩

/-- Replace the account of Twitter. -/
def setTwitter (a : TwitterAccount) (u : User) : User :=
  { u with connectedAccounts := { u.connectedAccounts with twitter := a } }

/-- Replace the account of LinkedIn. -/
def setLinkedIn (a : LinkedInAccount) (u : User) : User :=
  { u with connectedAccounts := { u.connectedAccounts with linkedin := a } }

/-- Replace the account of Facebook. -/
def setFacebook (a : FacebookAccount) (u : User) : User :=
  { u with connectedAccounts := { u.connectedAccounts with facebook := a } }

/-- Replace the account of TikTok. -/
def setTikTok (a : TikTokAccount) (u : User) : User :=
  { u with connectedAccounts := { u.connectedAccounts with tiktok := a } }

/-- The part of `POST /connect/twitter` before the database call: the client
is built, `v2.me()` verifies the credentials, and the account to store is
assembled. -/
def connectTwitterPrepare (w : World) (body : JsVal) : Eff TwitterAccount := do
  let accessToken ← Eff.ofExcept (getProp body "accessToken")
  let accessTokenSecret ← Eff.ofExcept (getProp body "accessTokenSecret")
  let options := twitterOptions w accessToken accessTokenSecret
  Eff.call (.newTwitterApi options) (fun h => w.newTwitterApi h options)
  let verifyUser ← Eff.call .twitterMe w.twitterMe
  let data ← Eff.ofExcept (getProp verifyUser "data")
  let username ← Eff.ofExcept (getProp data "username")
  let id ← Eff.ofExcept (getProp data "id")
  pure ⟨true, accessToken, accessTokenSecret, username, id⟩

/-- The route `POST /connect/twitter`. -/
def connectTwitter (w : World) (db : List User) (userId : String) (body : JsVal) (h : List Event) :
    (SocialResponse × List User) × List Event :=
  storeAccount w db userId "connectedAccounts.twitter" (connectTwitterPrepare w body) setTwitter
    "Twitter account connected successfully" (failWith "Failed to connect Twitter account") h

/-- The address of the identity call of LinkedIn. -/
def linkedinUserinfoUrl : JsVal := .str "https://api.linkedin.com/v2/userinfo"

/-- The configuration with the header `Authorization: Bearer <token>`. -/
def bearerConfig (accessToken : JsVal) : JsVal :=
  .obj [("headers", .obj [("Authorization", .str ("Bearer " ++ accessToken.toJsString))])]

/-- The part of `POST /connect/linkedin` before the database call. -/
def connectLinkedInPrepare (w : World) (body : JsVal) : Eff LinkedInAccount := do
  let accessToken ← Eff.ofExcept (getProp body "accessToken")
  let response ← Eff.call (.axiosGet linkedinUserinfoUrl (bearerConfig accessToken))
    (fun h => w.axiosGet h linkedinUserinfoUrl (bearerConfig accessToken))
  let profile ← Eff.ofExcept (getProp response "data")
  let sub ← Eff.ofExcept (getProp profile "sub")
  let name ← Eff.ofExcept (getProp profile "name")
  pure ⟨true, accessToken, sub, name⟩

/-- The route `POST /connect/linkedin`. -/
def connectLinkedIn (w : World) (db : List User) (userId : String) (body : JsVal) (h : List Event) :
    (SocialResponse × List User) × List Event :=
  storeAccount w db userId "connectedAccounts.linkedin" (connectLinkedInPrepare w body) setLinkedIn
    "LinkedIn account connected successfully" (failWith "Failed to connect LinkedIn account") h

/-- The address of the page of Facebook. -/
def facebookPageUrl (pageId : JsVal) : JsVal :=
  .str ("https://graph.facebook.com/v18.0/" ++ pageId.toJsString)

/-- The configuration of the page request. -/
def facebookPageConfig (accessToken : JsVal) : JsVal :=
  .obj [("params", .obj [("fields", .str "id,name,access_token"), ("access_token", accessToken)])]

/-- The part of `POST /connect/facebook` before the database call. -/
def connectFacebookPrepare (w : World) (body : JsVal) : Eff FacebookAccount := do
  let accessToken ← Eff.ofExcept (getProp body "accessToken")
  let pageId ← Eff.ofExcept (getProp body "pageId")
  let pageResponse ← Eff.call (.axiosGet (facebookPageUrl pageId) (facebookPageConfig accessToken))
    (fun h => w.axiosGet h (facebookPageUrl pageId) (facebookPageConfig accessToken))
  let data ← Eff.ofExcept (getProp pageResponse "data")
  let id ← Eff.ofExcept (getProp data "id")
  let name ← Eff.ofExcept (getProp data "name")
  pure ⟨true, accessToken, id, name, pageId⟩

/-- The response of the `catch` of `POST /connect/facebook`. -/
def facebookFailure (e : JsError) : SocialResponse :=
  ⟨500, "Failed to connect Facebook account. Make sure you are using a Page Access Token with proper permissions.",
    (responseErrorMessage e).orElse (e.get "message"), (e.get "response").optGet "data", none⟩

/-- The route `POST /connect/facebook`. -/
def connectFacebook (w : World) (db : List User) (userId : String) (body : JsVal) (h : List Event) :
    (SocialResponse × List User) × List Event :=
  storeAccount w db userId "connectedAccounts.facebook" (connectFacebookPrepare w body) setFacebook
    "Facebook account connected successfully" facebookFailure h

/-- The address of the identity call of TikTok. -/
def tiktokUserinfoUrl : JsVal := .str "https://open.tiktokapis.com/v2/user/info/"

/-- The configuration of the identity call of TikTok. -/
def tiktokUserinfoConfig (accessToken : JsVal) : JsVal :=
  .obj [("params", .obj [("fields", .str "open_id,display_name,username")]),
    ("headers", .obj [("Authorization", .str ("Bearer " ++ accessToken.toJsString))])]

/-- The part of `POST /connect/tiktok` before the database call. -/
def connectTikTokPrepare (w : World) (body : JsVal) : Eff TikTokAccount := do
  let accessToken ← Eff.ofExcept (getProp body "accessToken")
  let openId ← Eff.ofExcept (getProp body "openId")
  let response ← Eff.call (.axiosGet tiktokUserinfoUrl (tiktokUserinfoConfig accessToken))
    (fun h => w.axiosGet h tiktokUserinfoUrl (tiktokUserinfoConfig accessToken))
  let data ← Eff.ofExcept (getProp response "data")
  let inner ← Eff.ofExcept (getProp data "data")
  let userData ← Eff.ofExcept (getProp inner "user")
  let userOpenId ← Eff.ofExcept (getProp userData "open_id")
  let username ← Eff.ofExcept (getProp userData "username")
  let displayName ← Eff.ofExcept (getProp userData "display_name")
  pure ⟨true, accessToken, userOpenId.orElse openId,
    username.orElse displayName⟩

/-- The response of the `catch` of `POST /connect/tiktok`. -/
def tiktokFailure (e : JsError) : SocialResponse :=
  ⟨500, "Failed to connect TikTok account",
    (responseErrorMessage e).orElse (e.get "message"), .undefined, none⟩

/-- The route `POST /connect/tiktok`. -/
def connectTikTok (w : World) (db : List User) (userId : String) (body : JsVal) (h : List Event) :
    (SocialResponse × List User) × List Event :=
  storeAccount w db userId "connectedAccounts.tiktok" (connectTikTokPrepare w body) setTikTok
    "TikTok account connected successfully" tiktokFailure h

/-- The four connect routes by platform. -/
def connect (p : Platform) (w : World) (db : List User) (userId : String) (body : JsVal)
    (h : List Event) : (SocialResponse × List User) × List Event :=
  match p with
  | .twitter => connectTwitter w db userId body h
  | .linkedin => connectLinkedIn w db userId body h
  | .facebook => connectFacebook w db userId body h
  | .tiktok => connectTikTok w db userId body h

/-- The route `POST /disconnect/twitter`. -/
def disconnectTwitter (w : World) (db : List User) (userId : String) (h : List Event) :
    (SocialResponse × List User) × List Event :=
  storeAccount w db userId "connectedAccounts.twitter" (pure ())
    (fun _ => setTwitter ⟨false, .null, .null, .null, .null⟩)
    "Twitter account disconnected" (failWith "Server error") h

/-- The route `POST /disconnect/linkedin`. -/
def disconnectLinkedIn (w : World) (db : List User) (userId : String) (h : List Event) :
    (SocialResponse × List User) × List Event :=
  storeAccount w db userId "connectedAccounts.linkedin" (pure ())
    (fun _ => setLinkedIn ⟨false, .null, .null, .null⟩)
    "LinkedIn account disconnected" (failWith "Server error") h

/-- The route `POST /disconnect/facebook`. -/
def disconnectFacebook (w : World) (db : List User) (userId : String) (h : List Event) :
    (SocialResponse × List User) × List Event :=
  storeAccount w db userId "connectedAccounts.facebook" (pure ())
    (fun _ => setFacebook ⟨false, .null, .null, .null, .null⟩)
    "Facebook account disconnected" (failWith "Server error") h

/-- The route `POST /disconnect/tiktok`. -/
def disconnectTikTok (w : World) (db : List User) (userId : String) (h : List Event) :
    (SocialResponse × List User) × List Event :=
  storeAccount w db userId "connectedAccounts.tiktok" (pure ())
    (fun _ => setTikTok ⟨false, .null, .null, .null⟩)
    "TikTok account disconnected" (failWith "Server error") h

/-- The four disconnect routes by platform. -/
def disconnect (p : Platform) (w : World) (db : List User) (userId : String) (h : List Event) :
    (SocialResponse × List User) × List Event :=
  match p with
  | .twitter => disconnectTwitter w db userId h
  | .linkedin => disconnectLinkedIn w db userId h
  | .facebook => disconnectFacebook w db userId h
  | .tiktok => disconnectTikTok w db userId h

/-- Whether the account of platform `p` is disconnected with every other field
`null`. -/
def ConnectedAccounts.cleared (a : ConnectedAccounts) : Platform → Bool
  | .twitter => !a.twitter.connected && (a.twitter.accessToken).isNull
      && (a.twitter.accessTokenSecret).isNull && (a.twitter.username).isNull
      && (a.twitter.userId).isNull
  | .linkedin => !a.linkedin.connected && (a.linkedin.accessToken).isNull
      && (a.linkedin.profileId).isNull && (a.linkedin.name).isNull
  | .facebook => !a.facebook.connected && (a.facebook.accessToken).isNull
      && (a.facebook.pageId).isNull && (a.facebook.pageName).isNull
      && (a.facebook.userId).isNull
  | .tiktok => !a.tiktok.connected && (a.tiktok.accessToken).isNull
      && (a.tiktok.openId).isNull && (a.tiktok.username).isNull

/-- Whether the call is the identity call that verifies the credentials in the
connect route of platform `p`. -/
def Call.isVerification (p : Platform) : Call → Bool
  | .twitterMe => p == .twitter
  | .axiosGet _ _ => p != .twitter
  | _ => false

/-- Whether the call writes to the stored users. -/
def Call.isUserUpdate : Call → Bool
  | .userFindByIdAndUpdate _ _ => true
  | _ => false

/-! ## The authentication middleware (`src/routes/posts.js`, `src/routes/social.js`) -/

/-- The value of `s.split(' ')` as its first element and the elements after it. -/
def splitSpace : List Char → List Char × List (List Char)
  | [] => ([], [])
  | c :: cs =>
    if c = ' ' then ([], (splitSpace cs).1 :: (splitSpace cs).2)
    else (c :: (splitSpace cs).1, (splitSpace cs).2)

/-- The value `req.headers.authorization?.split(' ')[1]`; `none` is `undefined`. -/
def headerToken (authorization : Option String) : Option String :=
  match authorization with
  | none => none
  | some s => (splitSpace s.data).2.head?.map String.mk

/-- What `jwt.verify` returns for a token it accepts: the decoded payload, an
object or a string. -/
inductive JwtPayload where
  | object (props : List (String × JsVal))
  | text (s : String)

/-- The value `decoded.userId`. -/
def JwtPayload.userId : JwtPayload → JsVal
  | .object props => (props.lookup "userId").getD .undefined
  | .text _ => .undefined

/-- What the middleware does that can be seen from outside: a response sent,
or the call `next()` with the value of `req.userId` at that time. -/
inductive AuthEvent where
  | respond (status : Nat) (message : String)
  | next (userId : JsVal)

/-- The result of the middleware: `req.userId` when it was assigned, and what it
did, in order. -/
structure AuthResult where
  userId : Option JsVal
  events : List AuthEvent

/-- The middleware `authenticateToken`, the same in both route files.  `verify`
is `jwt.verify` with the secret of the process; `nextThrows` says whether the
call `next()` throws, given `req.userId`. -/
def authenticateToken (verify : String → Except JsError JwtPayload)
    (nextThrows : JsVal → Option JsError) (authorization : Option String) : AuthResult :=
  match headerToken authorization with
  | none => ⟨none, [.respond 401 "No token provided"]⟩
  | some token =>
    if token = "" then ⟨none, [.respond 401 "No token provided"]⟩
    else
      match verify token with
      | .error _ => ⟨none, [.respond 401 "Invalid token"]⟩
      | .ok decoded =>
        match nextThrows decoded.userId with
        | none => ⟨some decoded.userId, [.next decoded.userId]⟩
        | some _ =>
          ⟨some decoded.userId, [.next decoded.userId, .respond 401 "Invalid token"]⟩

/-- Whether the event is a call of `next()`. -/
def AuthEvent.isNext : AuthEvent → Bool
  | .next _ => true
  | .respond _ _ => false

/-! ## The adapters when a call may throw any value

In `World` a call that fails throws an error object.  JavaScript lets a call
throw, and a promise reject with, any value, `null` and `undefined` included;
the `catch` blocks of the four adapters read properties of the caught value, and
that read itself throws when the value is `null` or `undefined`.  Here the
adapters are given over an outside without the restriction: the same bodies,
with the `catch` blocks as functions of an arbitrary caught value. -/

/-- The error object as a value. -/
def JsError.toVal (e : JsError) : JsVal := .obj e.props

/-- Whether a result is a thrown value. -/
def threwAny {α : Type} : Except JsVal α → Bool
  | .ok _ => false
  | .error _ => true

/-- Effectful code whose thrown value is any JavaScript value: given the calls
made before it starts, the value it returns or the value it throws, and the
calls it makes itself, in order. -/
def EffAny (α : Type) : Type := List Event → Except JsVal α × List Event

namespace EffAny

/-- Sequencing: the second part sees the calls of the first in its history; a
thrown value skips the second part. -/
def bind {α β : Type} (m : EffAny α) (f : α → EffAny β) : EffAny β := fun h =>
  match m h with
  | (.ok a, evs) => ((f a (h ++ evs)).1, evs ++ (f a (h ++ evs)).2)
  | (.error v, evs) => (.error v, evs)

/-- An expression that may throw an error of the runtime without calling out. -/
def ofExcept {α : Type} (r : Except JsError α) : EffAny α := fun _ =>
  match r with
  | .ok a => (.ok a, [])
  | .error e => (.error e.toVal, [])

/-- A value read from the outside that cannot fail (the clock). -/
def read {α : Type} (f : List Event → α) : EffAny α := fun h => (.ok (f h), [])

/-- The statement `try { m } catch (error) { handler error }`. -/
def tryCatch {α : Type} (m : EffAny α) (handler : JsVal → EffAny α) : EffAny α := fun h =>
  match m h with
  | (.ok a, evs) => (.ok a, evs)
  | (.error v, evs) => ((handler v (h ++ evs)).1, evs ++ (handler v (h ++ evs)).2)

end EffAny

instance : Monad EffAny where
  pure a := fun _ => (.ok a, [])
  bind := EffAny.bind

/-- The outside of the adapters without the restriction on thrown values: what
each call answers, a value returned or any value thrown, given the calls made
before it.  `fs.existsSync` returns a boolean and does not throw. -/
structure AnyWorld where
  now : List Event → JsVal
  twitterApiKey : JsVal
  twitterApiSecret : JsVal
  existsSync : List Event → JsVal → Bool
  answer : List Event → Call → Except JsVal JsVal

/-- A call to the outside, recorded together with whether it threw. -/
def AnyWorld.call (w : AnyWorld) (c : Call) : EffAny JsVal := fun h =>
  (w.answer h c, [⟨c, threwAny (w.answer h c)⟩])

/-- The `catch` of `postToTwitter`, on the caught value. -/
def postToTwitterCatch (error : JsVal) : Except JsError Outcome := do
  let message ← getProp error "message"
  pure ⟨false, .undefined, message.orElse (.str "Failed to post to Twitter"), .undefined⟩

/-- The value `error.response?.data?.error?.message || error.message`. -/
def responseOrOwnMessage (error : JsVal) : Except JsError JsVal := do
  let response ← getProp error "response"
  let message := ((response.optGet "data").optGet "error").optGet "message"
  if message.truthy then pure message else getProp error "message"

/-- The `catch` of `postToFacebook`, on the caught value: `error.response` is
read for the log, then the message is chosen. -/
def postToFacebookCatch (error : JsVal) : Except JsError Outcome := do
  let _ ← getProp error "response"
  let message ← responseOrOwnMessage error
  pure ⟨false, .undefined, message.orElse (.str "Failed to post to Facebook"), .undefined⟩

/-- The `catch` of `postToTikTok`, on the caught value. -/
def postToTikTokCatch (error : JsVal) : Except JsError Outcome := do
  let _ ← getProp error "response"
  let message ← responseOrOwnMessage error
  pure ⟨false, .undefined, message.orElse (.str "Failed to post to TikTok"), .undefined⟩

/-- The `catch` of `postToLinkedIn`, on the caught value. -/
def postToLinkedInCatch (error : JsVal) : Except JsError Outcome := do
  let _ ← getProp error "response"
  let response ← getProp error "response"
  let message := (response.optGet "data").optGet "message"
  let message ← (if message.truthy then pure message else getProp error "message")
  pure ⟨false, .undefined, message.orElse (.str "Failed to post to LinkedIn"), .undefined⟩

namespace AnyThrow

/-- The test `mediaPath && fs.existsSync(mediaPath)`. -/
def mediaExists (w : AnyWorld) (mediaPath : JsVal) : EffAny Bool :=
  if mediaPath.truthy then
    (fun h => (.ok (w.existsSync h mediaPath), [⟨.existsSync mediaPath, false⟩]))
  else pure false

/-- The body of the `try` of `postToTwitter`. -/
def postToTwitterTry (w : AnyWorld) (content mediaPath : JsVal) (credentials : TwitterAccount) :
    EffAny Outcome := do
  let options := JsVal.obj [("appKey", w.twitterApiKey), ("appSecret", w.twitterApiSecret),
    ("accessToken", credentials.accessToken), ("accessSecret", credentials.accessTokenSecret)]
  let _ ← w.call (.newTwitterApi options)
  let hasMedia ← mediaExists w mediaPath
  let mediaId ← (if hasMedia then w.call (.uploadMedia mediaPath) else pure JsVal.undefined)
  let tweet ← w.call (.tweet (tweetData content mediaId))
  let data ← EffAny.ofExcept (getProp tweet "data")
  let id ← EffAny.ofExcept (getProp data "id")
  let postedAt ← EffAny.read w.now
  pure ⟨true, id, .undefined, postedAt⟩

/-- The function `postToTwitter`. -/
def postToTwitter (w : AnyWorld) (content mediaPath : JsVal) (credentials : TwitterAccount) :
    EffAny Outcome :=
  EffAny.tryCatch (postToTwitterTry w content mediaPath credentials)
    (fun error => EffAny.ofExcept (postToTwitterCatch error))

/-- The body of the `try` of `postToFacebook`. -/
def postToFacebookTry (w : AnyWorld) (content mediaPath pageId accessToken : JsVal) :
    EffAny Outcome := do
  let hasMedia ← mediaExists w mediaPath
  if hasMedia then
    let _ ← w.call .newFormData
    let _ ← w.call (.formAppend "message" content)
    let source ← w.call (.createReadStream mediaPath)
    let _ ← w.call (.formAppend "source" source)
    let _ ← w.call (.formAppend "access_token" accessToken)
    let formData := facebookForm content source accessToken
    let headers ← w.call (.formGetHeaders formData)
    let config := JsVal.obj [("headers", headers)]
    let response ← w.call (.axiosPost (facebookPhotosUrl pageId) formData config)
    let data ← EffAny.ofExcept (getProp response "data")
    let id ← EffAny.ofExcept (getProp data "id")
    let postId ← (if id.truthy then pure id else EffAny.ofExcept (getProp data "post_id"))
    let postedAt ← EffAny.read w.now
    pure ⟨true, postId, .undefined, postedAt⟩
  else
    let config := JsVal.obj [("params", .obj [("message", content), ("access_token", accessToken)])]
    let response ← w.call (.axiosPost (facebookFeedUrl pageId) .null config)
    let data ← EffAny.ofExcept (getProp response "data")
    let id ← EffAny.ofExcept (getProp data "id")
    let postedAt ← EffAny.read w.now
    pure ⟨true, id, .undefined, postedAt⟩

/-- The function `postToFacebook`. -/
def postToFacebook (w : AnyWorld) (content mediaPath pageId accessToken : JsVal) :
    EffAny Outcome :=
  EffAny.tryCatch (postToFacebookTry w content mediaPath pageId accessToken)
    (fun error => EffAny.ofExcept (postToFacebookCatch error))

/-- The body of the `try` of `postToTikTok`. -/
def postToTikTokTry (w : AnyWorld) (content mediaPath accessToken : JsVal) : EffAny Outcome := do
  let hasMedia ← mediaExists w mediaPath
  if !hasMedia then
    pure ⟨false, .undefined, .str "TikTok requires video content", .undefined⟩
  else
    let title ← EffAny.ofExcept (substring0 content 150)
    let stat ← w.call (.statSync mediaPath)
    let size ← EffAny.ofExcept (getProp stat "size")
    let body := tiktokInitBody title size
    let initResponse ← w.call (.axiosPost tiktokInitUrl body (bearerJsonConfig accessToken))
    let data ← EffAny.ofExcept (getProp initResponse "data")
    let inner ← EffAny.ofExcept (getProp data "data")
    let uploadUrl ← EffAny.ofExcept (getProp inner "upload_url")
    let data2 ← EffAny.ofExcept (getProp initResponse "data")
    let inner2 ← EffAny.ofExcept (getProp data2 "data")
    let publishId ← EffAny.ofExcept (getProp inner2 "publish_id")
    let videoBuffer ← w.call (.readFileSync mediaPath)
    let _ ← w.call (.axiosPut uploadUrl videoBuffer tiktokPutConfig)
    let postedAt ← EffAny.read w.now
    pure ⟨true, publishId, .undefined, postedAt⟩

/-- The function `postToTikTok`. -/
def postToTikTok (w : AnyWorld) (content mediaPath accessToken : JsVal) : EffAny Outcome :=
  EffAny.tryCatch (postToTikTokTry w content mediaPath accessToken)
    (fun error => EffAny.ofExcept (postToTikTokCatch error))

/-- The body of the `try` of `postToLinkedIn`; the file test only logs. -/
def postToLinkedInTry (w : AnyWorld) (content mediaPath accessToken profileId : JsVal) :
    EffAny Outcome := do
  let postData := linkedinPostData content mediaPath profileId
  let _ ← mediaExists w mediaPath
  let response ← w.call (.axiosPost linkedinUrl postData (linkedinConfig accessToken))
  let data ← EffAny.ofExcept (getProp response "data")
  let id ← EffAny.ofExcept (getProp data "id")
  let postedAt ← EffAny.read w.now
  pure ⟨true, id, .undefined, postedAt⟩

/-- The function `postToLinkedIn`. -/
def postToLinkedIn (w : AnyWorld) (content mediaPath accessToken profileId : JsVal) :
    EffAny Outcome :=
  EffAny.tryCatch (postToLinkedInTry w content mediaPath accessToken profileId)
    (fun error => EffAny.ofExcept (postToLinkedInCatch error))

end AnyThrow

/-! ## Properties of effectful code used in the proofs -/

/-- Every call made is recorded faithfully with respect to the result: when one
of the calls made threw, the code itself throws. -/
def Eff.Faithful {α : Type} (m : Eff α) : Prop :=
  ∀ h, (∃ ev ∈ (m h).2, ev.threw = true) → threw (m h).1 = true

/-- Every call made satisfies `P`. -/
def Eff.Emits {α : Type} (P : Call → Prop) (m : Eff α) : Prop :=
  ∀ h, ∀ ev ∈ (m h).2, P ev.call

/-- Every value returned satisfies `Q`. -/
def Eff.Returns {α : Type} (Q : α → Prop) (m : Eff α) : Prop :=
  ∀ h a, (m h).1 = .ok a → Q a

/-- A call that is not the entry into an adapter. -/
def Call.External (c : Call) : Prop := ∀ p, c.isAdapter p = false

/-- An outcome that is a success or carries a truthy error. -/
def Outcome.Explained (o : Outcome) : Prop := o.success = false → o.error.truthy = true

/-- Code that, when it returns, has made a call satisfying `P`. -/
def Eff.Calls {α : Type} (P : Event → Prop) (m : Eff α) : Prop :=
  ∀ h a, (m h).1 = .ok a → ∃ ev ∈ (m h).2, P ev

/-- What is shown of each adapter: it returns an outcome; the outcome is a
failure when one of its calls threw; a failure carries a truthy error; and its
calls are calls to the outside. -/
def AdapterSpec (adapter : Eff Outcome) : Prop :=
  ∀ h, ∃ o, (adapter h).1 = .ok o
    ∧ ((∃ ev ∈ (adapter h).2, ev.threw = true) → o.success = false)
    ∧ o.Explained
    ∧ ∀ ev ∈ (adapter h).2, ev.call.External

/-- What is claimed of each adapter: it returns an outcome and does not throw;
when one of its calls threw, the outcome is a failure with a truthy error; and
whatever code follows the call of the adapter runs, on the outcome returned. -/
def NeverThrows (adapter : Eff Outcome) : Prop :=
  ∀ h, ∃ o evs, adapter h = (.ok o, evs)
    ∧ ((∃ ev ∈ evs, ev.threw = true) → o.success = false ∧ o.error.truthy = true)
    ∧ ∀ (β : Type) (next : Outcome → Eff β),
        (adapter >>= next) h = ((next o (h ++ evs)).1, evs ++ (next o (h ++ evs)).2)

/-- Whether the parsed array `xs` has the name of platform `p` as an element. -/
def requested (xs : List JsVal) (p : Platform) : Bool := xs.any (fun x => x.isStr p.name)

/-- What one block of the handler leaves behind: the entry of the platform and
the calls made.  When the platform is requested and connected, the adapter was
entered once and the entry is its outcome; otherwise nothing was called and the
entry is `{ posted: false }`. -/
def Dispatched (isRequested connected : Bool) (p : Platform) (content mediaPath : JsVal)
    (result : PlatformResult) (evs : List Event) : Prop :=
  if isRequested && connected then
    ∃ o rest, result = .ofOutcome o ∧ o.Explained
      ∧ evs = ⟨.adapter p content mediaPath, false⟩ :: rest ∧ ∀ ev ∈ rest, ev.call.External
  else result = .notAttempted ∧ evs = []

/-- The adapter call of the block of platform `p` in the handler, with the
arguments the handler passes to it. -/
def adapterOf (w : World) (req : CreateRequest) (user : User) : Platform → Eff Outcome
  | .twitter =>
    postToTwitter w req.content (firstMediaPath req.files) user.connectedAccounts.twitter
  | .linkedin =>
    postToLinkedIn w req.content (firstMediaPath req.files)
      user.connectedAccounts.linkedin.accessToken user.connectedAccounts.linkedin.profileId
  | .facebook =>
    postToFacebook w req.content (firstMediaPath req.files)
      user.connectedAccounts.facebook.pageId user.connectedAccounts.facebook.accessToken
  | .tiktok =>
    postToTikTok w req.content (firstMediaPath req.files) user.connectedAccounts.tiktok.accessToken

/-- The event recorded when the handler enters the adapter of platform `p`. -/
def entered (req : CreateRequest) (p : Platform) : Event :=
  ⟨.adapter p req.content (firstMediaPath req.files), false⟩

/-- The calls of the blocks that the handler goes through before the block of
platform `p`, given the calls of each block. -/
def blocksBefore (block : Platform → List Event) : Platform → List Event
  | .twitter => []
  | .linkedin => block .twitter
  | .facebook => block .twitter ++ block .linkedin
  | .tiktok => block .twitter ++ block .linkedin ++ block .facebook

/-- What one block of the handler does, in full, given the calls made before it
(`history`).  When the name is included and the account connected, the calls of
the block are the entry into the adapter followed by the calls of one run of the
adapter, started after that entry, and nothing else; the adapter returns an
outcome and the entry of the platform is that outcome.  Otherwise the block
calls nothing and the entry is `{ posted: false }`. -/
def BlockRun (included connected : Bool) (entry : Event) (adapter : Eff Outcome)
    (history : List Event) (result : PlatformResult) (calls : List Event) : Prop :=
  ((included && connected) = true →
    ∃ o rest, adapter (history ++ [entry]) = (.ok o, rest)
      ∧ result = .ofOutcome o ∧ calls = entry :: rest)
  ∧ ((included && connected) = false → result = .notAttempted ∧ calls = [])

/-- How many of the four platform names occur in a list of names. -/
def knownCount (names : List String) : Nat :=
  (Platform.all.filter (fun p => p.name ∈ names)).length

/-- What is shown of the part of a connect route before the database call. -/
def PrepareSpec {α : Type} (p : Platform) (prepare : Eff α) : Prop :=
  Eff.Faithful prepare
    ∧ Eff.Emits (fun c => c.isUserUpdate = false) prepare
    ∧ Eff.Calls (fun ev => ev.call.isVerification p = true ∧ ev.threw = false) prepare

/-- What is claimed of a connect route, as a property of its result: the
response, the store afterwards and the calls made, given the store before. -/
def VerifiedBeforeStored (p : Platform) (db : List User)
    (out : (SocialResponse × List User) × List Event) : Prop :=
  ((∃ ev ∈ out.2, ev.call.isVerification p = true ∧ ev.threw = true) →
      out.1.1.status = 500 ∧ out.1.1.connectedAccounts = none ∧ out.1.2 = db
        ∧ ∀ ev ∈ out.2, ev.call.isUserUpdate = false)
  ∧ ((out.1.2 ≠ db ∨ ∃ ev ∈ out.2, ev.call.isUserUpdate = true) →
      ∃ before update, out.2 = before ++ [update] ∧ update.call.isUserUpdate = true
        ∧ ∃ ev ∈ before, ev.call.isVerification p = true ∧ ev.threw = false)

/-- The outbound HTTP requests among the calls made, in order. -/
def httpCalls (evs : List Event) : List Call :=
  (evs.map (fun ev => ev.call)).filter Call.isHttp

/-- The number of `true` among four flags. -/
def count4 (b1 b2 b3 b4 : Bool) : Nat :=
  (if b1 then 1 else 0) + (if b2 then 1 else 0) + (if b3 then 1 else 0) + (if b4 then 1 else 0)

/-- The calls made by the test `mediaPath && fs.existsSync(mediaPath)`: the file
system is asked once when `mediaPath` is truthy, and not otherwise. -/
def mediaCheck (mediaPath : JsVal) : List Event :=
  if mediaPath.truthy then [⟨.existsSync mediaPath, false⟩] else []

/-- The property `shareMediaCategory` of the share content of a LinkedIn body. -/
def shareMediaCategory (postData : JsVal) : JsVal :=
  (((postData.get "specificContent").get "com.linkedin.ugc.ShareContent").get
    "shareMediaCategory")

/-- What `postToLinkedIn` returns, given the answer to its request and the time:
the success outcome with `response.data.id` when the request returned and the
identifier can be read, and the outcome of the `catch` otherwise. -/
def linkedinOutcome (answer : Except JsError JsVal) (postedAt : JsVal) : Outcome :=
  match answer with
  | .error e =>
    ⟨false, .undefined,
      ((((e.get "response").optGet "data").optGet "message").orElse
        (e.get "message")).orElse (.str "Failed to post to LinkedIn"), .undefined⟩
  | .ok response =>
    match getProp response "data" with
    | .error e =>
      ⟨false, .undefined,
        ((((e.get "response").optGet "data").optGet "message").orElse
          (e.get "message")).orElse (.str "Failed to post to LinkedIn"), .undefined⟩
    | .ok data =>
      match getProp data "id" with
      | .error e =>
        ⟨false, .undefined,
          ((((e.get "response").optGet "data").optGet "message").orElse
            (e.get "message")).orElse (.str "Failed to post to LinkedIn"), .undefined⟩
      | .ok id => ⟨true, id, .undefined, postedAt⟩

/-- The calls of a list of events. -/
def callsOf (evs : List Event) : List Call := evs.map (fun ev => ev.call)

/-- The entry `new TwitterApi(...)` of the calls of `postToTwitter`. -/
def twitterClientCall (w : World) (credentials : TwitterAccount) : Call :=
  .newTwitterApi (twitterOptions w credentials.accessToken credentials.accessTokenSecret)

/-- Every call made is recorded faithfully with respect to the result: when one
of the calls made threw, the code itself throws. -/
def EffAny.Faithful {α : Type} (m : EffAny α) : Prop :=
  ∀ h, (∃ ev ∈ (m h).2, ev.threw = true) → threwAny (m h).1 = true

/-- Every value thrown satisfies `P`. -/
def EffAny.Throws {α : Type} (P : JsVal → Prop) (m : EffAny α) : Prop :=
  ∀ h v, (m h).1 = .error v → P v

/-- What is claimed of each adapter, over the outside without restriction on
thrown values: it returns an outcome and does not throw; when one of its calls
threw, the outcome is a failure with a truthy error; and whatever code follows
the call of the adapter runs, on the outcome returned. -/
def ReturnsOutcome (adapter : EffAny Outcome) : Prop :=
  ∀ h, ∃ o evs, adapter h = (.ok o, evs)
    ∧ ((∃ ev ∈ evs, ev.threw = true) → o.success = false ∧ o.error.truthy = true)
    ∧ ∀ (β : Type) (next : Outcome → EffAny β),
        (adapter >>= next) h = ((next o (h ++ evs)).1, evs ++ (next o (h ++ evs)).2)

/-- What an adapter can throw at all: the `TypeError` of the runtime. -/
def ThrowsOnlyTypeError (adapter : EffAny Outcome) : Prop :=
  ∀ h v evs, adapter h = (.error v, evs) → v.get "name" = .str "TypeError"

/-- A result of the restricted outside as a result of the unrestricted one: the
error object thrown becomes the value thrown. -/
def liftResult {α : Type} : Except JsError α → Except JsVal α
  | .ok a => .ok a
  | .error e => .error e.toVal

/-- A `World` as an outside without restriction on thrown values: the same
answers, a call without a result returning `undefined`. -/
def World.toAny (w : World) : AnyWorld :=
  { now := w.now
    twitterApiKey := w.twitterApiKey
    twitterApiSecret := w.twitterApiSecret
    existsSync := w.existsSync
    answer := fun h c =>
      match c with
      | .newTwitterApi options => liftResult ((w.newTwitterApi h options).map (fun _ => .undefined))
      | .uploadMedia path => liftResult (w.uploadMedia h path)
      | .tweet data => liftResult (w.tweet h data)
      | .newFormData => liftResult ((w.newFormData h).map (fun _ => .undefined))
      | .formAppend field value =>
        liftResult ((w.formAppend h field value).map (fun _ => .undefined))
      | .createReadStream path => liftResult (w.createReadStream h path)
      | .formGetHeaders form => liftResult (w.formGetHeaders h form)
      | .statSync path => liftResult (w.statSync h path)
      | .readFileSync path => liftResult (w.readFileSync h path)
      | .axiosPost url body config => liftResult (w.axiosPost h url body config)
      | .axiosPut url body config => liftResult (w.axiosPut h url body config)
      | _ => .ok .undefined }

/-- The unrestricted code `n` does what the restricted code `m` does: the same
calls, the same value returned, and the error object thrown as value thrown. -/
def Agrees {α : Type} (m : Eff α) (n : EffAny α) : Prop :=
  ∀ h, n h = (liftResult (m h).1, (m h).2)

/-- The same for a call whose result the code does not use. -/
def AgreesUnit (m : Eff Unit) (n : EffAny JsVal) : Prop :=
  ∀ h, (n h).2 = (m h).2 ∧ liftResult ((m h).1.map (fun _ => JsVal.undefined)) = (n h).1

/-! ## Sample inputs -/

/-- The value of `JSON.parse` on the texts used in the examples; the sample
world rejects every other text. -/
def sampleParse (text : String) : Except JsError JsVal :=
  if text = "[]" then .ok (.arr [])
  else if text = "[\"twitter\"]" then .ok (.arr [.str "twitter"])
  else if text = "[\"facebook\"]" then .ok (.arr [.str "facebook"])
  else if text = "[\"twitter\",\"tiktok\"]" then .ok (.arr [.str "twitter", .str "tiktok"])
  else if text = "[\"twitter\",\"myspace\"]" then .ok (.arr [.str "twitter", .str "myspace"])
  else if text = "\"xtwitterx-linkedin\"" then .ok (.str "xtwitterx-linkedin")
  else .error ⟨[("name", .str "SyntaxError"), ("message", .str "Unexpected token")]⟩

/-- The answer of `formData.append` in the sample world: as in the library
`form-data`, an array is refused with `Arrays are not supported.`. -/
def sampleAppend (value : JsVal) : Except JsError Unit :=
  match value with
  | .arr _ => .error ⟨[("name", .str "Error"), ("message", .str "Arrays are not supported.")]⟩
  | _ => .ok ()

/-- A user with the given connection flags and fixed credentials. -/
def sampleUser (twitter linkedin facebook tiktok : Bool) : User :=
  { id := "u1"
    email := "a@example.org"
    password := "hash"
    name := "A"
    connectedAccounts :=
      { twitter := ⟨twitter, .str "tok", .str "sec", .str "a", .str "1"⟩
        linkedin := ⟨linkedin, .str "tok", .str "p1", .str "A"⟩
        facebook := ⟨facebook, .str "tok", .str "page1", .str "Page", .str "page1"⟩
        tiktok := ⟨tiktok, .str "tok", .str "o1", .str "a"⟩ } }

/-- A world with fixed answers: the user lookup gives `user`, files exist or
not according to `fileExists`, every remote call gives `answer` (a response or
a thrown error), and the database never fails. -/
def sampleWorld (user : Option User) (fileExists : Bool) (answer : Except JsError JsVal) :
    World :=
  { jsonParse := sampleParse
    jsonParse_empty := rfl
    now := fun _ => .str "2024-01-01T00:00:00.000Z"
    twitterApiKey := .str "key"
    twitterApiSecret := .str "secret"
    userFindById := fun _ _ => .ok user
    postSave := fun _ _ => .ok ()
    newTwitterApi := fun _ _ => .ok ()
    existsSync := fun _ _ => fileExists
    uploadMedia := fun _ _ => answer
    tweet := fun _ _ => answer
    newFormData := fun _ => .ok ()
    formAppend := fun _ _ value => sampleAppend value
    createReadStream := fun _ _ => .ok (.str "stream")
    formGetHeaders := fun _ _ => .ok (.obj [])
    statSync := fun _ _ => .ok (.obj [("size", .num 10)])
    readFileSync := fun _ _ => .ok (.str "bytes")
    axiosPost := fun _ _ _ _ => answer
    axiosPut := fun _ _ _ _ => answer
    axiosGet := fun _ _ _ => answer
    twitterMe := fun _ => answer
    userUpdateFault := fun _ => none }

/-- A remote answer `{ data: { id: "42" } }`. -/
def sampleAnswer : JsVal := .obj [("data", .obj [("id", .str "42")])]

/-- A request of user `u1` with the given content and `platforms` field and no
files. -/
def sampleRequest (content platforms : JsVal) : CreateRequest :=
  { userId := "u1", content := content, platforms := platforms, files := some [] }

/-- An outside in which files exist, every outbound HTTP request is rejected
with the value `v`, and every other call returns an empty object. -/
def rejectingWorld (v : JsVal) : AnyWorld :=
  { now := fun _ => .str "2024-01-01T00:00:00.000Z"
    twitterApiKey := .str "key"
    twitterApiSecret := .str "secret"
    existsSync := fun _ _ => true
    answer := fun _ c => if c.isHttp then .error v else .ok (.obj []) }

/-! ## Theorems -/

section EffLemmas

variable {α β : Type}

@[simp] theorem Eff.run_pure (a : α) (h : List Event) : (pure a : Eff α) h = (.ok a, []) := rfl

theorem Eff.run_bind (m : Eff α) (f : α → Eff β) (h : List Event) :
    (m >>= f) h = Eff.bind m f h := rfl

theorem Eff.faithful_pure (a : α) : Eff.Faithful (pure a : Eff α) := by
  intro h hev
  simp at hev

theorem Eff.faithful_ofExcept (r : Except JsError α) : Eff.Faithful (Eff.ofExcept r) := by
  intro h hev
  simp [Eff.ofExcept] at hev

theorem Eff.faithful_read (f : List Event → α) : Eff.Faithful (Eff.read f) := by
  intro h hev
  simp [Eff.read] at hev

theorem Eff.faithful_call (c : Call) (answer : List Event → Except JsError α) :
    Eff.Faithful (Eff.call c answer) := by
  intro h hev
  simpa [Eff.call] using hev

theorem Eff.faithful_bind {m : Eff α} {f : α → Eff β} (hm : Eff.Faithful m)
    (hf : ∀ a, Eff.Faithful (f a)) : Eff.Faithful (m >>= f) := by
  intro h hev
  have hm' := hm h
  rw [Eff.run_bind] at hev ⊢
  unfold Eff.bind at hev ⊢
  rcases hrun : m h with ⟨r, evs⟩
  rw [hrun] at hev hm'
  cases r with
  | error e => rfl
  | ok a =>
    simp only [List.mem_append] at hev
    obtain ⟨ev, hmem | hmem, hthrew⟩ := hev
    · have := hm' ⟨ev, hmem, hthrew⟩
      simp [threw] at this
    · exact hf a (h ++ evs) ⟨ev, hmem, hthrew⟩

theorem Eff.faithful_ite {c : Prop} [Decidable c] {m n : Eff α} (hm : Eff.Faithful m)
    (hn : Eff.Faithful n) : Eff.Faithful (if c then m else n) := by
  split
  · exact hm
  · exact hn

theorem Eff.emits_pure (P : Call → Prop) (a : α) : Eff.Emits P (pure a : Eff α) := by
  intro h ev hev
  simp at hev

theorem Eff.emits_ofExcept (P : Call → Prop) (r : Except JsError α) :
    Eff.Emits P (Eff.ofExcept r) := by
  intro h ev hev
  simp [Eff.ofExcept] at hev

theorem Eff.emits_read (P : Call → Prop) (f : List Event → α) : Eff.Emits P (Eff.read f) := by
  intro h ev hev
  simp [Eff.read] at hev

theorem Eff.emits_call {P : Call → Prop} {c : Call} (answer : List Event → Except JsError α)
    (hc : P c) : Eff.Emits P (Eff.call c answer) := by
  intro h ev hev
  simp only [Eff.call, List.mem_singleton] at hev
  rw [hev]
  exact hc

theorem Eff.emits_bind {P : Call → Prop} {m : Eff α} {f : α → Eff β} (hm : Eff.Emits P m)
    (hf : ∀ a, Eff.Emits P (f a)) : Eff.Emits P (m >>= f) := by
  intro h ev hev
  have hm' := hm h
  rw [Eff.run_bind] at hev
  unfold Eff.bind at hev
  rcases hrun : m h with ⟨r, evs⟩
  rw [hrun] at hev hm'
  cases r with
  | error e => exact hm' ev hev
  | ok a =>
    simp only [List.mem_append] at hev
    rcases hev with hmem | hmem
    · exact hm' ev hmem
    · exact hf a (h ++ evs) ev hmem

theorem Eff.emits_ite {P : Call → Prop} {c : Prop} [Decidable c] {m n : Eff α}
    (hm : Eff.Emits P m) (hn : Eff.Emits P n) : Eff.Emits P (if c then m else n) := by
  split
  · exact hm
  · exact hn

theorem Eff.returns_pure {Q : α → Prop} {a : α} (ha : Q a) : Eff.Returns Q (pure a : Eff α) := by
  intro h b hb
  simp only [Eff.run_pure, Except.ok.injEq] at hb
  exact hb ▸ ha

theorem Eff.returns_bind {Q : β → Prop} (m : Eff α) {f : α → Eff β}
    (hf : ∀ a, Eff.Returns Q (f a)) : Eff.Returns Q (m >>= f) := by
  intro h b hb
  rw [Eff.run_bind] at hb
  unfold Eff.bind at hb
  rcases hrun : m h with ⟨r, evs⟩
  rw [hrun] at hb
  cases r with
  | error e => simp at hb
  | ok a => exact hf a (h ++ evs) b hb

theorem Eff.returns_ite {Q : α → Prop} {c : Prop} [Decidable c] {m n : Eff α}
    (hm : Eff.Returns Q m) (hn : Eff.Returns Q n) : Eff.Returns Q (if c then m else n) := by
  split
  · exact hm
  · exact hn

theorem Eff.calls_call {P : Event → Prop} {c : Call} (answer : List Event → Except JsError α)
    (hc : P ⟨c, false⟩) : Eff.Calls P (Eff.call c answer) := by
  intro h a ha
  refine ⟨⟨c, threw (answer h)⟩, by simp [Eff.call], ?_⟩
  simp only [Eff.call] at ha
  rw [ha]
  exact hc

theorem Eff.calls_bind_left {P : Event → Prop} {m : Eff α} {f : α → Eff β}
    (hm : Eff.Calls P m) : Eff.Calls P (m >>= f) := by
  intro h b hb
  have hm' := hm h
  rw [Eff.run_bind] at hb ⊢
  unfold Eff.bind at hb ⊢
  rcases hrun : m h with ⟨r, evs⟩
  rw [hrun] at hb hm'
  cases r with
  | error e => simp at hb
  | ok a =>
    obtain ⟨ev, hmem, hev⟩ := hm' a rfl
    exact ⟨ev, List.mem_append_left _ hmem, hev⟩

theorem Eff.calls_bind_right {P : Event → Prop} (m : Eff α) {f : α → Eff β}
    (hf : ∀ a, Eff.Calls P (f a)) : Eff.Calls P (m >>= f) := by
  intro h b hb
  rw [Eff.run_bind] at hb ⊢
  unfold Eff.bind at hb ⊢
  rcases hrun : m h with ⟨r, evs⟩
  rw [hrun] at hb
  cases r with
  | error e => simp at hb
  | ok a =>
    obtain ⟨ev, hmem, hev⟩ := hf a (h ++ evs) b hb
    exact ⟨ev, List.mem_append_right _ hmem, hev⟩

end EffLemmas

/-! ### The adapters -/

theorem JsVal.orElse_truthy (a b : JsVal) (hb : b.truthy = true) : (a.orElse b).truthy = true := by
  unfold JsVal.orElse
  split
  · assumption
  · exact hb

theorem Outcome.explained_of_success {o : Outcome} (h : o.success = true) : o.Explained := by
  intro hs
  rw [h] at hs
  cases hs

theorem Outcome.explained_of_error {o : Outcome} {s : String} (h : o.error = .str s)
    (hs : s ≠ "") : o.Explained := by
  intro _
  rw [h]
  simpa [JsVal.truthy] using hs

theorem mediaExists_faithful (w : World) (mediaPath : JsVal) :
    Eff.Faithful (mediaExists w mediaPath) := by
  unfold mediaExists
  split
  · intro h hev
    simp [Eff.call, threw] at hev
  · exact Eff.faithful_pure _

theorem mediaExists_emits (w : World) (mediaPath : JsVal) :
    Eff.Emits Call.External (mediaExists w mediaPath) := by
  unfold mediaExists
  split
  · exact Eff.emits_call _ (fun _ => rfl)
  · exact Eff.emits_pure _ _

/-- The statement `try { m } catch (error) { return g error }` returns a value;
it is the value of the `catch` when a call of `m` threw. -/
theorem Eff.tryCatch_return {m : Eff Outcome} {g : JsError → Outcome} {P : Call → Prop}
    (hf : Eff.Faithful m) (he : Eff.Emits P m) (hr : Eff.Returns Outcome.Explained m)
    (hg : ∀ e, (g e).success = false ∧ (g e).error.truthy = true) (h : List Event) :
    ∃ o, (Eff.tryCatch m (fun e => pure (g e)) h).1 = .ok o
      ∧ ((∃ ev ∈ (Eff.tryCatch m (fun e => pure (g e)) h).2, ev.threw = true) → o.success = false)
      ∧ o.Explained
      ∧ ∀ ev ∈ (Eff.tryCatch m (fun e => pure (g e)) h).2, P ev.call := by
  have hf' := hf h
  have he' := he h
  have hr' := hr h
  unfold Eff.tryCatch
  rcases hrun : m h with ⟨r, evs⟩
  rw [hrun] at hf' he' hr'
  cases r with
  | ok a =>
    refine ⟨a, rfl, ?_, hr' a rfl, he'⟩
    intro hev
    have := hf' hev
    simp [threw] at this
  | error e =>
    refine ⟨g e, rfl, fun _ => (hg e).1, fun _ => (hg e).2, ?_⟩
    simpa using he'

theorem postToTwitter_spec (w : World) (content mediaPath : JsVal) (credentials : TwitterAccount) :
    AdapterSpec (postToTwitter w content mediaPath credentials) := by
  unfold postToTwitter
  intro h
  apply Eff.tryCatch_return
  · unfold postToTwitterTry
    repeat (first
      | exact Eff.faithful_pure _
      | exact Eff.faithful_call _ _
      | exact Eff.faithful_ofExcept _
      | exact Eff.faithful_read _
      | exact mediaExists_faithful _ _
      | refine Eff.faithful_bind ?_ (fun _ => ?_)
      | apply Eff.faithful_ite)
  · unfold postToTwitterTry
    repeat (first
      | exact Eff.emits_pure _ _
      | exact Eff.emits_call _ (fun _ => rfl)
      | exact Eff.emits_ofExcept _ _
      | exact Eff.emits_read _ _
      | exact mediaExists_emits _ _
      | refine Eff.emits_bind ?_ (fun _ => ?_)
      | apply Eff.emits_ite)
  · unfold postToTwitterTry
    repeat (first
      | refine Eff.returns_bind _ (fun _ => ?_)
      | apply Eff.returns_ite
      | exact Eff.returns_pure (Outcome.explained_of_success rfl))
  · intro e
    exact ⟨rfl, JsVal.orElse_truthy _ _ rfl⟩

theorem postToLinkedIn_spec (w : World) (content mediaPath accessToken profileId : JsVal) :
    AdapterSpec (postToLinkedIn w content mediaPath accessToken profileId) := by
  unfold postToLinkedIn
  intro h
  apply Eff.tryCatch_return
  · unfold postToLinkedInTry
    repeat (first
      | exact Eff.faithful_pure _
      | exact Eff.faithful_call _ _
      | exact Eff.faithful_ofExcept _
      | exact Eff.faithful_read _
      | exact mediaExists_faithful _ _
      | refine Eff.faithful_bind ?_ (fun _ => ?_)
      | apply Eff.faithful_ite)
  · unfold postToLinkedInTry
    repeat (first
      | exact Eff.emits_pure _ _
      | exact Eff.emits_call _ (fun _ => rfl)
      | exact Eff.emits_ofExcept _ _
      | exact Eff.emits_read _ _
      | exact mediaExists_emits _ _
      | refine Eff.emits_bind ?_ (fun _ => ?_)
      | apply Eff.emits_ite)
  · unfold postToLinkedInTry
    repeat (first
      | refine Eff.returns_bind _ (fun _ => ?_)
      | apply Eff.returns_ite
      | exact Eff.returns_pure (Outcome.explained_of_success rfl))
  · intro e
    exact ⟨rfl, JsVal.orElse_truthy _ _ rfl⟩

theorem postToFacebook_spec (w : World) (content mediaPath pageId accessToken : JsVal) :
    AdapterSpec (postToFacebook w content mediaPath pageId accessToken) := by
  unfold postToFacebook
  intro h
  apply Eff.tryCatch_return
  · unfold postToFacebookTry
    repeat (first
      | exact Eff.faithful_pure _
      | exact Eff.faithful_call _ _
      | exact Eff.faithful_ofExcept _
      | exact Eff.faithful_read _
      | exact mediaExists_faithful _ _
      | refine Eff.faithful_bind ?_ (fun _ => ?_)
      | apply Eff.faithful_ite)
  · unfold postToFacebookTry
    repeat (first
      | exact Eff.emits_pure _ _
      | exact Eff.emits_call _ (fun _ => rfl)
      | exact Eff.emits_ofExcept _ _
      | exact Eff.emits_read _ _
      | exact mediaExists_emits _ _
      | refine Eff.emits_bind ?_ (fun _ => ?_)
      | apply Eff.emits_ite)
  · unfold postToFacebookTry
    repeat (first
      | refine Eff.returns_bind _ (fun _ => ?_)
      | apply Eff.returns_ite
      | exact Eff.returns_pure (Outcome.explained_of_success rfl))
  · intro e
    exact ⟨rfl, JsVal.orElse_truthy _ _ rfl⟩

theorem postToTikTok_spec (w : World) (content mediaPath accessToken : JsVal) :
    AdapterSpec (postToTikTok w content mediaPath accessToken) := by
  unfold postToTikTok
  intro h
  apply Eff.tryCatch_return
  · unfold postToTikTokTry
    repeat (first
      | exact Eff.faithful_pure _
      | exact Eff.faithful_call _ _
      | exact Eff.faithful_ofExcept _
      | exact Eff.faithful_read _
      | exact mediaExists_faithful _ _
      | refine Eff.faithful_bind ?_ (fun _ => ?_)
      | apply Eff.faithful_ite)
  · unfold postToTikTokTry
    repeat (first
      | exact Eff.emits_pure _ _
      | exact Eff.emits_call _ (fun _ => rfl)
      | exact Eff.emits_ofExcept _ _
      | exact Eff.emits_read _ _
      | exact mediaExists_emits _ _
      | refine Eff.emits_bind ?_ (fun _ => ?_)
      | apply Eff.emits_ite)
  · unfold postToTikTokTry
    repeat (first
      | refine Eff.returns_bind _ (fun _ => ?_)
      | apply Eff.returns_ite
      | exact Eff.returns_pure (Outcome.explained_of_success rfl)
      | exact Eff.returns_pure (Outcome.explained_of_error rfl (by decide)))
  · intro e
    exact ⟨rfl, JsVal.orElse_truthy _ _ rfl⟩

/-- When the adapter has returned, the code that follows it runs. -/
theorem Eff.bind_of_ok {α β : Type} {m : Eff α} {a : α} {evs h : List Event} (f : α → Eff β)
    (hm : m h = (.ok a, evs)) :
    (m >>= f) h = ((f a (h ++ evs)).1, evs ++ (f a (h ++ evs)).2) := by
  rw [Eff.run_bind]
  unfold Eff.bind
  rw [hm]

/-! ### The handler of `POST /create` -/

theorem dispatch_arr (xs : List JsVal) (p : Platform) (connected : Bool) (content mediaPath : JsVal)
    (adapter : Eff Outcome) (hspec : AdapterSpec adapter) (h : List Event) :
    ∃ r evs, dispatch (.arr xs) p connected content mediaPath adapter h = (.ok r, evs)
      ∧ Dispatched (requested xs p) connected p content mediaPath r evs := by
  unfold dispatch Dispatched requested
  simp only [Eff.run_bind, Eff.bind, Eff.ofExcept, includes, List.append_nil, List.nil_append]
  split
  · obtain ⟨o, ho, -, hexp, hext⟩ := hspec (h ++ [⟨.adapter p content mediaPath, false⟩])
    rcases hrun : adapter (h ++ [⟨.adapter p content mediaPath, false⟩]) with ⟨r, evs⟩
    rw [hrun] at ho hext
    subst ho
    simp only [Eff.run_bind, Eff.bind, Eff.enter, Eff.run_pure, hrun, List.append_nil,
      List.singleton_append]
    exact ⟨_, _, rfl, o, evs, rfl, hexp, rfl, hext⟩
  · exact ⟨_, _, rfl, rfl, rfl⟩

/-- A request that passes validation, with the platforms parsed to an array, an
existing user and a database that accepts the post, is answered `Post
published`; each of the four blocks has done what `Dispatched` says. -/
theorem createHandler_published (w : World) (req : CreateRequest) (xs : List JsVal) (user : User)
    (h : List Event)
    (hparse : w.jsonParse (req.platforms.orElse (.str "[]")).toJsString = .ok (.arr xs))
    (hcontent : req.content.truthy = true)
    (huser : ∀ h', w.userFindById h' req.userId = .ok (some user))
    (hsave : ∀ h' post, w.postSave h' post = .ok ()) :
    ∃ results e1 e2 e3 e4 final,
      createHandler w req h =
        (⟨200, "Post published", .undefined, some final, some results⟩,
          [⟨.userFindById req.userId, false⟩, ⟨.postSave (newPost req), false⟩]
            ++ (e1 ++ (e2 ++ (e3 ++ (e4 ++ [⟨.postSave final, false⟩])))))
      ∧ final = ⟨req.userId, req.content, req.files.getD [], results,
          statusOf (successCount results) (.num xs.length)⟩
      ∧ Dispatched (requested xs .twitter) user.connectedAccounts.twitter.connected .twitter
          req.content (firstMediaPath req.files) results.twitter e1
      ∧ Dispatched (requested xs .linkedin) user.connectedAccounts.linkedin.connected .linkedin
          req.content (firstMediaPath req.files) results.linkedin e2
      ∧ Dispatched (requested xs .facebook) user.connectedAccounts.facebook.connected .facebook
          req.content (firstMediaPath req.files) results.facebook e3
      ∧ Dispatched (requested xs .tiktok) user.connectedAccounts.tiktok.connected .tiktok
          req.content (firstMediaPath req.files) results.tiktok e4 := by
  unfold createHandler createTry
  simp only [Eff.run_bind, Eff.bind, Eff.ofExcept, hparse, hcontent, Eff.call, huser, hsave, threw,
    List.append_nil, List.nil_append, Bool.not_true, Bool.false_eq_true, if_false, ↓reduceIte]
  obtain ⟨r1, e1, hd1, hs1⟩ := dispatch_arr xs .twitter user.connectedAccounts.twitter.connected
    req.content (firstMediaPath req.files) _ (postToTwitter_spec w req.content
      (firstMediaPath req.files) user.connectedAccounts.twitter)
    (h ++ [⟨.userFindById req.userId, false⟩] ++ [⟨.postSave (newPost req), false⟩])
  simp only [hd1]
  obtain ⟨r2, e2, hd2, hs2⟩ := dispatch_arr xs .linkedin user.connectedAccounts.linkedin.connected
    req.content (firstMediaPath req.files) _ (postToLinkedIn_spec w req.content
      (firstMediaPath req.files) user.connectedAccounts.linkedin.accessToken
      user.connectedAccounts.linkedin.profileId)
    (h ++ [⟨.userFindById req.userId, false⟩] ++ [⟨.postSave (newPost req), false⟩] ++ e1)
  simp only [hd2]
  obtain ⟨r3, e3, hd3, hs3⟩ := dispatch_arr xs .facebook user.connectedAccounts.facebook.connected
    req.content (firstMediaPath req.files) _ (postToFacebook_spec w req.content
      (firstMediaPath req.files) user.connectedAccounts.facebook.pageId
      user.connectedAccounts.facebook.accessToken)
    (h ++ [⟨.userFindById req.userId, false⟩] ++ [⟨.postSave (newPost req), false⟩] ++ e1 ++ e2)
  simp only [hd3]
  obtain ⟨r4, e4, hd4, hs4⟩ := dispatch_arr xs .tiktok user.connectedAccounts.tiktok.connected
    req.content (firstMediaPath req.files) _ (postToTikTok_spec w req.content
      (firstMediaPath req.files) user.connectedAccounts.tiktok.accessToken)
    (h ++ [⟨.userFindById req.userId, false⟩] ++ [⟨.postSave (newPost req), false⟩] ++ e1 ++ e2
      ++ e3)
  simp only [hd4]
  refine ⟨⟨r1, r2, r3, r4⟩, e1, e2, e3, e4, _, ?_, rfl, hs1, hs2, hs3, hs4⟩
  simp [getProp, JsVal.isNullish, JsVal.get, newPost]

theorem neverThrows_of_spec {adapter : Eff Outcome} (hspec : AdapterSpec adapter) :
    NeverThrows adapter := by
  intro h
  obtain ⟨o, ho, hthrew, hexp, -⟩ := hspec h
  rcases hrun : adapter h with ⟨r, evs⟩
  rw [hrun] at ho hthrew
  subst ho
  exact ⟨o, evs, rfl, fun hev => ⟨hthrew hev, hexp (hthrew hev)⟩,
    fun β next => Eff.bind_of_ok next hrun⟩

theorem Platform.forall_iff (P : Platform → Prop) :
    (∀ p, P p) ↔ P .twitter ∧ P .linkedin ∧ P .facebook ∧ P .tiktok :=
  ⟨fun hp => ⟨hp _, hp _, hp _, hp _⟩, fun ⟨h1, h2, h3, h4⟩ p => by cases p <;> assumption⟩

theorem Platform.exists_iff (P : Platform → Prop) :
    (∃ p, P p) ↔ P .twitter ∨ P .linkedin ∨ P .facebook ∨ P .tiktok := by
  constructor
  · rintro ⟨p, hp⟩
    cases p
    · exact Or.inl hp
    · exact Or.inr (Or.inl hp)
    · exact Or.inr (Or.inr (Or.inl hp))
    · exact Or.inr (Or.inr (Or.inr hp))
  · rintro (hp | hp | hp | hp) <;> exact ⟨_, hp⟩

theorem JsVal.isStr_eq_true (x : JsVal) (s : String) : x.isStr s = true ↔ x = .str s := by
  cases x <;> simp [JsVal.isStr]

theorem requested_iff_mem (xs : List JsVal) (p : Platform) :
    requested xs p = true ↔ JsVal.str p.name ∈ xs := by
  unfold requested
  rw [List.any_eq_true]
  constructor
  · rintro ⟨x, hx, hs⟩
    rw [JsVal.isStr_eq_true] at hs
    exact hs ▸ hx
  · intro hmem
    exact ⟨_, hmem, (JsVal.isStr_eq_true _ _).2 rfl⟩

theorem requested_names (names : List String) (p : Platform) :
    requested (names.map JsVal.str) p = decide (p.name ∈ names) := by
  rw [Bool.eq_iff_iff, requested_iff_mem, decide_eq_true_iff, List.mem_map]
  constructor
  · rintro ⟨s, hs, heq⟩
    cases heq
    exact hs
  · intro hmem
    exact ⟨_, hmem, rfl⟩

theorem adapterCalls_append (p : Platform) (xs ys : List Event) :
    adapterCalls p (xs ++ ys) = adapterCalls p xs + adapterCalls p ys := by
  simp [adapterCalls, List.countP_append]

theorem adapterCalls_external (p : Platform) (evs : List Event)
    (hext : ∀ ev ∈ evs, ev.call.External) : adapterCalls p evs = 0 := by
  unfold adapterCalls
  rw [List.countP_eq_zero]
  intro ev hev
  simp [hext ev hev p]

theorem Dispatched.adapterCalls {a c : Bool} {p : Platform} {content mediaPath : JsVal}
    {r : PlatformResult} {evs : List Event} (hd : Dispatched a c p content mediaPath r evs)
    (q : Platform) : SCserver.adapterCalls q evs = if (a && c) = true ∧ p = q then 1 else 0 := by
  unfold Dispatched at hd
  split at hd
  · obtain ⟨o, rest, -, -, rfl, hext⟩ := hd
    rename_i hac
    have hrest := adapterCalls_external q rest hext
    unfold SCserver.adapterCalls at hrest ⊢
    rw [List.countP_cons, hrest]
    by_cases hpq : p = q
    · simp [Call.isAdapter, hac, hpq]
    · simp [Call.isAdapter, hac, hpq]
  · rename_i hac
    rw [hd.2]
    simp [SCserver.adapterCalls, hac]

theorem Dispatched.of_posted {a c : Bool} {p : Platform} {content mediaPath : JsVal}
    {r : PlatformResult} {evs : List Event} (hd : Dispatched a c p content mediaPath r evs)
    (hposted : r.posted = true) : a = true ∧ c = true := by
  unfold Dispatched at hd
  split at hd
  · rename_i hac
    simpa using hac
  · rw [hd.1] at hposted
    cases hposted

theorem Dispatched.notAttempted {a c : Bool} {p : Platform} {content mediaPath : JsVal}
    {r : PlatformResult} {evs : List Event} (hd : Dispatched a c p content mediaPath r evs)
    (hac : (a && c) = false) : r = .notAttempted := by
  unfold Dispatched at hd
  rw [hac] at hd
  exact hd.1

theorem Dispatched.attempted {a c : Bool} {p : Platform} {content mediaPath : JsVal}
    {r : PlatformResult} {evs : List Event} (hd : Dispatched a c p content mediaPath r evs)
    (hac : (a && c) = true) : r.posted = true ∨ r.error.truthy = true := by
  unfold Dispatched at hd
  rw [hac] at hd
  obtain ⟨o, rest, rfl, hexp, -, -⟩ := hd
  cases hs : o.success
  · exact Or.inr (hexp hs)
  · exact Or.inl hs


/-- The handler on a request that reaches the platform blocks: the response,
the final post, and for each platform how often its adapter was entered and
what its entry is. -/
theorem createHandler_dispatch (w : World) (req : CreateRequest) (xs : List JsVal) (user : User)
    (h : List Event)
    (hparse : w.jsonParse (req.platforms.orElse (.str "[]")).toJsString = .ok (.arr xs))
    (hcontent : req.content.truthy = true)
    (huser : ∀ h', w.userFindById h' req.userId = .ok (some user))
    (hsave : ∀ h' post, w.postSave h' post = .ok ()) :
    ∃ results,
      (createHandler w req h).1 = ⟨200, "Post published", .undefined,
        some ⟨req.userId, req.content, req.files.getD [], results,
          statusOf (successCount results) (.num xs.length)⟩, some results⟩
      ∧ ∀ p : Platform,
        (adapterCalls p (createHandler w req h).2
            = if (requested xs p && user.connectedAccounts.connected p) = true then 1 else 0)
        ∧ ((requested xs p && user.connectedAccounts.connected p) = false →
            results.get p = .notAttempted)
        ∧ ((requested xs p && user.connectedAccounts.connected p) = true →
            (results.get p).posted = true ∨ (results.get p).error.truthy = true)
        ∧ ((results.get p).posted = true →
            requested xs p = true ∧ user.connectedAccounts.connected p = true) := by
  obtain ⟨results, e1, e2, e3, e4, final, hrun, hfinal, h1, h2, h3, h4⟩ :=
    createHandler_published w req xs user h hparse hcontent huser hsave
  rw [hrun]
  subst hfinal
  refine ⟨results, rfl, ?_⟩
  intro p
  have hcount : adapterCalls p
      ([⟨.userFindById req.userId, false⟩, ⟨.postSave (newPost req), false⟩]
        ++ (e1 ++ (e2 ++ (e3 ++ (e4 ++ [⟨.postSave
          ⟨req.userId, req.content, req.files.getD [], results,
            statusOf (successCount results) (.num xs.length)⟩, false⟩])))))
      = adapterCalls p e1 + adapterCalls p e2 + adapterCalls p e3 + adapterCalls p e4 := by
    simp only [adapterCalls_append]
    simp [adapterCalls, Call.isAdapter]
    omega
  simp only [hcount, h1.adapterCalls p, h2.adapterCalls p, h3.adapterCalls p, h4.adapterCalls p]
  cases p
  · exact ⟨by simp [ConnectedAccounts.connected], h1.notAttempted, h1.attempted, h1.of_posted⟩
  · exact ⟨by simp [ConnectedAccounts.connected], h2.notAttempted, h2.attempted, h2.of_posted⟩
  · exact ⟨by simp [ConnectedAccounts.connected], h3.notAttempted, h3.attempted, h3.of_posted⟩
  · exact ⟨by simp [ConnectedAccounts.connected], h4.notAttempted, h4.attempted, h4.of_posted⟩

theorem dispatch_run (selected : JsVal) (p : Platform) (connected : Bool)
    (content mediaPath : JsVal) (adapter : Eff Outcome) (hspec : AdapterSpec adapter)
    (included : Bool) (hinc : includes selected p.name = .ok included) (h : List Event) :
    ∃ r evs, dispatch selected p connected content mediaPath adapter h = (.ok r, evs)
      ∧ BlockRun included connected ⟨.adapter p content mediaPath, false⟩ adapter h r evs
      ∧ Dispatched included connected p content mediaPath r evs := by
  unfold dispatch Dispatched BlockRun
  simp only [Eff.run_bind, Eff.bind, Eff.ofExcept, hinc, List.append_nil, List.nil_append]
  split
  · rename_i hac
    obtain ⟨o, ho, -, hexp, hext⟩ := hspec (h ++ [⟨.adapter p content mediaPath, false⟩])
    rcases hrun : adapter (h ++ [⟨.adapter p content mediaPath, false⟩]) with ⟨r, evs⟩
    rw [hrun] at ho hext
    subst ho
    simp only [Eff.run_bind, Eff.bind, Eff.enter, Eff.run_pure, hrun, List.append_nil,
      List.singleton_append]
    refine ⟨_, _, rfl, ⟨fun _ => ⟨o, evs, rfl, rfl, rfl⟩, fun hf => ?_⟩, o, evs, rfl, hexp, rfl, hext⟩
    rw [hac] at hf
    cases hf
  · rename_i hac
    refine ⟨_, _, rfl, ⟨fun ht => absurd ht hac, fun _ => ⟨rfl, rfl⟩⟩, rfl, rfl⟩

/-- The handler on a request that reaches the platform blocks and whose parsed
`platforms` value answers `includes` and has a `length`: the response, the
calls made, and what each of the four blocks did. -/
theorem createHandler_run (w : World) (req : CreateRequest) (selected : JsVal) (user : User)
    (h : List Event) (inc : Platform → Bool) (len : JsVal)
    (hparse : w.jsonParse (req.platforms.orElse (.str "[]")).toJsString = .ok selected)
    (hinc : ∀ p, includes selected p.name = .ok (inc p))
    (hlen : getProp selected "length" = .ok len)
    (hcontent : req.content.truthy = true)
    (huser : ∀ h', w.userFindById h' req.userId = .ok (some user))
    (hsave : ∀ h' post, w.postSave h' post = .ok ()) :
    ∃ (results : Results) (block : Platform → List Event),
      createHandler w req h =
        (⟨200, "Post published", .undefined,
            some ⟨req.userId, req.content, req.files.getD [], results,
              statusOf (successCount results) len⟩, some results⟩,
          [⟨.userFindById req.userId, false⟩, ⟨.postSave (newPost req), false⟩]
            ++ block .twitter ++ block .linkedin ++ block .facebook ++ block .tiktok
            ++ [⟨.postSave ⟨req.userId, req.content, req.files.getD [], results,
              statusOf (successCount results) len⟩, false⟩])
      ∧ ∀ p : Platform,
          BlockRun (inc p) (user.connectedAccounts.connected p) (entered req p)
            (adapterOf w req user p)
            (h ++ [⟨.userFindById req.userId, false⟩, ⟨.postSave (newPost req), false⟩]
              ++ blocksBefore block p)
            (results.get p) (block p)
          ∧ Dispatched (inc p) (user.connectedAccounts.connected p) p req.content
            (firstMediaPath req.files) (results.get p) (block p)
          ∧ adapterCalls p (createHandler w req h).2
            = if (inc p && user.connectedAccounts.connected p) = true then 1 else 0 := by
  have hrun : ∃ (results : Results) (block : Platform → List Event),
      createHandler w req h =
        (⟨200, "Post published", .undefined,
            some ⟨req.userId, req.content, req.files.getD [], results,
              statusOf (successCount results) len⟩, some results⟩,
          [⟨.userFindById req.userId, false⟩, ⟨.postSave (newPost req), false⟩]
            ++ block .twitter ++ block .linkedin ++ block .facebook ++ block .tiktok
            ++ [⟨.postSave ⟨req.userId, req.content, req.files.getD [], results,
              statusOf (successCount results) len⟩, false⟩])
      ∧ ∀ p : Platform,
          BlockRun (inc p) (user.connectedAccounts.connected p) (entered req p)
            (adapterOf w req user p)
            (h ++ [⟨.userFindById req.userId, false⟩, ⟨.postSave (newPost req), false⟩]
              ++ blocksBefore block p)
            (results.get p) (block p)
          ∧ Dispatched (inc p) (user.connectedAccounts.connected p) p req.content
            (firstMediaPath req.files) (results.get p) (block p) := by
    unfold createHandler createTry
    simp only [Eff.run_bind, Eff.bind, Eff.ofExcept, hparse, hcontent, Eff.call, huser, hsave,
      threw, List.append_nil, List.nil_append, Bool.not_true, Bool.false_eq_true, if_false,
      ↓reduceIte]
    obtain ⟨r1, e1, hd1, hb1, hs1⟩ := dispatch_run selected .twitter
      user.connectedAccounts.twitter.connected
      req.content (firstMediaPath req.files) _ (postToTwitter_spec w req.content
        (firstMediaPath req.files) user.connectedAccounts.twitter) _ (hinc .twitter)
      (h ++ [⟨.userFindById req.userId, false⟩] ++ [⟨.postSave (newPost req), false⟩])
    simp only [hd1]
    obtain ⟨r2, e2, hd2, hb2, hs2⟩ := dispatch_run selected .linkedin
      user.connectedAccounts.linkedin.connected
      req.content (firstMediaPath req.files) _ (postToLinkedIn_spec w req.content
        (firstMediaPath req.files) user.connectedAccounts.linkedin.accessToken
        user.connectedAccounts.linkedin.profileId) _ (hinc .linkedin)
      (h ++ [⟨.userFindById req.userId, false⟩] ++ [⟨.postSave (newPost req), false⟩] ++ e1)
    simp only [hd2]
    obtain ⟨r3, e3, hd3, hb3, hs3⟩ := dispatch_run selected .facebook
      user.connectedAccounts.facebook.connected
      req.content (firstMediaPath req.files) _ (postToFacebook_spec w req.content
        (firstMediaPath req.files) user.connectedAccounts.facebook.pageId
        user.connectedAccounts.facebook.accessToken) _ (hinc .facebook)
      (h ++ [⟨.userFindById req.userId, false⟩] ++ [⟨.postSave (newPost req), false⟩] ++ e1 ++ e2)
    simp only [hd3]
    obtain ⟨r4, e4, hd4, hb4, hs4⟩ := dispatch_run selected .tiktok
      user.connectedAccounts.tiktok.connected
      req.content (firstMediaPath req.files) _ (postToTikTok_spec w req.content
        (firstMediaPath req.files) user.connectedAccounts.tiktok.accessToken) _ (hinc .tiktok)
      (h ++ [⟨.userFindById req.userId, false⟩] ++ [⟨.postSave (newPost req), false⟩] ++ e1 ++ e2
        ++ e3)
    simp only [hd4, hlen]
    refine ⟨⟨r1, r2, r3, r4⟩,
      (fun p => match p with
        | .twitter => e1
        | .linkedin => e2
        | .facebook => e3
        | .tiktok => e4), ?_, ?_⟩
    · simp [newPost]
    · intro p
      cases p
      · refine ⟨?_, hs1⟩
        simpa [blocksBefore, entered, adapterOf, ConnectedAccounts.connected, Results.get] using hb1
      · refine ⟨?_, hs2⟩
        simpa [blocksBefore, entered, adapterOf, ConnectedAccounts.connected, Results.get] using hb2
      · refine ⟨?_, hs3⟩
        simpa [blocksBefore, entered, adapterOf, ConnectedAccounts.connected, Results.get] using hb3
      · refine ⟨?_, hs4⟩
        simpa [blocksBefore, entered, adapterOf, ConnectedAccounts.connected, Results.get] using hb4
  obtain ⟨results, block, hrun, hall⟩ := hrun
  refine ⟨results, block, hrun, fun p => ⟨(hall p).1, (hall p).2, ?_⟩⟩
  rw [hrun]
  simp only [adapterCalls_append, (hall .twitter).2.adapterCalls p,
    (hall .linkedin).2.adapterCalls p, (hall .facebook).2.adapterCalls p,
    (hall .tiktok).2.adapterCalls p]
  cases p <;> simp [adapterCalls, Call.isAdapter]

/-- The handler on a request that reaches the platform blocks, block by block:
the calls made are the user lookup, the first save, the calls of the four
blocks in order and the second save; a block whose name is included and whose
account is connected consists of the entry into the adapter and the calls of
one run of the adapter, whose outcome is the entry recorded; every other block
is empty and its entry is `{ posted: false }`. -/
theorem createHandler_blocks (w : World) (req : CreateRequest) (selected : JsVal) (user : User)
    (h : List Event) (inc : Platform → Bool) (len : JsVal)
    (hparse : w.jsonParse (req.platforms.orElse (.str "[]")).toJsString = .ok selected)
    (hinc : ∀ p, includes selected p.name = .ok (inc p))
    (hlen : getProp selected "length" = .ok len)
    (hcontent : req.content.truthy = true)
    (huser : ∀ h', w.userFindById h' req.userId = .ok (some user))
    (hsave : ∀ h' post, w.postSave h' post = .ok ()) :
    ∃ (results : Results) (block : Platform → List Event),
      createHandler w req h =
        (⟨200, "Post published", .undefined,
            some ⟨req.userId, req.content, req.files.getD [], results,
              statusOf (successCount results) len⟩, some results⟩,
          [⟨.userFindById req.userId, false⟩, ⟨.postSave (newPost req), false⟩]
            ++ block .twitter ++ block .linkedin ++ block .facebook ++ block .tiktok
            ++ [⟨.postSave ⟨req.userId, req.content, req.files.getD [], results,
              statusOf (successCount results) len⟩, false⟩])
      ∧ ∀ p : Platform,
          ((inc p = true ∧ user.connectedAccounts.connected p = true) →
            ∃ o rest,
              adapterOf w req user p
                  (h ++ [⟨.userFindById req.userId, false⟩, ⟨.postSave (newPost req), false⟩]
                    ++ blocksBefore block p ++ [entered req p]) = (.ok o, rest)
                ∧ block p = entered req p :: rest
                ∧ results.get p = ⟨o.success, o.postId, o.error, o.postedAt⟩
                ∧ (o.success = true ∨ o.error.truthy = true)
                ∧ adapterCalls p (createHandler w req h).2 = 1)
          ∧ (¬ (inc p = true ∧ user.connectedAccounts.connected p = true) →
              block p = [] ∧ results.get p = ⟨false, .undefined, .undefined, .undefined⟩
                ∧ adapterCalls p (createHandler w req h).2 = 0) := by
  obtain ⟨results, block, hrun, hall⟩ :=
    createHandler_run w req selected user h inc len hparse hinc hlen hcontent huser hsave
  refine ⟨results, block, hrun, fun p => ?_⟩
  obtain ⟨⟨hyes, hno⟩, hd, hcount⟩ := hall p
  constructor
  · rintro ⟨hi, hc⟩
    have hac : (inc p && user.connectedAccounts.connected p) = true := by simp [hi, hc]
    obtain ⟨o, rest, ho, hres, hblock⟩ := hyes hac
    refine ⟨o, rest, ho, hblock, hres, ?_, by rw [hcount, if_pos hac]⟩
    have := hd.attempted hac
    rw [hres] at this
    exact this
  · intro hnot
    have hac : (inc p && user.connectedAccounts.connected p) = false := by
      cases hi : inc p <;> cases hc : user.connectedAccounts.connected p <;> simp_all
    obtain ⟨hres, hblock⟩ := hno hac
    refine ⟨hblock, hres, ?_⟩
    rw [hcount, hac]
    rfl

/-! ### Counting platforms and the status -/

theorem Platform.name_injective : Function.Injective Platform.name := by
  intro p q hpq
  cases p <;> cases q <;> first | rfl | (revert hpq; decide)

theorem knownNames_nodup (names : List String) :
    ((Platform.all.filter (fun p => p.name ∈ names)).map Platform.name).Nodup := by
  apply List.Nodup.map Platform.name_injective
  apply List.Nodup.filter
  decide

theorem knownNames_subset (names : List String) :
    (Platform.all.filter (fun p => p.name ∈ names)).map Platform.name ⊆ names := by
  intro s hs
  simp only [List.mem_map, List.mem_filter, decide_eq_true_eq] at hs
  obtain ⟨p, ⟨-, hp⟩, rfl⟩ := hs
  exact hp

theorem knownCount_le (names : List String) : knownCount names ≤ names.length := by
  have := (List.subperm_of_subset (knownNames_nodup names) (knownNames_subset names)).length_le
  simpa [knownCount] using this

theorem knownCount_lt (names : List String) (bad : String) (hmem : bad ∈ names)
    (hbad : bad ∉ Platform.all.map Platform.name) : knownCount names < names.length := by
  have hnodup : (bad :: (Platform.all.filter (fun p => p.name ∈ names)).map Platform.name).Nodup := by
    refine List.nodup_cons.2 ⟨?_, knownNames_nodup names⟩
    intro hin
    apply hbad
    simp only [List.mem_map, List.mem_filter] at hin ⊢
    obtain ⟨p, ⟨hp, -⟩, rfl⟩ := hin
    exact ⟨p, hp, rfl⟩
  have hsub : (bad :: (Platform.all.filter (fun p => p.name ∈ names)).map Platform.name) ⊆ names := by
    intro s hs
    rcases List.mem_cons.1 hs with rfl | hs
    · exact hmem
    · exact knownNames_subset names hs
  have := (List.subperm_of_subset hnodup hsub).length_le
  simp only [List.length_cons, List.length_map] at this
  unfold knownCount
  omega

theorem knownCount_eq (names : List String) (hnodup : names.Nodup)
    (hknown : ∀ s ∈ names, s ∈ Platform.all.map Platform.name) :
    knownCount names = names.length := by
  apply Nat.le_antisymm (knownCount_le names)
  have hsub : names ⊆ (Platform.all.filter (fun p => p.name ∈ names)).map Platform.name := by
    intro s hs
    have := hknown s hs
    simp only [List.mem_map, List.mem_filter, decide_eq_true_eq] at this ⊢
    obtain ⟨p, hp, rfl⟩ := this
    exact ⟨p, ⟨hp, hs⟩, rfl⟩
  have := (List.subperm_of_subset hnodup hsub).length_le
  simpa [knownCount] using this

theorem knownCount_sum (names : List String) :
    knownCount names = (if decide ("twitter" ∈ names) then 1 else 0)
      + (if decide ("linkedin" ∈ names) then 1 else 0)
      + (if decide ("facebook" ∈ names) then 1 else 0)
      + (if decide ("tiktok" ∈ names) then 1 else 0) := by
  unfold knownCount Platform.all
  simp only [List.filter, Platform.name]
  cases decide ("twitter" ∈ names) <;> cases decide ("linkedin" ∈ names) <;>
    cases decide ("facebook" ∈ names) <;> cases decide ("tiktok" ∈ names) <;> rfl

theorem count4_le : ∀ a1 a2 a3 a4 s1 s2 s3 s4 : Bool,
    (s1 = true → a1 = true) → (s2 = true → a2 = true) → (s3 = true → a3 = true) →
    (s4 = true → a4 = true) → count4 s1 s2 s3 s4 ≤ count4 a1 a2 a3 a4 := by
  intro a1 a2 a3 a4 s1 s2 s3 s4
  cases a1 <;> cases a2 <;> cases a3 <;> cases a4 <;> cases s1 <;> cases s2 <;> cases s3 <;>
    cases s4 <;> decide

theorem statusOf_num (c n : Nat) :
    statusOf c (.num n) = if c = 0 then "failed" else if c = n then "completed" else "partial" := by
  unfold statusOf strictEqNat
  by_cases hc : c = 0
  · simp [hc]
  · by_cases hn : c = n
    · simp [hc, hn]
    · have : ¬ n = c := fun hh => hn hh.symm
      simp [hc, hn, this]

theorem statusOf_failed_iff (c n : Nat) : statusOf c (.num n) = "failed" ↔ c = 0 := by
  rw [statusOf_num]
  by_cases hc : c = 0
  · simp [hc]
  · by_cases hn : c = n <;> simp [hc, hn]

theorem statusOf_of_lt (c n : Nat) (hlt : c < n) :
    statusOf c (.num n) ≠ "completed"
      ∧ (statusOf c (.num n) = "failed" ∨ statusOf c (.num n) = "partial") := by
  rw [statusOf_num]
  by_cases hc : c = 0
  · simp [hc]
  · have hn : ¬ c = n := by omega
    simp [hc, hn]

theorem status_bools : ∀ a1 a2 a3 a4 s1 s2 s3 s4 : Bool,
    (s1 = true → a1 = true) → (s2 = true → a2 = true) → (s3 = true → a3 = true) →
    (s4 = true → a4 = true) → (a1 || a2 || a3 || a4) = true →
    (statusOf (count4 s1 s2 s3 s4) (.num (count4 a1 a2 a3 a4)) = "completed" ↔
        (a1 = true → s1 = true) ∧ (a2 = true → s2 = true) ∧ (a3 = true → s3 = true)
          ∧ (a4 = true → s4 = true))
    ∧ (statusOf (count4 s1 s2 s3 s4) (.num (count4 a1 a2 a3 a4)) = "failed" ↔
        (a1 = true → s1 = false) ∧ (a2 = true → s2 = false) ∧ (a3 = true → s3 = false)
          ∧ (a4 = true → s4 = false))
    ∧ (statusOf (count4 s1 s2 s3 s4) (.num (count4 a1 a2 a3 a4)) = "partial" ↔
        ((a1 = true ∧ s1 = true) ∨ (a2 = true ∧ s2 = true) ∨ (a3 = true ∧ s3 = true)
          ∨ (a4 = true ∧ s4 = true))
        ∧ ((a1 = true ∧ s1 = false) ∨ (a2 = true ∧ s2 = false) ∨ (a3 = true ∧ s3 = false)
          ∨ (a4 = true ∧ s4 = false))) := by
  intro a1 a2 a3 a4 s1 s2 s3 s4
  cases a1 <;> cases a2 <;> cases a3 <;> cases a4 <;> cases s1 <;> cases s2 <;> cases s3 <;>
    cases s4 <;> decide

theorem successCount_eq (r : Results) :
    successCount r = count4 r.twitter.posted r.linkedin.posted r.facebook.posted r.tiktok.posted :=
  rfl

theorem knownCount_count4 (names : List String) :
    knownCount names = count4 (decide ("twitter" ∈ names)) (decide ("linkedin" ∈ names))
      (decide ("facebook" ∈ names)) (decide ("tiktok" ∈ names)) :=
  knownCount_sum names

theorem successCount_le_knownCount (names : List String) (results : Results)
    (hposted : ∀ p : Platform, (results.get p).posted = true → p.name ∈ names) :
    successCount results ≤ knownCount names := by
  rw [successCount_eq, knownCount_count4]
  exact count4_le _ _ _ _ _ _ _ _ (fun hp => decide_eq_true (hposted .twitter hp))
    (fun hp => decide_eq_true (hposted .linkedin hp))
    (fun hp => decide_eq_true (hposted .facebook hp))
    (fun hp => decide_eq_true (hposted .tiktok hp))

/-! ### The account store -/

theorem findByIdAndUpdate_found (db : List User) (id : String) (change : User → User) (u : User)
    (hfind : findUser db id = some u) (hid : ∀ v, (change v).id = v.id) :
    (findByIdAndUpdate db id change).2 = some (change u)
      ∧ findUser (findByIdAndUpdate db id change).1 id = some (change u) := by
  induction db with
  | nil => simp [findUser] at hfind
  | cons v rest ih =>
    unfold findByIdAndUpdate
    by_cases hv : v.id = id
    · have huv : v = u := by simpa [findUser, List.find?, hv] using hfind
      subst huv
      simp [hv, findUser, List.find?, hid]
    · have hbeq : (v.id == id) = false := by simpa using hv
      have hrest : findUser rest id = some u := by
        unfold findUser at hfind ⊢
        rwa [List.find?_cons_of_neg _ (by simp [hbeq])] at hfind
      simp only [hv, if_false]
      refine ⟨(ih hrest).1, ?_⟩
      have := (ih hrest).2
      unfold findUser at this ⊢
      rwa [List.find?_cons_of_neg _ (by simp [hbeq])]

theorem findByIdAndUpdate_idem (db : List User) (id : String) (change : User → User)
    (hid : ∀ v, (change v).id = v.id) (hidem : ∀ v, change (change v) = change v) :
    (findByIdAndUpdate (findByIdAndUpdate db id change).1 id change).1
      = (findByIdAndUpdate db id change).1 := by
  induction db with
  | nil => rfl
  | cons v rest ih =>
    unfold findByIdAndUpdate
    by_cases hv : v.id = id
    · simp only [hv, if_true]
      unfold findByIdAndUpdate
      simp [hid, hv, hidem]
    · simp only [hv, if_false]
      rw [findByIdAndUpdate]
      simp only [hv, if_false]
      rw [ih]

/-- A disconnect route on an existing user with a working database. -/
theorem storeAccount_disconnect (w : World) (db : List User) (userId path : String)
    (change : User → User) (okMessage : String) (failure : JsError → SocialResponse)
    (h : List Event) (u : User) (hfind : findUser db userId = some u)
    (hid : ∀ v, (change v).id = v.id) (hfault : ∀ h', w.userUpdateFault h' = none) :
    storeAccount w db userId path (pure ()) (fun _ => change) okMessage failure h
      = ((⟨200, okMessage, .undefined, .undefined, some (change u).connectedAccounts⟩,
          (findByIdAndUpdate db userId change).1),
        [⟨.userFindByIdAndUpdate userId path, false⟩]) := by
  obtain ⟨hres, -⟩ := findByIdAndUpdate_found db userId change u hfind hid
  unfold storeAccount
  simp only [Eff.run_pure, hfault, List.nil_append]
  rcases hrun : findByIdAndUpdate db userId change with ⟨db', r⟩
  rw [hrun] at hres
  simp only at hres
  subst hres
  rfl


theorem connectTwitterPrepare_spec (w : World) (body : JsVal) :
    PrepareSpec .twitter (connectTwitterPrepare w body) := by
  refine ⟨?_, ?_, ?_⟩
  · unfold connectTwitterPrepare
    repeat (first
      | exact Eff.faithful_pure _
      | exact Eff.faithful_call _ _
      | exact Eff.faithful_ofExcept _
      | refine Eff.faithful_bind ?_ (fun _ => ?_))
  · unfold connectTwitterPrepare
    repeat (first
      | exact Eff.emits_pure _ _
      | exact Eff.emits_call _ rfl
      | exact Eff.emits_ofExcept _ _
      | refine Eff.emits_bind ?_ (fun _ => ?_))
  · unfold connectTwitterPrepare
    repeat (first
      | exact Eff.calls_bind_left (Eff.calls_call _ ⟨rfl, rfl⟩)
      | refine Eff.calls_bind_right _ (fun _ => ?_))

theorem connectLinkedInPrepare_spec (w : World) (body : JsVal) :
    PrepareSpec .linkedin (connectLinkedInPrepare w body) := by
  refine ⟨?_, ?_, ?_⟩
  · unfold connectLinkedInPrepare
    repeat (first
      | exact Eff.faithful_pure _
      | exact Eff.faithful_call _ _
      | exact Eff.faithful_ofExcept _
      | refine Eff.faithful_bind ?_ (fun _ => ?_))
  · unfold connectLinkedInPrepare
    repeat (first
      | exact Eff.emits_pure _ _
      | exact Eff.emits_call _ rfl
      | exact Eff.emits_ofExcept _ _
      | refine Eff.emits_bind ?_ (fun _ => ?_))
  · unfold connectLinkedInPrepare
    repeat (first
      | exact Eff.calls_bind_left (Eff.calls_call _ ⟨rfl, rfl⟩)
      | refine Eff.calls_bind_right _ (fun _ => ?_))

theorem connectFacebookPrepare_spec (w : World) (body : JsVal) :
    PrepareSpec .facebook (connectFacebookPrepare w body) := by
  refine ⟨?_, ?_, ?_⟩
  · unfold connectFacebookPrepare
    repeat (first
      | exact Eff.faithful_pure _
      | exact Eff.faithful_call _ _
      | exact Eff.faithful_ofExcept _
      | refine Eff.faithful_bind ?_ (fun _ => ?_))
  · unfold connectFacebookPrepare
    repeat (first
      | exact Eff.emits_pure _ _
      | exact Eff.emits_call _ rfl
      | exact Eff.emits_ofExcept _ _
      | refine Eff.emits_bind ?_ (fun _ => ?_))
  · unfold connectFacebookPrepare
    repeat (first
      | exact Eff.calls_bind_left (Eff.calls_call _ ⟨rfl, rfl⟩)
      | refine Eff.calls_bind_right _ (fun _ => ?_))

theorem connectTikTokPrepare_spec (w : World) (body : JsVal) :
    PrepareSpec .tiktok (connectTikTokPrepare w body) := by
  refine ⟨?_, ?_, ?_⟩
  · unfold connectTikTokPrepare
    repeat (first
      | exact Eff.faithful_pure _
      | exact Eff.faithful_call _ _
      | exact Eff.faithful_ofExcept _
      | refine Eff.faithful_bind ?_ (fun _ => ?_))
  · unfold connectTikTokPrepare
    repeat (first
      | exact Eff.emits_pure _ _
      | exact Eff.emits_call _ rfl
      | exact Eff.emits_ofExcept _ _
      | refine Eff.emits_bind ?_ (fun _ => ?_))
  · unfold connectTikTokPrepare
    repeat (first
      | exact Eff.calls_bind_left (Eff.calls_call _ ⟨rfl, rfl⟩)
      | refine Eff.calls_bind_right _ (fun _ => ?_))

theorem Call.isVerification_update (p : Platform) (id path : String) :
    (Call.userFindByIdAndUpdate id path).isVerification p = false := rfl

theorem storeAccount_verified {α : Type} (p : Platform) (w : World) (db : List User)
    (userId path : String) (prepare : Eff α) (set : α → User → User) (okMessage : String)
    (failure : JsError → SocialResponse) (h : List Event) (hspec : PrepareSpec p prepare)
    (hfail : ∀ e, (failure e).status = 500 ∧ (failure e).connectedAccounts = none) :
    VerifiedBeforeStored p db (storeAccount w db userId path prepare set okMessage failure h) := by
  obtain ⟨hfaithful, hemits, hcalls⟩ := hspec
  have hf := hfaithful h
  have he := hemits h
  have hc := hcalls h
  unfold storeAccount
  rcases hrun : prepare h with ⟨r, evs⟩
  rw [hrun] at hf he hc
  simp only at hf he hc
  cases r with
  | error e =>
    refine ⟨fun _ => ⟨(hfail e).1, (hfail e).2, rfl, he⟩, ?_⟩
    rintro (hne | ⟨ev, hev, hupd⟩)
    · exact absurd rfl hne
    · rw [he ev hev] at hupd
      cases hupd
  | ok a =>
    have hnot : ¬ ∃ ev ∈ evs, ev.threw = true := by
      intro hex
      have := hf hex
      simp [threw] at this
    obtain ⟨ev0, hev0, hver0, hok0⟩ := hc a rfl
    have hfirst : ∀ b : Bool,
        ¬ ∃ ev ∈ evs ++ [⟨Call.userFindByIdAndUpdate userId path, b⟩],
          ev.call.isVerification p = true ∧ ev.threw = true := by
      rintro b ⟨ev, hev, hver, hthrew⟩
      rcases List.mem_append.1 hev with hmem | hmem
      · exact hnot ⟨ev, hmem, hthrew⟩
      · rw [List.mem_singleton] at hmem
        subst hmem
        rw [Call.isVerification_update] at hver
        cases hver
    simp only
    split
    · refine ⟨fun hex => absurd hex (hfirst true), fun _ => ?_⟩
      exact ⟨evs, _, rfl, rfl, ev0, hev0, hver0, hok0⟩
    · split
      · refine ⟨fun hex => absurd hex (hfirst false), fun _ => ?_⟩
        exact ⟨evs, _, rfl, rfl, ev0, hev0, hver0, hok0⟩
      · refine ⟨fun hex => absurd hex (hfirst false), fun _ => ?_⟩
        exact ⟨evs, _, rfl, rfl, ev0, hev0, hver0, hok0⟩


theorem failWith_status (message : String) (e : JsError) :
    (failWith message e).status = 500 ∧ (failWith message e).connectedAccounts = none :=
  ⟨rfl, rfl⟩

/-! ### Results and calls of a computation, separately -/

section ProjectionLemmas

variable {α β : Type}

theorem Eff.bind_fst (m : Eff α) (f : α → Eff β) (h : List Event) :
    ((m >>= f) h).1 = match (m h).1 with
      | .ok a => (f a (h ++ (m h).2)).1
      | .error e => .error e := by
  rw [Eff.run_bind]
  unfold Eff.bind
  rcases m h with ⟨r, evs⟩
  cases r <;> rfl

theorem Eff.bind_snd (m : Eff α) (f : α → Eff β) (h : List Event) :
    ((m >>= f) h).2 = (m h).2 ++ match (m h).1 with
      | .ok a => (f a (h ++ (m h).2)).2
      | .error _ => [] := by
  rw [Eff.run_bind]
  unfold Eff.bind
  rcases m h with ⟨r, evs⟩
  cases r <;> simp

theorem Eff.tryCatch_snd (m : Eff α) (g : JsError → α) (h : List Event) :
    (Eff.tryCatch m (fun e => pure (g e)) h).2 = (m h).2 := by
  unfold Eff.tryCatch
  rcases m h with ⟨r, evs⟩
  cases r <;> simp

theorem Eff.call_fst (c : Call) (answer : List Event → Except JsError α) (h : List Event) :
    (Eff.call c answer h).1 = answer h := rfl

theorem Eff.call_snd (c : Call) (answer : List Event → Except JsError α) (h : List Event) :
    (Eff.call c answer h).2 = [⟨c, threw (answer h)⟩] := rfl

theorem Eff.ofExcept_fst (r : Except JsError α) (h : List Event) : (Eff.ofExcept r h).1 = r := rfl

theorem Eff.ofExcept_snd (r : Except JsError α) (h : List Event) : (Eff.ofExcept r h).2 = [] := rfl

theorem Eff.read_fst (f : List Event → α) (h : List Event) : (Eff.read f h).1 = .ok (f h) := rfl

theorem Eff.read_snd (f : List Event → α) (h : List Event) : (Eff.read f h).2 = [] := rfl

theorem Eff.pure_fst (a : α) (h : List Event) : ((pure a : Eff α) h).1 = .ok a := rfl

theorem Eff.pure_snd (a : α) (h : List Event) : ((pure a : Eff α) h).2 = [] := rfl

end ProjectionLemmas

/-! ### Lists on which the status can be `completed` -/

theorem knownCount_eq_length (names : List String) (heq : knownCount names = names.length) :
    names.Nodup ∧ ∀ s ∈ names, s ∈ Platform.all.map Platform.name := by
  have hperm : List.Perm ((Platform.all.filter (fun p => p.name ∈ names)).map Platform.name)
      names := by
    apply (List.subperm_of_subset (knownNames_nodup names)
      (knownNames_subset names)).perm_of_length_le
    simp only [List.length_map]
    unfold knownCount at heq
    omega
  refine ⟨hperm.nodup_iff.1 (knownNames_nodup names), ?_⟩
  intro s hs
  have hmem := hperm.mem_iff.2 hs
  simp only [List.mem_map, List.mem_filter] at hmem ⊢
  obtain ⟨p, ⟨hp, -⟩, rfl⟩ := hmem
  exact ⟨p, hp, rfl⟩

theorem count4_eq : ∀ a1 a2 a3 a4 s1 s2 s3 s4 : Bool,
    (s1 = true → a1 = true) → (s2 = true → a2 = true) → (s3 = true → a3 = true) →
    (s4 = true → a4 = true) → count4 s1 s2 s3 s4 = count4 a1 a2 a3 a4 →
    s1 = a1 ∧ s2 = a2 ∧ s3 = a3 ∧ s4 = a4 := by
  intro a1 a2 a3 a4 s1 s2 s3 s4
  cases a1 <;> cases a2 <;> cases a3 <;> cases a4 <;> cases s1 <;> cases s2 <;> cases s3 <;>
    cases s4 <;> decide

theorem statusOf_completed_iff (c n : Nat) :
    statusOf c (.num n) = "completed" ↔ c ≠ 0 ∧ c = n := by
  rw [statusOf_num]
  by_cases hc : c = 0
  · simp [hc]
  · by_cases hn : c = n <;> simp [hc, hn]

/-! ### The runs of the LinkedIn and Twitter adapters -/

theorem Eff.tryCatch_fst {α : Type} (m : Eff α) (g : JsError → α) (h : List Event) :
    (Eff.tryCatch m (fun e => pure (g e)) h).1
      = match (m h).1 with
        | .ok a => .ok a
        | .error e => .ok (g e) := by
  unfold Eff.tryCatch
  rcases m h with ⟨r, evs⟩
  cases r <;> rfl

theorem mediaExists_snd (w : World) (mediaPath : JsVal) (h : List Event) :
    (mediaExists w mediaPath h).2 = mediaCheck mediaPath := by
  unfold mediaExists mediaCheck
  split <;> rfl

theorem mediaExists_fst (w : World) (mediaPath : JsVal) (h : List Event) :
    (mediaExists w mediaPath h).1 = .ok (mediaPath.truthy && w.existsSync h mediaPath) := by
  unfold mediaExists
  split
  · rename_i ht
    simp [Eff.call, ht]
  · rename_i ht
    simp [ht]

theorem postToLinkedIn_run (w : World) (content mediaPath accessToken profileId : JsVal)
    (h : List Event) :
    postToLinkedIn w content mediaPath accessToken profileId h
      = (.ok (linkedinOutcome
            (w.axiosPost (h ++ mediaCheck mediaPath) linkedinUrl
              (linkedinPostData content mediaPath profileId) (linkedinConfig accessToken))
            (w.now (h ++ mediaCheck mediaPath
              ++ [⟨.axiosPost linkedinUrl (linkedinPostData content mediaPath profileId)
                    (linkedinConfig accessToken),
                  threw (w.axiosPost (h ++ mediaCheck mediaPath) linkedinUrl
                    (linkedinPostData content mediaPath profileId)
                    (linkedinConfig accessToken))⟩]))),
          mediaCheck mediaPath
            ++ [⟨.axiosPost linkedinUrl (linkedinPostData content mediaPath profileId)
                  (linkedinConfig accessToken),
                threw (w.axiosPost (h ++ mediaCheck mediaPath) linkedinUrl
                  (linkedinPostData content mediaPath profileId)
                  (linkedinConfig accessToken))⟩]) := by
  apply Prod.ext
  · unfold postToLinkedIn
    rw [Eff.tryCatch_fst]
    unfold postToLinkedInTry linkedinOutcome
    simp only [Eff.bind_fst, Eff.bind_snd, mediaExists_fst, mediaExists_snd, Eff.call_fst,
      Eff.call_snd, Eff.ofExcept_fst, Eff.ofExcept_snd, Eff.read_fst, Eff.pure_fst,
      List.append_nil]
    repeat' split
    all_goals simp_all
  · unfold postToLinkedIn
    rw [Eff.tryCatch_snd]
    unfold postToLinkedInTry
    simp only [Eff.bind_fst, Eff.bind_snd, mediaExists_fst, mediaExists_snd, Eff.call_fst,
      Eff.call_snd, Eff.ofExcept_fst, Eff.ofExcept_snd, Eff.read_fst, Eff.read_snd,
      Eff.pure_fst, Eff.pure_snd, List.append_nil]
    repeat' split
    all_goals simp_all

/-! ### The adapters when a call may throw any value -/

section EffAnyLemmas

variable {α β : Type}

theorem EffAny.runAny_pure (a : α) (h : List Event) : (pure a : EffAny α) h = (.ok a, []) := rfl

theorem EffAny.runAny_bind (m : EffAny α) (f : α → EffAny β) (h : List Event) :
    (m >>= f) h = EffAny.bind m f h := rfl

theorem EffAny.faithfulAny_pure (a : α) : EffAny.Faithful (pure a : EffAny α) := by
  intro h hev
  simp [EffAny.runAny_pure] at hev

theorem EffAny.faithfulAny_ofExcept (r : Except JsError α) : EffAny.Faithful (EffAny.ofExcept r) := by
  intro h hev
  cases r <;> simp [EffAny.ofExcept] at hev

theorem EffAny.faithfulAny_read (f : List Event → α) : EffAny.Faithful (EffAny.read f) := by
  intro h hev
  simp [EffAny.read] at hev

theorem EffAny.faithfulAny_call (w : AnyWorld) (c : Call) : EffAny.Faithful (w.call c) := by
  intro h hev
  simpa [AnyWorld.call] using hev

theorem EffAny.faithfulAny_bind {m : EffAny α} {f : α → EffAny β} (hm : EffAny.Faithful m)
    (hf : ∀ a, EffAny.Faithful (f a)) : EffAny.Faithful (m >>= f) := by
  intro h hev
  have hm' := hm h
  rw [EffAny.runAny_bind] at hev ⊢
  unfold EffAny.bind at hev ⊢
  rcases hrun : m h with ⟨r, evs⟩
  rw [hrun] at hev hm'
  cases r with
  | error e => rfl
  | ok a =>
    simp only [List.mem_append] at hev
    obtain ⟨ev, hmem | hmem, hthrew⟩ := hev
    · have := hm' ⟨ev, hmem, hthrew⟩
      simp [threwAny] at this
    · exact hf a (h ++ evs) ⟨ev, hmem, hthrew⟩

theorem EffAny.faithfulAny_ite {c : Prop} [Decidable c] {m n : EffAny α} (hm : EffAny.Faithful m)
    (hn : EffAny.Faithful n) : EffAny.Faithful (if c then m else n) := by
  split
  · exact hm
  · exact hn

theorem EffAny.throws_pure (P : JsVal → Prop) (a : α) : EffAny.Throws P (pure a : EffAny α) := by
  intro h v hv
  simp [EffAny.runAny_pure] at hv

theorem EffAny.throws_ofExcept {P : JsVal → Prop} (r : Except JsError α)
    (hP : ∀ e : JsError, P e.toVal) : EffAny.Throws P (EffAny.ofExcept r) := by
  intro h v hv
  cases r with
  | ok a => simp [EffAny.ofExcept] at hv
  | error e =>
    simp only [EffAny.ofExcept, Except.error.injEq] at hv
    exact hv ▸ hP e

theorem EffAny.throws_read (P : JsVal → Prop) (f : List Event → α) :
    EffAny.Throws P (EffAny.read f) := by
  intro h v hv
  simp [EffAny.read] at hv

theorem EffAny.throws_call {P : JsVal → Prop} (w : AnyWorld) (c : Call)
    (hw : ∀ h c v, w.answer h c = .error v → P v) : EffAny.Throws P (w.call c) := by
  intro h v hv
  exact hw h c v hv

theorem EffAny.throws_bind {P : JsVal → Prop} {m : EffAny α} {f : α → EffAny β}
    (hm : EffAny.Throws P m) (hf : ∀ a, EffAny.Throws P (f a)) : EffAny.Throws P (m >>= f) := by
  intro h v hv
  have hm' := hm h
  rw [EffAny.runAny_bind] at hv
  unfold EffAny.bind at hv
  rcases hrun : m h with ⟨r, evs⟩
  rw [hrun] at hv hm'
  cases r with
  | error e => exact hm' v (by simpa using hv)
  | ok a => exact hf a (h ++ evs) v (by simpa using hv)

theorem EffAny.throws_ite {P : JsVal → Prop} {c : Prop} [Decidable c] {m n : EffAny α}
    (hm : EffAny.Throws P m) (hn : EffAny.Throws P n) : EffAny.Throws P (if c then m else n) := by
  split
  · exact hm
  · exact hn

/-- When the adapter has returned, the code that follows it runs. -/
theorem EffAny.bindAny_of_ok {m : EffAny α} {a : α} {evs h : List Event} (f : α → EffAny β)
    (hm : m h = (.ok a, evs)) :
    (m >>= f) h = ((f a (h ++ evs)).1, evs ++ (f a (h ++ evs)).2) := by
  rw [EffAny.runAny_bind]
  unfold EffAny.bind
  rw [hm]

end EffAnyLemmas

theorem AnyThrow.mediaExistsAny_faithful (w : AnyWorld) (mediaPath : JsVal) :
    EffAny.Faithful (AnyThrow.mediaExists w mediaPath) := by
  unfold AnyThrow.mediaExists
  split
  · intro h hev
    simp at hev
  · exact EffAny.faithfulAny_pure _

theorem AnyThrow.mediaExistsAny_throws (P : JsVal → Prop) (w : AnyWorld) (mediaPath : JsVal) :
    EffAny.Throws P (AnyThrow.mediaExists w mediaPath) := by
  unfold AnyThrow.mediaExists
  split
  · intro h v hv
    simp at hv
  · exact EffAny.throws_pure _ _

/-- The statement `try { m } catch (error) { return handler(error) }`, where the
`catch` returns a failure with a truthy error on every caught value that is not
`null` or `undefined`: when `m` throws no such value, the statement returns. -/
theorem EffAny.tryCatch_returns {m : EffAny Outcome} {handler : JsVal → Except JsError Outcome}
    (hf : EffAny.Faithful m) (ht : EffAny.Throws (fun v => v.isNullish = false) m)
    (hc : ∀ v, v.isNullish = false →
      ∃ o, handler v = .ok o ∧ o.success = false ∧ o.error.truthy = true) :
    ReturnsOutcome (EffAny.tryCatch m (fun error => EffAny.ofExcept (handler error))) := by
  intro h
  have hf' := hf h
  have ht' := ht h
  rcases hrun : m h with ⟨r, evs⟩
  rw [hrun] at hf' ht'
  cases r with
  | ok a =>
    have hres : EffAny.tryCatch m (fun error => EffAny.ofExcept (handler error)) h
        = (.ok a, evs) := by
      simp [EffAny.tryCatch, hrun]
    refine ⟨a, evs, hres, ?_, fun β next => EffAny.bindAny_of_ok next hres⟩
    intro hev
    have := hf' hev
    simp [threwAny] at this
  | error v =>
    obtain ⟨o, ho, hs, he⟩ := hc v (ht' v rfl)
    have hres : EffAny.tryCatch m (fun error => EffAny.ofExcept (handler error)) h
        = (.ok o, evs) := by
      simp [EffAny.tryCatch, hrun, EffAny.ofExcept, ho]
    exact ⟨o, evs, hres, fun _ => ⟨hs, he⟩, fun β next => EffAny.bindAny_of_ok next hres⟩

/-- The statement `try { m } catch (error) { return handler(error) }` throws
only what the `catch` throws. -/
theorem EffAny.tryCatch_throws {m : EffAny Outcome} {handler : JsVal → Except JsError Outcome}
    (hc : ∀ v e, handler v = .error e → e.toVal.get "name" = .str "TypeError") :
    ThrowsOnlyTypeError (EffAny.tryCatch m (fun error => EffAny.ofExcept (handler error))) := by
  intro h v evs hv
  unfold EffAny.tryCatch at hv
  rcases hrun : m h with ⟨r, evs'⟩
  rw [hrun] at hv
  cases r with
  | ok a => simp at hv
  | error u =>
    cases hh : handler u with
    | ok o => simp [EffAny.ofExcept, hh] at hv
    | error e =>
      simp only [EffAny.ofExcept, hh, Prod.mk.injEq, Except.error.injEq] at hv
      rw [← hv.1]
      exact hc u e hh

theorem getProp_ok (v : JsVal) (k : String) (hv : v.isNullish = false) :
    getProp v k = .ok (v.get k) := by
  simp [getProp, hv]

theorem getProp_error (v : JsVal) (k : String) (e : JsError) (he : getProp v k = .error e) :
    v.isNullish = true ∧ e.toVal.get "name" = .str "TypeError" := by
  unfold getProp at he
  split at he
  · rename_i hn
    simp only [Except.error.injEq] at he
    subst he
    exact ⟨hn, rfl⟩
  · cases he

theorem postToTwitterCatch_ok (v : JsVal) (hv : v.isNullish = false) :
    ∃ o, postToTwitterCatch v = .ok o ∧ o.success = false ∧ o.error.truthy = true :=
  ⟨⟨false, .undefined, (v.get "message").orElse (.str "Failed to post to Twitter"), .undefined⟩,
    by simp [postToTwitterCatch, getProp_ok _ _ hv, bind, Except.bind, pure, Except.pure], rfl,
    JsVal.orElse_truthy _ _ rfl⟩

theorem responseOrOwnMessage_ok (v : JsVal) (hv : v.isNullish = false) :
    ∃ message, responseOrOwnMessage v = .ok message := by
  unfold responseOrOwnMessage
  simp only [getProp_ok _ _ hv, bind, Except.bind, pure, Except.pure]
  split
  · exact ⟨_, rfl⟩
  · exact ⟨_, rfl⟩

theorem postToFacebookCatch_ok (v : JsVal) (hv : v.isNullish = false) :
    ∃ o, postToFacebookCatch v = .ok o ∧ o.success = false ∧ o.error.truthy = true := by
  obtain ⟨message, hm⟩ := responseOrOwnMessage_ok v hv
  exact ⟨⟨false, .undefined, message.orElse (.str "Failed to post to Facebook"), .undefined⟩,
    by simp [postToFacebookCatch, getProp_ok _ _ hv, hm, bind, Except.bind, pure, Except.pure],
    rfl, JsVal.orElse_truthy _ _ rfl⟩

theorem postToTikTokCatch_ok (v : JsVal) (hv : v.isNullish = false) :
    ∃ o, postToTikTokCatch v = .ok o ∧ o.success = false ∧ o.error.truthy = true := by
  obtain ⟨message, hm⟩ := responseOrOwnMessage_ok v hv
  exact ⟨⟨false, .undefined, message.orElse (.str "Failed to post to TikTok"), .undefined⟩,
    by simp [postToTikTokCatch, getProp_ok _ _ hv, hm, bind, Except.bind, pure, Except.pure],
    rfl, JsVal.orElse_truthy _ _ rfl⟩

theorem postToLinkedInCatch_ok (v : JsVal) (hv : v.isNullish = false) :
    ∃ o, postToLinkedInCatch v = .ok o ∧ o.success = false ∧ o.error.truthy = true := by
  unfold postToLinkedInCatch
  simp only [getProp_ok _ _ hv, bind, Except.bind, pure, Except.pure]
  cases ht : (((v.get "response").optGet "data").optGet "message").truthy
  · exact ⟨⟨false, .undefined, (v.get "message").orElse (.str "Failed to post to LinkedIn"),
      .undefined⟩, by simp, rfl, JsVal.orElse_truthy _ _ rfl⟩
  · exact ⟨⟨false, .undefined, (((v.get "response").optGet "data").optGet "message").orElse
      (.str "Failed to post to LinkedIn"), .undefined⟩, by simp, rfl, JsVal.orElse_truthy _ _ rfl⟩

theorem postToTwitterCatch_error (v : JsVal) (e : JsError) (he : postToTwitterCatch v = .error e) :
    e.toVal.get "name" = .str "TypeError" := by
  by_cases hv : v.isNullish = true
  · simp [postToTwitterCatch, getProp, hv, bind, Except.bind] at he
    subst he
    rfl
  · obtain ⟨o, ho, -⟩ := postToTwitterCatch_ok v (by simpa using hv)
    rw [ho] at he
    cases he

theorem postToFacebookCatch_error (v : JsVal) (e : JsError)
    (he : postToFacebookCatch v = .error e) : e.toVal.get "name" = .str "TypeError" := by
  by_cases hv : v.isNullish = true
  · simp [postToFacebookCatch, getProp, hv, bind, Except.bind] at he
    subst he
    rfl
  · obtain ⟨o, ho, -⟩ := postToFacebookCatch_ok v (by simpa using hv)
    rw [ho] at he
    cases he

theorem postToTikTokCatch_error (v : JsVal) (e : JsError)
    (he : postToTikTokCatch v = .error e) : e.toVal.get "name" = .str "TypeError" := by
  by_cases hv : v.isNullish = true
  · simp [postToTikTokCatch, getProp, hv, bind, Except.bind] at he
    subst he
    rfl
  · obtain ⟨o, ho, -⟩ := postToTikTokCatch_ok v (by simpa using hv)
    rw [ho] at he
    cases he

theorem postToLinkedInCatch_error (v : JsVal) (e : JsError)
    (he : postToLinkedInCatch v = .error e) : e.toVal.get "name" = .str "TypeError" := by
  by_cases hv : v.isNullish = true
  · simp [postToLinkedInCatch, getProp, hv, bind, Except.bind] at he
    subst he
    rfl
  · obtain ⟨o, ho, -⟩ := postToLinkedInCatch_ok v (by simpa using hv)
    rw [ho] at he
    cases he

theorem AnyThrow.postToTwitter_returns (w : AnyWorld)
    (hw : ∀ h c v, w.answer h c = .error v → v.isNullish = false)
    (content mediaPath : JsVal) (credentials : TwitterAccount) :
    ReturnsOutcome (AnyThrow.postToTwitter w content mediaPath credentials) := by
  unfold AnyThrow.postToTwitter
  apply EffAny.tryCatch_returns
  · unfold AnyThrow.postToTwitterTry
    repeat (first
      | exact EffAny.faithfulAny_pure _
      | exact EffAny.faithfulAny_call _ _
      | exact EffAny.faithfulAny_ofExcept _
      | exact EffAny.faithfulAny_read _
      | exact AnyThrow.mediaExistsAny_faithful _ _
      | refine EffAny.faithfulAny_bind ?_ (fun _ => ?_)
      | apply EffAny.faithfulAny_ite)
  · unfold AnyThrow.postToTwitterTry
    repeat (first
      | exact EffAny.throws_pure _ _
      | exact EffAny.throws_call _ _ hw
      | exact EffAny.throws_ofExcept _ (fun _ => rfl)
      | exact EffAny.throws_read _ _
      | exact AnyThrow.mediaExistsAny_throws _ _ _
      | refine EffAny.throws_bind ?_ (fun _ => ?_)
      | apply EffAny.throws_ite)
  · exact postToTwitterCatch_ok

theorem AnyThrow.postToFacebook_returns (w : AnyWorld)
    (hw : ∀ h c v, w.answer h c = .error v → v.isNullish = false)
    (content mediaPath pageId accessToken : JsVal) :
    ReturnsOutcome (AnyThrow.postToFacebook w content mediaPath pageId accessToken) := by
  unfold AnyThrow.postToFacebook
  apply EffAny.tryCatch_returns
  · unfold AnyThrow.postToFacebookTry
    repeat (first
      | exact EffAny.faithfulAny_pure _
      | exact EffAny.faithfulAny_call _ _
      | exact EffAny.faithfulAny_ofExcept _
      | exact EffAny.faithfulAny_read _
      | exact AnyThrow.mediaExistsAny_faithful _ _
      | refine EffAny.faithfulAny_bind ?_ (fun _ => ?_)
      | apply EffAny.faithfulAny_ite)
  · unfold AnyThrow.postToFacebookTry
    repeat (first
      | exact EffAny.throws_pure _ _
      | exact EffAny.throws_call _ _ hw
      | exact EffAny.throws_ofExcept _ (fun _ => rfl)
      | exact EffAny.throws_read _ _
      | exact AnyThrow.mediaExistsAny_throws _ _ _
      | refine EffAny.throws_bind ?_ (fun _ => ?_)
      | apply EffAny.throws_ite)
  · exact postToFacebookCatch_ok

theorem AnyThrow.postToTikTok_returns (w : AnyWorld)
    (hw : ∀ h c v, w.answer h c = .error v → v.isNullish = false)
    (content mediaPath accessToken : JsVal) :
    ReturnsOutcome (AnyThrow.postToTikTok w content mediaPath accessToken) := by
  unfold AnyThrow.postToTikTok
  apply EffAny.tryCatch_returns
  · unfold AnyThrow.postToTikTokTry
    repeat (first
      | exact EffAny.faithfulAny_pure _
      | exact EffAny.faithfulAny_call _ _
      | exact EffAny.faithfulAny_ofExcept _
      | exact EffAny.faithfulAny_read _
      | exact AnyThrow.mediaExistsAny_faithful _ _
      | refine EffAny.faithfulAny_bind ?_ (fun _ => ?_)
      | apply EffAny.faithfulAny_ite)
  · unfold AnyThrow.postToTikTokTry
    repeat (first
      | exact EffAny.throws_pure _ _
      | exact EffAny.throws_call _ _ hw
      | exact EffAny.throws_ofExcept _ (fun _ => rfl)
      | exact EffAny.throws_read _ _
      | exact AnyThrow.mediaExistsAny_throws _ _ _
      | refine EffAny.throws_bind ?_ (fun _ => ?_)
      | apply EffAny.throws_ite)
  · exact postToTikTokCatch_ok

theorem AnyThrow.postToLinkedIn_returns (w : AnyWorld)
    (hw : ∀ h c v, w.answer h c = .error v → v.isNullish = false)
    (content mediaPath accessToken profileId : JsVal) :
    ReturnsOutcome (AnyThrow.postToLinkedIn w content mediaPath accessToken profileId) := by
  unfold AnyThrow.postToLinkedIn
  apply EffAny.tryCatch_returns
  · unfold AnyThrow.postToLinkedInTry
    repeat (first
      | exact EffAny.faithfulAny_pure _
      | exact EffAny.faithfulAny_call _ _
      | exact EffAny.faithfulAny_ofExcept _
      | exact EffAny.faithfulAny_read _
      | exact AnyThrow.mediaExistsAny_faithful _ _
      | refine EffAny.faithfulAny_bind ?_ (fun _ => ?_)
      | apply EffAny.faithfulAny_ite)
  · unfold AnyThrow.postToLinkedInTry
    repeat (first
      | exact EffAny.throws_pure _ _
      | exact EffAny.throws_call _ _ hw
      | exact EffAny.throws_ofExcept _ (fun _ => rfl)
      | exact EffAny.throws_read _ _
      | exact AnyThrow.mediaExistsAny_throws _ _ _
      | refine EffAny.throws_bind ?_ (fun _ => ?_)
      | apply EffAny.throws_ite)
  · exact postToLinkedInCatch_ok

/-! ### The restricted adapters as a case of the unrestricted ones -/

section AgreesLemmas

variable {α β : Type}

theorem Agrees.pure (a : α) : Agrees (pure a : Eff α) (pure a : EffAny α) := fun _ => rfl

theorem Agrees.ofExcept (r : Except JsError α) : Agrees (Eff.ofExcept r) (EffAny.ofExcept r) := by
  intro h
  cases r <;> rfl

theorem Agrees.read (f : List Event → α) : Agrees (Eff.read f) (EffAny.read f) := fun _ => rfl

theorem threwAny_liftResult (r : Except JsError α) : threwAny (liftResult r) = threw r := by
  cases r <;> rfl

theorem Agrees.call (w : World) (c : Call) (answer : List Event → Except JsError JsVal)
    (hc : ∀ h, w.toAny.answer h c = liftResult (answer h)) :
    Agrees (Eff.call c answer) (w.toAny.call c) := by
  intro h
  simp only [AnyWorld.call, Eff.call, hc, threwAny_liftResult]

theorem AgreesUnit.call_unit (w : World) (c : Call) (answer : List Event → Except JsError Unit)
    (hc : ∀ h, w.toAny.answer h c = liftResult ((answer h).map (fun _ => JsVal.undefined))) :
    AgreesUnit (Eff.call c answer) (w.toAny.call c) := by
  intro h
  simp only [AnyWorld.call, Eff.call, hc, threwAny_liftResult]
  cases answer h <;> simp [Except.map, threw]

theorem Agrees.bind {m : Eff α} {n : EffAny α} {f : α → Eff β} {g : α → EffAny β}
    (hm : Agrees m n) (hf : ∀ a, Agrees (f a) (g a)) : Agrees (m >>= f) (n >>= g) := by
  intro h
  rw [EffAny.runAny_bind, Eff.run_bind]
  unfold EffAny.bind Eff.bind
  rw [hm h]
  rcases m h with ⟨r, evs⟩
  cases r with
  | error e => rfl
  | ok a => simp only [liftResult, hf a (h ++ evs)]

theorem Agrees.bind_unit {m : Eff Unit} {n : EffAny JsVal} {f : Unit → Eff β}
    {g : JsVal → EffAny β} (hm : AgreesUnit m n) (hf : ∀ x, Agrees (f ()) (g x)) :
    Agrees (m >>= f) (n >>= g) := by
  intro h
  rw [EffAny.runAny_bind, Eff.run_bind]
  unfold EffAny.bind Eff.bind
  obtain ⟨hevs, hres⟩ := hm h
  rcases hn : n h with ⟨s, evs'⟩
  rcases hmm : m h with ⟨r, evs⟩
  rw [hn, hmm] at hevs hres
  simp only at hevs hres
  subst hevs
  cases r with
  | error e =>
    simp only [Except.map, liftResult] at hres
    subst hres
    rfl
  | ok a =>
    simp only [Except.map, liftResult] at hres
    subst hres
    simp only [liftResult, hf _ (h ++ evs')]

theorem Agrees.ite {c : Prop} [Decidable c] {m m' : Eff α} {n n' : EffAny α}
    (hm : Agrees m n) (hn : Agrees m' n') :
    Agrees (if c then m else m') (if c then n else n') := by
  split
  · exact hm
  · exact hn

theorem Agrees.tryCatch {m : Eff α} {n : EffAny α} {f : JsError → Eff α} {g : JsVal → EffAny α}
    (hm : Agrees m n) (hf : ∀ e, Agrees (f e) (g e.toVal)) :
    Agrees (Eff.tryCatch m f) (EffAny.tryCatch n g) := by
  intro h
  unfold EffAny.tryCatch Eff.tryCatch
  rw [hm h]
  rcases m h with ⟨r, evs⟩
  cases r with
  | ok a => rfl
  | error e => simp only [liftResult, hf e (h ++ evs)]

end AgreesLemmas

theorem mediaExists_agrees (w : World) (mediaPath : JsVal) :
    Agrees (mediaExists w mediaPath) (AnyThrow.mediaExists w.toAny mediaPath) := by
  unfold mediaExists AnyThrow.mediaExists
  split
  · intro h
    rfl
  · exact Agrees.pure _

theorem postToTwitter_agrees (w : World) (content mediaPath : JsVal)
    (credentials : TwitterAccount) :
    Agrees (postToTwitter w content mediaPath credentials)
      (AnyThrow.postToTwitter w.toAny content mediaPath credentials) := by
  unfold postToTwitter AnyThrow.postToTwitter
  apply Agrees.tryCatch
  · unfold postToTwitterTry AnyThrow.postToTwitterTry
    repeat (first
      | exact Agrees.pure _
      | exact Agrees.ofExcept _
      | exact Agrees.read _
      | exact mediaExists_agrees _ _
      | exact Agrees.call _ _ _ (fun _ => rfl)
      | exact AgreesUnit.call_unit _ _ _ (fun _ => rfl)
      | refine Agrees.bind ?_ (fun _ => ?_)
      | refine Agrees.bind_unit ?_ (fun _ => ?_)
      | apply Agrees.ite)
  · intro e h
    rfl

theorem responseOrOwnMessage_toVal (e : JsError) :
    responseOrOwnMessage e.toVal = .ok ((responseErrorMessage e).orElse (e.get "message")) := by
  unfold responseOrOwnMessage responseErrorMessage JsVal.orElse
  simp only [getProp, JsError.toVal, JsVal.isNullish, JsVal.get, JsError.get, bind, Except.bind,
    pure, Except.pure, Bool.false_eq_true, if_false]
  split <;> rfl

theorem postToFacebookCatch_toVal (e : JsError) :
    postToFacebookCatch e.toVal = .ok ⟨false, .undefined,
      ((responseErrorMessage e).orElse (e.get "message")).orElse
        (.str "Failed to post to Facebook"), .undefined⟩ := by
  unfold postToFacebookCatch
  rw [responseOrOwnMessage_toVal]
  rfl

theorem postToTikTokCatch_toVal (e : JsError) :
    postToTikTokCatch e.toVal = .ok ⟨false, .undefined,
      ((responseErrorMessage e).orElse (e.get "message")).orElse
        (.str "Failed to post to TikTok"), .undefined⟩ := by
  unfold postToTikTokCatch
  rw [responseOrOwnMessage_toVal]
  rfl

theorem postToLinkedInCatch_toVal (e : JsError) :
    postToLinkedInCatch e.toVal = .ok ⟨false, .undefined,
      ((((e.get "response").optGet "data").optGet "message").orElse
        (e.get "message")).orElse (.str "Failed to post to LinkedIn"), .undefined⟩ := by
  unfold postToLinkedInCatch JsVal.orElse
  simp only [getProp, JsError.toVal, JsVal.isNullish, JsVal.get, JsError.get, bind, Except.bind,
    pure, Except.pure, Bool.false_eq_true, if_false]
  cases ht : ((((List.lookup "response" e.props).getD JsVal.undefined).optGet "data").optGet
    "message").truthy <;> simp

theorem postToFacebook_agrees (w : World) (content mediaPath pageId accessToken : JsVal) :
    Agrees (postToFacebook w content mediaPath pageId accessToken)
      (AnyThrow.postToFacebook w.toAny content mediaPath pageId accessToken) := by
  unfold postToFacebook AnyThrow.postToFacebook
  apply Agrees.tryCatch
  · unfold postToFacebookTry AnyThrow.postToFacebookTry
    repeat (first
      | exact Agrees.pure _
      | exact Agrees.ofExcept _
      | exact Agrees.read _
      | exact mediaExists_agrees _ _
      | exact Agrees.call _ _ _ (fun _ => rfl)
      | exact AgreesUnit.call_unit _ _ _ (fun _ => rfl)
      | refine Agrees.bind ?_ (fun _ => ?_)
      | refine Agrees.bind_unit ?_ (fun _ => ?_)
      | apply Agrees.ite)
  · intro e h
    simp only [EffAny.ofExcept, postToFacebookCatch_toVal]
    rfl

theorem postToTikTok_agrees (w : World) (content mediaPath accessToken : JsVal) :
    Agrees (postToTikTok w content mediaPath accessToken)
      (AnyThrow.postToTikTok w.toAny content mediaPath accessToken) := by
  unfold postToTikTok AnyThrow.postToTikTok
  apply Agrees.tryCatch
  · unfold postToTikTokTry AnyThrow.postToTikTokTry
    repeat (first
      | exact Agrees.pure _
      | exact Agrees.ofExcept _
      | exact Agrees.read _
      | exact mediaExists_agrees _ _
      | exact Agrees.call _ _ _ (fun _ => rfl)
      | exact AgreesUnit.call_unit _ _ _ (fun _ => rfl)
      | refine Agrees.bind ?_ (fun _ => ?_)
      | refine Agrees.bind_unit ?_ (fun _ => ?_)
      | apply Agrees.ite)
  · intro e h
    simp only [EffAny.ofExcept, postToTikTokCatch_toVal]
    rfl

theorem postToLinkedIn_agrees (w : World) (content mediaPath accessToken profileId : JsVal) :
    Agrees (postToLinkedIn w content mediaPath accessToken profileId)
      (AnyThrow.postToLinkedIn w.toAny content mediaPath accessToken profileId) := by
  unfold postToLinkedIn AnyThrow.postToLinkedIn
  apply Agrees.tryCatch
  · unfold postToLinkedInTry AnyThrow.postToLinkedInTry
    repeat (first
      | exact Agrees.pure _
      | exact Agrees.ofExcept _
      | exact Agrees.read _
      | exact mediaExists_agrees _ _
      | exact Agrees.call _ _ _ (fun _ => rfl)
      | exact AgreesUnit.call_unit _ _ _ (fun _ => rfl)
      | refine Agrees.bind ?_ (fun _ => ?_)
      | refine Agrees.bind_unit ?_ (fun _ => ?_)
      | apply Agrees.ite)
  · intro e h
    simp only [EffAny.ofExcept, postToLinkedInCatch_toVal]
    rfl

/-- Over a `World`, whose failing calls throw error objects, each of the four
adapters returns an outcome and never throws; when one of its calls threw, the
outcome has `success = false` and a truthy `error`; and the code that follows
the call of the adapter always runs. -/
theorem adapters_never_throw_on_error_objects (w : World) (content mediaPath : JsVal) :
    (∀ credentials, NeverThrows (postToTwitter w content mediaPath credentials))
    ∧ (∀ pageId accessToken, NeverThrows (postToFacebook w content mediaPath pageId accessToken))
    ∧ (∀ accessToken, NeverThrows (postToTikTok w content mediaPath accessToken))
    ∧ (∀ accessToken profileId,
        NeverThrows (postToLinkedIn w content mediaPath accessToken profileId)) :=
  ⟨fun _ => neverThrows_of_spec (postToTwitter_spec w _ _ _),
    fun _ _ => neverThrows_of_spec (postToFacebook_spec w _ _ _ _),
    fun _ => neverThrows_of_spec (postToTikTok_spec w _ _ _),
    fun _ _ => neverThrows_of_spec (postToLinkedIn_spec w _ _ _ _)⟩

/-! ## The claims -/

/-- C1: in the handler of `POST /create`, for a non-empty list `R` of distinct
platform names, any connection state and any behaviour of the adapters, with
`S` the platforms of `R` whose recorded entry has `posted = true`: the final
status is `completed` iff every platform of `R` is in `S`, `failed` iff none
is, and `partial` iff some is and some is not; a requested platform that is not
connected excludes `completed`.  A recorded `posted = true` only occurs for a
platform of `R` that is connected. -/
theorem C1_status_by_success_set (w : World) (req : CreateRequest) (R : List String) (user : User)
    (h : List Event) (hne : R ≠ []) (hnodup : R.Nodup)
    (hknown : ∀ s ∈ R, s ∈ Platform.all.map Platform.name)
    (hparse : w.jsonParse (req.platforms.orElse (.str "[]")).toJsString
      = .ok (.arr (R.map JsVal.str)))
    (hcontent : req.content.truthy = true)
    (huser : ∀ h', w.userFindById h' req.userId = .ok (some user))
    (hsave : ∀ h' post, w.postSave h' post = .ok ()) :
    ∃ post results, (createHandler w req h).1.post = some post
      ∧ (createHandler w req h).1.results = some results
      ∧ post.platforms = results
      ∧ (∀ p : Platform, (results.get p).posted = true →
          p.name ∈ R ∧ user.connectedAccounts.connected p = true)
      ∧ (post.status = "completed" ↔ ∀ p : Platform, p.name ∈ R → (results.get p).posted = true)
      ∧ (post.status = "failed" ↔ ∀ p : Platform, p.name ∈ R → (results.get p).posted = false)
      ∧ (post.status = "partial" ↔
          (∃ p : Platform, p.name ∈ R ∧ (results.get p).posted = true)
          ∧ (∃ p : Platform, p.name ∈ R ∧ (results.get p).posted = false))
      ∧ (∀ p : Platform, p.name ∈ R → user.connectedAccounts.connected p = false →
          post.status ≠ "completed") := by
  obtain ⟨results, hresp, hall⟩ :=
    createHandler_dispatch w req (R.map JsVal.str) user h hparse hcontent huser hsave
  have hposted : ∀ p : Platform, (results.get p).posted = true →
      p.name ∈ R ∧ user.connectedAccounts.connected p = true := by
    intro p hp
    have := (hall p).2.2.2 hp
    rw [requested_names, decide_eq_true_iff] at this
    exact this
  have hsome : (decide ("twitter" ∈ R) || decide ("linkedin" ∈ R) || decide ("facebook" ∈ R)
      || decide ("tiktok" ∈ R)) = true := by
    obtain ⟨s, hs⟩ := List.exists_mem_of_ne_nil R hne
    have hk := hknown s hs
    simp only [Platform.all, Platform.name, List.map, List.mem_cons, List.mem_nil_iff, List.not_mem_nil,
      or_false] at hk
    rcases hk with rfl | rfl | rfl | rfl <;> simp [hs]
  have hbools := status_bools (decide ("twitter" ∈ R)) (decide ("linkedin" ∈ R))
    (decide ("facebook" ∈ R)) (decide ("tiktok" ∈ R)) results.twitter.posted
    results.linkedin.posted results.facebook.posted results.tiktok.posted
    (fun hp => decide_eq_true (hposted .twitter hp).1)
    (fun hp => decide_eq_true (hposted .linkedin hp).1)
    (fun hp => decide_eq_true (hposted .facebook hp).1)
    (fun hp => decide_eq_true (hposted .tiktok hp).1) hsome
  rw [← successCount_eq, ← knownCount_count4, knownCount_eq R hnodup hknown] at hbools
  simp only [decide_eq_true_iff] at hbools
  obtain ⟨hcompleted, hfailed, hmixed⟩ := hbools
  rw [hresp]
  refine ⟨_, results, rfl, rfl, rfl, hposted, ?_, ?_, ?_, ?_⟩
  · simp only [List.length_map]
    rw [hcompleted, Platform.forall_iff]
    rfl
  · simp only [List.length_map]
    rw [hfailed, Platform.forall_iff]
    rfl
  · simp only [List.length_map]
    rw [hmixed, Platform.exists_iff, Platform.exists_iff]
    rfl
  · intro p hp hconn hstatus
    simp only [List.length_map] at hstatus
    have hforall : ∀ q : Platform, q.name ∈ R → (results.get q).posted = true :=
      (Platform.forall_iff _).2 (hcompleted.1 hstatus)
    have := (hposted p (hforall p hp)).2
    rw [hconn] at this
    cases this

theorem C1_status_by_success_set_witness :
    (sampleRequest (.str "Hello") (.str "[\"twitter\",\"tiktok\"]")).content.truthy = true
      ∧ ∃ post results,
        (createHandler (sampleWorld (some (sampleUser true false false false)) true
          (.ok sampleAnswer)) (sampleRequest (.str "Hello") (.str "[\"twitter\",\"tiktok\"]"))
          []).1.post = some post
        ∧ (createHandler (sampleWorld (some (sampleUser true false false false)) true
          (.ok sampleAnswer)) (sampleRequest (.str "Hello") (.str "[\"twitter\",\"tiktok\"]"))
          []).1.results = some results
        ∧ (post.status = "partial" ↔
            (∃ p : Platform, p.name ∈ ["twitter", "tiktok"] ∧ (results.get p).posted = true)
            ∧ (∃ p : Platform, p.name ∈ ["twitter", "tiktok"] ∧ (results.get p).posted = false)) := by
  refine ⟨rfl, ?_⟩
  obtain ⟨post, results, hpost, hresults, -, -, -, -, hmixed, -⟩ :=
    C1_status_by_success_set (sampleWorld (some (sampleUser true false false false)) true
      (.ok sampleAnswer)) (sampleRequest (.str "Hello") (.str "[\"twitter\",\"tiktok\"]"))
      ["twitter", "tiktok"] (sampleUser true false false false) [] (by decide) (by decide)
      (by decide) rfl rfl (fun _ => rfl) (fun _ _ => rfl)
  exact ⟨post, results, hpost, hresults, hmixed⟩

/-- C2 as stated fails: with content `Hello` and the `platforms` field the JSON
string `"xtwitterx-linkedin"`, the parsed value is a string and not a list, so
`twitter` is not an element of a requested list; yet `includes` is then a
substring test, and for a user whose Twitter account is connected the adapter
of Twitter is entered once and sends its tweet. -/
theorem C2_substring_counterexample :
    (sampleRequest (.str "Hello") (.str "\"xtwitterx-linkedin\"")).content.truthy = true
      ∧ sampleParse "\"xtwitterx-linkedin\"" = .ok (.str "xtwitterx-linkedin")
      ∧ (∀ xs : List JsVal, JsVal.str "xtwitterx-linkedin" ≠ .arr xs)
      ∧ adapterCalls .twitter (createHandler (sampleWorld
          (some (sampleUser true false false false)) true (.ok sampleAnswer))
          (sampleRequest (.str "Hello") (.str "\"xtwitterx-linkedin\"")) []).2 = 1
      ∧ httpCalls (createHandler (sampleWorld
          (some (sampleUser true false false false)) true (.ok sampleAnswer))
          (sampleRequest (.str "Hello") (.str "\"xtwitterx-linkedin\"")) []).2
        = [.tweet (.obj [("text", .str "Hello")])]
      ∧ ((createHandler (sampleWorld
          (some (sampleUser true false false false)) true (.ok sampleAnswer))
          (sampleRequest (.str "Hello") (.str "\"xtwitterx-linkedin\"")) []).1.results.map
            (fun r => r.twitter.posted)) = some true := by
  refine ⟨rfl, rfl, ?_, by decide, rfl, by decide⟩
  intro xs hxs
  cases hxs

/-- C2, amended: in the handler of `POST /create`, on a request that reaches the
platform blocks (content present, `platforms` parsed, user found, post saved).
When the parsed value is an array or a string, the handler answers `Post
published` and its calls are the user lookup, the first save, the calls of the
four blocks in the order twitter, linkedin, facebook, tiktok, and the second
save.  For each platform `p`, with `included` the value of
`selectedPlatforms.includes(name)`, which is membership for an array and
substring search for a string: when `included` holds and the account of `p` is
connected, the block of `p` is the entry into the adapter followed by the calls
of one run of the adapter of `p` with the arguments of the handler, started
after that entry, the adapter returns an outcome, the entry of `p` is that
outcome, and it has `posted = true` or a truthy `error`; otherwise the block of
`p` is empty and the entry of `p` is `{ posted: false }` with `postId`, `error`
and `postedAt` undefined.  When the parsed value is neither an array nor a
string, `includes` throws in the first block: the answer is the 500 of the
`catch` and nothing is called after the first save. -/
theorem C2_adapter_run_iff_included_and_connected (w : World) (req : CreateRequest)
    (selected : JsVal) (user : User) (h : List Event)
    (hparse : w.jsonParse (req.platforms.orElse (.str "[]")).toJsString = .ok selected)
    (hcontent : req.content.truthy = true)
    (huser : ∀ h', w.userFindById h' req.userId = .ok (some user))
    (hsave : ∀ h' post, w.postSave h' post = .ok ()) :
    (((∃ xs, selected = .arr xs) ∨ (∃ s, selected = .str s)) →
      ∃ (results : Results) (block : Platform → List Event) (final : Post),
        createHandler w req h =
          (⟨200, "Post published", .undefined, some final, some results⟩,
            [⟨.userFindById req.userId, false⟩, ⟨.postSave (newPost req), false⟩]
              ++ block .twitter ++ block .linkedin ++ block .facebook ++ block .tiktok
              ++ [⟨.postSave final, false⟩])
        ∧ final.platforms = results
        ∧ ∀ p : Platform, ∃ included : Bool,
            includes selected p.name = .ok included
            ∧ (∀ xs, selected = .arr xs → (included = true ↔ JsVal.str p.name ∈ xs))
            ∧ (∀ s, selected = .str s → included = strIncludes s p.name)
            ∧ ((included = true ∧ user.connectedAccounts.connected p = true) →
                ∃ o rest,
                  adapterOf w req user p
                      (h ++ [⟨.userFindById req.userId, false⟩,
                          ⟨.postSave (newPost req), false⟩]
                        ++ blocksBefore block p ++ [entered req p]) = (.ok o, rest)
                    ∧ block p = entered req p :: rest
                    ∧ results.get p = ⟨o.success, o.postId, o.error, o.postedAt⟩
                    ∧ (o.success = true ∨ o.error.truthy = true)
                    ∧ adapterCalls p (createHandler w req h).2 = 1)
            ∧ (¬ (included = true ∧ user.connectedAccounts.connected p = true) →
                block p = [] ∧ results.get p = ⟨false, .undefined, .undefined, .undefined⟩
                  ∧ adapterCalls p (createHandler w req h).2 = 0))
    ∧ (¬ ((∃ xs, selected = .arr xs) ∨ (∃ s, selected = .str s)) →
        (createHandler w req h).1.status = 500
          ∧ (createHandler w req h).1.message = "Server error"
          ∧ (createHandler w req h).1.results = none
          ∧ (createHandler w req h).2
            = [⟨.userFindById req.userId, false⟩, ⟨.postSave (newPost req), false⟩]) := by
  constructor
  · rintro (⟨xs, rfl⟩ | ⟨s, rfl⟩)
    · obtain ⟨results, block, hrun, hall⟩ :=
        createHandler_blocks w req (.arr xs) user h (requested xs) (.num xs.length) hparse
          (fun _ => rfl) rfl hcontent huser hsave
      refine ⟨results, block, _, hrun, rfl, fun p => ⟨requested xs p, rfl, ?_, ?_, hall p⟩⟩
      · intro ys hys
        cases hys
        exact requested_iff_mem xs p
      · intro s hs
        cases hs
    · obtain ⟨results, block, hrun, hall⟩ :=
        createHandler_blocks w req (.str s) user h (fun p => strIncludes s p.name)
          (.num (JsVal.utf16Length s)) hparse (fun _ => rfl) rfl hcontent huser hsave
      refine ⟨results, block, _, hrun, rfl, fun p => ⟨strIncludes s p.name, rfl, ?_, ?_, hall p⟩⟩
      · intro ys hys
        cases hys
      · intro t ht
        cases ht
        rfl
  · intro hshape
    unfold createHandler createTry
    simp only [Eff.run_bind, Eff.bind, Eff.ofExcept, hparse, hcontent, Eff.call, huser, hsave,
      threw, List.append_nil, List.nil_append, Bool.not_true, Bool.false_eq_true, if_false,
      ↓reduceIte]
    cases selected with
    | arr xs => exact absurd (Or.inl ⟨xs, rfl⟩) hshape
    | str s => exact absurd (Or.inr ⟨s, rfl⟩) hshape
    | _ => simp [dispatch, includes, Eff.run_bind, Eff.bind, Eff.ofExcept]

theorem C2_adapter_run_iff_included_and_connected_witness :
    (sampleRequest (.str "Hello") (.str "\"xtwitterx-linkedin\"")).content.truthy = true
      ∧ ∃ (results : Results) (block : Platform → List Event),
          (createHandler (sampleWorld (some (sampleUser true false false false)) true
            (.error ⟨[]⟩)) (sampleRequest (.str "Hello") (.str "\"xtwitterx-linkedin\""))
            []).1.results = some results
          ∧ (∃ o rest,
              adapterOf (sampleWorld (some (sampleUser true false false false)) true
                  (.error ⟨[]⟩)) (sampleRequest (.str "Hello") (.str "\"xtwitterx-linkedin\""))
                  (sampleUser true false false false) .twitter
                  ([] ++ [⟨.userFindById "u1", false⟩,
                      ⟨.postSave (newPost (sampleRequest (.str "Hello")
                        (.str "\"xtwitterx-linkedin\""))), false⟩]
                    ++ blocksBefore block .twitter
                    ++ [entered (sampleRequest (.str "Hello") (.str "\"xtwitterx-linkedin\""))
                      .twitter]) = (.ok o, rest)
                ∧ block .twitter
                  = entered (sampleRequest (.str "Hello") (.str "\"xtwitterx-linkedin\""))
                      .twitter :: rest
                ∧ results.get .twitter = ⟨o.success, o.postId, o.error, o.postedAt⟩)
          ∧ block .linkedin = []
          ∧ results.get .linkedin = ⟨false, .undefined, .undefined, .undefined⟩ := by
  refine ⟨rfl, ?_⟩
  obtain ⟨results, block, final, hrun, -, hall⟩ :=
    (C2_adapter_run_iff_included_and_connected (sampleWorld
      (some (sampleUser true false false false)) true (.error ⟨[]⟩))
      (sampleRequest (.str "Hello") (.str "\"xtwitterx-linkedin\""))
      (.str "xtwitterx-linkedin") (sampleUser true false false false) []
      rfl rfl (fun _ => rfl) (fun _ _ => rfl)).1 (Or.inr ⟨_, rfl⟩)
  refine ⟨results, block, by rw [hrun], ?_, ?_⟩
  · obtain ⟨included, hinc, -, hstr, hyes, -⟩ := hall .twitter
    obtain ⟨o, rest, ho, hblock, hres, -, -⟩ := hyes ⟨(hstr _ rfl).trans (by decide), rfl⟩
    exact ⟨o, rest, ho, hblock, hres⟩
  · obtain ⟨included, hinc, -, hstr, -, hno⟩ := hall .linkedin
    obtain ⟨hblock, hres, -⟩ := hno (fun hboth => by cases hboth.2)
    exact ⟨hblock, hres⟩

/-- C3 as stated fails: a call may reject with any value, and when the request
of `postToLinkedIn` is rejected with `undefined` the `catch` block reads
`error.response` of `undefined`, which throws a `TypeError`: the adapter throws
instead of returning an outcome.  The same happens in `postToTwitter` when the
tweet request is rejected with `null`, and in `postToFacebook` and
`postToTikTok` when their request is rejected with `undefined`. -/
theorem C3_nullish_rejection_counterexample :
    AnyThrow.postToLinkedIn (rejectingWorld .undefined) (.str "Hi") .null (.str "tok")
        (.str "p1") []
      = (.error (JsError.typeError
            "Cannot read properties of undefined (reading \x27response\x27)").toVal,
          [⟨.axiosPost linkedinUrl (linkedinPostData (.str "Hi") .null (.str "p1"))
            (linkedinConfig (.str "tok")), true⟩])
    ∧ AnyThrow.postToTwitter (rejectingWorld .null) (.str "Hi") .null
        ⟨true, .str "tok", .str "sec", .str "a", .str "1"⟩ []
      = (.error (JsError.typeError
            "Cannot read properties of null (reading \x27message\x27)").toVal,
          [⟨.newTwitterApi (.obj [("appKey", .str "key"), ("appSecret", .str "secret"),
              ("accessToken", .str "tok"), ("accessSecret", .str "sec")]), false⟩,
            ⟨.tweet (.obj [("text", .str "Hi")]), true⟩])
    ∧ threwAny (AnyThrow.postToFacebook (rejectingWorld .undefined) (.str "Hi") .null
        (.str "page1") (.str "tok") []).1 = true
    ∧ threwAny (AnyThrow.postToTikTok (rejectingWorld .undefined) (.str "Hi")
        (.str "/tmp/uploads/1-a.mp4") (.str "tok") []).1 = true :=
  ⟨rfl, rfl, rfl, rfl⟩

/-- C3, amended: each of the four adapters returns an outcome and does not
throw, for every input and every behaviour of the calls it makes in which no
call throws `null` or `undefined`: any error object and any other value may be
thrown.  When one of those calls threw, the outcome has `success = false` and a
truthy `error` (so neither undefined nor the empty string), and the code that
follows the call of the adapter runs.  Without that condition an adapter can
throw, and what it throws is then the `TypeError` raised in its `catch` block. -/
theorem C3_adapters_return_unless_nullish_thrown (w : AnyWorld) (content mediaPath : JsVal) :
    ((∀ h c v, w.answer h c = .error v → v.isNullish = false) →
      (∀ credentials, ReturnsOutcome (AnyThrow.postToTwitter w content mediaPath credentials))
      ∧ (∀ pageId accessToken,
          ReturnsOutcome (AnyThrow.postToFacebook w content mediaPath pageId accessToken))
      ∧ (∀ accessToken, ReturnsOutcome (AnyThrow.postToTikTok w content mediaPath accessToken))
      ∧ (∀ accessToken profileId,
          ReturnsOutcome (AnyThrow.postToLinkedIn w content mediaPath accessToken profileId)))
    ∧ (∀ credentials,
        ThrowsOnlyTypeError (AnyThrow.postToTwitter w content mediaPath credentials))
    ∧ (∀ pageId accessToken,
        ThrowsOnlyTypeError (AnyThrow.postToFacebook w content mediaPath pageId accessToken))
    ∧ (∀ accessToken,
        ThrowsOnlyTypeError (AnyThrow.postToTikTok w content mediaPath accessToken))
    ∧ (∀ accessToken profileId,
        ThrowsOnlyTypeError (AnyThrow.postToLinkedIn w content mediaPath accessToken profileId)) :=
  ⟨fun hw => ⟨fun _ => AnyThrow.postToTwitter_returns w hw _ _ _,
      fun _ _ => AnyThrow.postToFacebook_returns w hw _ _ _ _,
      fun _ => AnyThrow.postToTikTok_returns w hw _ _ _,
      fun _ _ => AnyThrow.postToLinkedIn_returns w hw _ _ _ _⟩,
    fun _ => EffAny.tryCatch_throws postToTwitterCatch_error,
    fun _ _ => EffAny.tryCatch_throws postToFacebookCatch_error,
    fun _ => EffAny.tryCatch_throws postToTikTokCatch_error,
    fun _ _ => EffAny.tryCatch_throws postToLinkedInCatch_error⟩

theorem C3_adapters_return_unless_nullish_thrown_witness :
    (∀ h c v, (rejectingWorld (.obj [("message", .str "Network Error")])).answer h c = .error v →
        v.isNullish = false)
      ∧ ∃ o evs,
          AnyThrow.postToLinkedIn (rejectingWorld (.obj [("message", .str "Network Error")]))
              (.str "Hi") .null (.str "tok") (.str "p1") [] = (.ok o, evs)
            ∧ ((∃ ev ∈ evs, ev.threw = true) → o.success = false ∧ o.error.truthy = true) := by
  have hw : ∀ h c v,
      (rejectingWorld (.obj [("message", .str "Network Error")])).answer h c = .error v →
        v.isNullish = false := by
    intro h c v hv
    simp only [rejectingWorld] at hv
    split at hv
    · cases hv
      rfl
    · cases hv
  obtain ⟨o, evs, hrun, hfail, -⟩ :=
    ((C3_adapters_return_unless_nullish_thrown
      (rejectingWorld (.obj [("message", .str "Network Error")])) (.str "Hi") .null).1 hw).2.2.2
      (.str "tok") (.str "p1") []
  exact ⟨hw, o, evs, hrun, hfail⟩

/-- C4: `postToTikTok` called with a `mediaPath` that is `null`, empty or
otherwise falsy returns `success = false` with the error `TikTok requires video
content` and makes no call at all, for every content and access token. -/
theorem C4_tiktok_requires_video (w : World) (content mediaPath accessToken : JsVal)
    (h : List Event) (hmedia : mediaPath.truthy = false) :
    postToTikTok w content mediaPath accessToken h
      = (.ok ⟨false, .undefined, .str "TikTok requires video content", .undefined⟩, []) := by
  simp [postToTikTok, postToTikTokTry, mediaExists, hmedia, Eff.tryCatch, Eff.run_bind, Eff.bind]

theorem C4_tiktok_requires_video_witness :
    JsVal.null.truthy = false
      ∧ postToTikTok (sampleWorld none true (.ok sampleAnswer)) (.str "Hello") .null
          (.str "tok") []
        = (.ok ⟨false, .undefined, .str "TikTok requires video content", .undefined⟩, []) :=
  ⟨rfl, C4_tiktok_requires_video _ _ _ _ _ rfl⟩

/-- C5: a request whose content is missing or empty (falsy) is answered with an
error and nothing is called: no user lookup, no post saved, no adapter entered.
The answer is 400 `Content is required` when the `platforms` field parses, in
particular when it is absent, and the 500 of the `catch` when `JSON.parse`
throws. -/
theorem C5_empty_content_rejected (w : World) (req : CreateRequest) (h : List Event)
    (hcontent : req.content.truthy = false) :
    (createHandler w req h).2 = []
      ∧ (createHandler w req h).1.post = none
      ∧ (createHandler w req h).1.results = none
      ∧ (∀ parsed, w.jsonParse (req.platforms.orElse (.str "[]")).toJsString = .ok parsed →
          (createHandler w req h).1.status = 400
            ∧ (createHandler w req h).1.message = "Content is required")
      ∧ (∀ e, w.jsonParse (req.platforms.orElse (.str "[]")).toJsString = .error e →
          (createHandler w req h).1.status = 500
            ∧ (createHandler w req h).1.message = "Server error")
      ∧ (req.platforms.truthy = false →
          (createHandler w req h).1.status = 400
            ∧ (createHandler w req h).1.message = "Content is required") := by
  have habsent : req.platforms.truthy = false →
      w.jsonParse (req.platforms.orElse (.str "[]")).toJsString = .ok (.arr []) := by
    intro hp
    simp only [JsVal.orElse, hp, Bool.false_eq_true, if_false, JsVal.toJsString]
    exact w.jsonParse_empty
  unfold createHandler createTry
  simp only [Eff.run_bind, Eff.bind, Eff.ofExcept, hcontent]
  cases hparse : w.jsonParse (req.platforms.orElse (.str "[]")).toJsString with
  | error e =>
    refine ⟨rfl, rfl, rfl, by simp, by simp, ?_⟩
    intro hp
    rw [habsent hp] at hparse
    cases hparse
  | ok parsed => simp


theorem C5_empty_content_rejected_witness :
    (sampleRequest (.str "") (.str "[\"twitter\"]")).content.truthy = false
      ∧ (createHandler (sampleWorld (some (sampleUser true true true true)) true
          (.ok sampleAnswer)) (sampleRequest (.str "") (.str "[\"twitter\"]")) []).2 = []
      ∧ (createHandler (sampleWorld (some (sampleUser true true true true)) true
          (.ok sampleAnswer)) (sampleRequest (.str "") (.str "[\"twitter\"]")) []).1.post = none :=
  ⟨rfl,
    (C5_empty_content_rejected (sampleWorld (some (sampleUser true true true true)) true
      (.ok sampleAnswer)) (sampleRequest (.str "") (.str "[\"twitter\"]")) [] rfl).1,
    (C5_empty_content_rejected (sampleWorld (some (sampleUser true true true true)) true
      (.ok sampleAnswer)) (sampleRequest (.str "") (.str "[\"twitter\"]")) [] rfl).2.1⟩

/-- C6 as stated fails: with content `Hello` and platforms `["twitter","myspace"]`,
where `myspace` is not a platform name, the request is answered 200 `Post
published` and the adapter of Twitter is entered. -/
theorem C6_unknown_name_counterexample :
    (sampleRequest (.str "Hello") (.str "[\"twitter\",\"myspace\"]")).content.truthy = true
      ∧ sampleParse "[\"twitter\",\"myspace\"]" = .ok (.arr [.str "twitter", .str "myspace"])
      ∧ "myspace" ∉ Platform.all.map Platform.name
      ∧ (createHandler (sampleWorld (some (sampleUser true false false false)) true
          (.ok sampleAnswer)) (sampleRequest (.str "Hello") (.str "[\"twitter\",\"myspace\"]"))
          []).1.status = 200
      ∧ (createHandler (sampleWorld (some (sampleUser true false false false)) true
          (.ok sampleAnswer)) (sampleRequest (.str "Hello") (.str "[\"twitter\",\"myspace\"]"))
          []).1.message = "Post published"
      ∧ adapterCalls .twitter (createHandler (sampleWorld
          (some (sampleUser true false false false)) true (.ok sampleAnswer))
          (sampleRequest (.str "Hello") (.str "[\"twitter\",\"myspace\"]")) []).2 = 1 := by
  refine ⟨rfl, rfl, by decide, by decide, by decide, by decide⟩

/-- C6, amended: a request with content whose platforms list contains a name
outside the four platform names is not rejected.  When it reaches the platform
blocks it is answered 200 `Post published`.  Its calls are the user lookup, the
first save, the calls of the four blocks and the second save; the block of a
platform whose name is listed and whose account is connected is the entry into
its adapter followed by the calls of one run of that adapter, whose outcome is
the entry recorded; every other block is empty, so nothing is called for the
unknown name.  Since the unknown name counts in the length of the list, the
status is `failed` or `partial`, never `completed`. -/
theorem C6_unknown_name_not_rejected (w : World) (req : CreateRequest) (names : List String)
    (bad : String) (user : User) (h : List Event)
    (hbad : bad ∈ names) (hunknown : bad ∉ Platform.all.map Platform.name)
    (hparse : w.jsonParse (req.platforms.orElse (.str "[]")).toJsString
      = .ok (.arr (names.map JsVal.str)))
    (hcontent : req.content.truthy = true)
    (huser : ∀ h', w.userFindById h' req.userId = .ok (some user))
    (hsave : ∀ h' post, w.postSave h' post = .ok ()) :
    ∃ (post : Post) (results : Results) (block : Platform → List Event),
      createHandler w req h =
        (⟨200, "Post published", .undefined, some post, some results⟩,
          [⟨.userFindById req.userId, false⟩, ⟨.postSave (newPost req), false⟩]
            ++ block .twitter ++ block .linkedin ++ block .facebook ++ block .tiktok
            ++ [⟨.postSave post, false⟩])
      ∧ post.status ≠ "completed"
      ∧ (post.status = "failed" ∨ post.status = "partial")
      ∧ (∀ p : Platform, adapterCalls p (createHandler w req h).2
          = if p.name ∈ names ∧ user.connectedAccounts.connected p = true then 1 else 0)
      ∧ ∀ p : Platform,
          ((p.name ∈ names ∧ user.connectedAccounts.connected p = true) →
            ∃ o rest,
              adapterOf w req user p
                  (h ++ [⟨.userFindById req.userId, false⟩, ⟨.postSave (newPost req), false⟩]
                    ++ blocksBefore block p ++ [entered req p]) = (.ok o, rest)
                ∧ block p = entered req p :: rest
                ∧ results.get p = ⟨o.success, o.postId, o.error, o.postedAt⟩)
          ∧ (¬ (p.name ∈ names ∧ user.connectedAccounts.connected p = true) →
              block p = [] ∧ results.get p = ⟨false, .undefined, .undefined, .undefined⟩) := by
  obtain ⟨results, block, hrun, hall⟩ :=
    createHandler_blocks w req (.arr (names.map JsVal.str)) user h
      (fun p => decide (p.name ∈ names)) (.num names.length) hparse
      (fun p => congrArg Except.ok (requested_names names p))
      (by simp [getProp, JsVal.isNullish, JsVal.get]) hcontent huser hsave
  simp only [decide_eq_true_eq] at hall
  have hposted : ∀ p : Platform, (results.get p).posted = true → p.name ∈ names := by
    intro p hp
    by_contra hnot
    have := ((hall p).2 (fun hboth => hnot hboth.1)).2.1
    rw [this] at hp
    cases hp
  have hlt : successCount results < names.length :=
    Nat.lt_of_le_of_lt (successCount_le_knownCount names results hposted)
      (knownCount_lt names bad hbad hunknown)
  have hstatus := statusOf_of_lt _ _ hlt
  refine ⟨_, results, block, hrun, hstatus.1, hstatus.2, ?_, ?_⟩
  · intro p
    by_cases hboth : p.name ∈ names ∧ user.connectedAccounts.connected p = true
    · obtain ⟨o, rest, -, -, -, -, hcount⟩ := (hall p).1 hboth
      rw [hcount, if_pos hboth]
    · rw [((hall p).2 hboth).2.2, if_neg hboth]
  · intro p
    refine ⟨fun hboth => ?_, fun hboth => ?_⟩
    · obtain ⟨o, rest, ho, hblock, hres, -, -⟩ := (hall p).1 hboth
      exact ⟨o, rest, ho, hblock, hres⟩
    · exact ⟨((hall p).2 hboth).1, ((hall p).2 hboth).2.1⟩

theorem C6_unknown_name_not_rejected_witness :
    "myspace" ∈ ["twitter", "myspace"]
      ∧ ∃ post results,
        (createHandler (sampleWorld (some (sampleUser true false false false)) true
          (.ok sampleAnswer)) (sampleRequest (.str "Hello") (.str "[\"twitter\",\"myspace\"]"))
          []).1 = ⟨200, "Post published", .undefined, some post, some results⟩
        ∧ post.status ≠ "completed" := by
  refine ⟨by decide, ?_⟩
  obtain ⟨post, results, block, hrun, hstatus, -, -, -⟩ :=
    C6_unknown_name_not_rejected (sampleWorld (some (sampleUser true false false false)) true
      (.ok sampleAnswer)) (sampleRequest (.str "Hello") (.str "[\"twitter\",\"myspace\"]"))
      ["twitter", "myspace"] "myspace" (sampleUser true false false false) []
      (by decide) (by decide) rfl rfl (fun _ => rfl) (fun _ _ => rfl)
  exact ⟨post, results, by rw [hrun], hstatus⟩

/-- C7 as stated fails: with content `Hello` and no `platforms` field the list
is empty, no adapter is entered, and the final status is `failed`, not
`completed`. -/
theorem C7_empty_list_counterexample :
    (sampleRequest (.str "Hello") .undefined).content.truthy = true
      ∧ sampleParse ((JsVal.undefined).orElse (.str "[]")).toJsString = .ok (.arr [])
      ∧ ((createHandler (sampleWorld (some (sampleUser true true true true)) true
          (.ok sampleAnswer)) (sampleRequest (.str "Hello") .undefined) []).1.post.map
            (fun post => post.status)) = some "failed"
      ∧ (createHandler (sampleWorld (some (sampleUser true true true true)) true
          (.ok sampleAnswer)) (sampleRequest (.str "Hello") .undefined) []).1.message
            = "Post published" := by
  refine ⟨rfl, rfl, by decide, by decide⟩

/-- C7, amended: on a request that reaches the platform blocks the final status
is `failed` exactly when the success count is 0, whatever the length of the
list, because that test comes first; so with an empty list (`platforms` absent,
empty or `[]`) no adapter is entered and the final status is `failed`. -/
theorem C7_empty_list_failed (w : World) (req : CreateRequest) (user : User) (h : List Event)
    (hcontent : req.content.truthy = true)
    (huser : ∀ h', w.userFindById h' req.userId = .ok (some user))
    (hsave : ∀ h' post, w.postSave h' post = .ok ()) :
    (∀ xs, w.jsonParse (req.platforms.orElse (.str "[]")).toJsString = .ok (.arr xs) →
      ∃ post results,
        (createHandler w req h).1 = ⟨200, "Post published", .undefined, some post, some results⟩
        ∧ (post.status = "failed" ↔ successCount results = 0))
    ∧ ((req.platforms.truthy = false ∨ req.platforms = .str "[]") →
      ∃ post results,
        (createHandler w req h).1 = ⟨200, "Post published", .undefined, some post, some results⟩
        ∧ post.status = "failed"
        ∧ ∀ p : Platform, adapterCalls p (createHandler w req h).2 = 0) := by
  constructor
  · intro xs hparse
    obtain ⟨results, hresp, -⟩ :=
      createHandler_dispatch w req xs user h hparse hcontent huser hsave
    exact ⟨_, results, hresp, statusOf_failed_iff _ _⟩
  · intro hplatforms
    have hparse : w.jsonParse (req.platforms.orElse (.str "[]")).toJsString = .ok (.arr []) := by
      rcases hplatforms with hp | hp
      · simp only [JsVal.orElse, hp, Bool.false_eq_true, if_false, JsVal.toJsString]
        exact w.jsonParse_empty
      · rw [hp]
        exact w.jsonParse_empty
    obtain ⟨results, hresp, hall⟩ :=
      createHandler_dispatch w req [] user h hparse hcontent huser hsave
    have hnone : ∀ p : Platform, (results.get p).posted = false := by
      intro p
      rw [(hall p).2.1 (by simp [requested])]
      rfl
    refine ⟨_, results, hresp, ?_, ?_⟩
    · rw [statusOf_failed_iff, successCount_eq]
      have h1 := hnone .twitter
      have h2 := hnone .linkedin
      have h3 := hnone .facebook
      have h4 := hnone .tiktok
      simp only [Results.get] at h1 h2 h3 h4
      rw [h1, h2, h3, h4]
      rfl
    · intro p
      rw [(hall p).1]
      simp [requested]

theorem C7_empty_list_failed_witness :
    (sampleRequest (.str "Hello") .undefined).content.truthy = true
      ∧ ∃ post results,
        (createHandler (sampleWorld (some (sampleUser true true true true)) true
          (.ok sampleAnswer)) (sampleRequest (.str "Hello") .undefined) []).1
          = ⟨200, "Post published", .undefined, some post, some results⟩
        ∧ post.status = "failed" := by
  refine ⟨rfl, ?_⟩
  obtain ⟨post, results, hresp, hstatus, -⟩ :=
    (C7_empty_list_failed (sampleWorld (some (sampleUser true true true true)) true
      (.ok sampleAnswer)) (sampleRequest (.str "Hello") .undefined)
      (sampleUser true true true true) [] rfl (fun _ => rfl) (fun _ _ => rfl)).2 (Or.inl rfl)
  exact ⟨post, results, hresp, hstatus⟩

/-- C8: for each platform and every stored state in which the user exists (and
a database that answers), the disconnect route answers 200 and leaves the
account of that platform with `connected = false` and every other field
`null`; disconnecting again gives the same response and the same stored state. -/
theorem C8_disconnect_clears_and_idempotent (p : Platform) (w : World) (db : List User)
    (userId : String) (u : User) (h h' : List Event)
    (hfind : findUser db userId = some u)
    (hfault : ∀ h'', w.userUpdateFault h'' = none) :
    (disconnect p w db userId h).1.1.status = 200
      ∧ (∃ stored, findUser (disconnect p w db userId h).1.2 userId = some stored
          ∧ stored.connectedAccounts.cleared p = true
          ∧ (disconnect p w db userId h).1.1.connectedAccounts = some stored.connectedAccounts)
      ∧ (disconnect p w (disconnect p w db userId h).1.2 userId h').1
          = (disconnect p w db userId h).1 := by
  cases p
  · have hid : ∀ v, (setTwitter ⟨false, .null, .null, .null, .null⟩ v).id = v.id := fun _ => rfl
    obtain ⟨-, hstored⟩ := findByIdAndUpdate_found db userId _ u hfind hid
    unfold disconnect disconnectTwitter
    simp only
    rw [storeAccount_disconnect w db userId _ _ _ _ h u hfind hid hfault,
      storeAccount_disconnect w _ userId _ _ _ _ h' _ hstored hid hfault,
      findByIdAndUpdate_idem db userId _ hid (fun _ => rfl)]
    exact ⟨rfl, ⟨_, hstored, rfl, rfl⟩, rfl⟩
  · have hid : ∀ v, (setLinkedIn ⟨false, .null, .null, .null⟩ v).id = v.id := fun _ => rfl
    obtain ⟨-, hstored⟩ := findByIdAndUpdate_found db userId _ u hfind hid
    unfold disconnect disconnectLinkedIn
    simp only
    rw [storeAccount_disconnect w db userId _ _ _ _ h u hfind hid hfault,
      storeAccount_disconnect w _ userId _ _ _ _ h' _ hstored hid hfault,
      findByIdAndUpdate_idem db userId _ hid (fun _ => rfl)]
    exact ⟨rfl, ⟨_, hstored, rfl, rfl⟩, rfl⟩
  · have hid : ∀ v, (setFacebook ⟨false, .null, .null, .null, .null⟩ v).id = v.id := fun _ => rfl
    obtain ⟨-, hstored⟩ := findByIdAndUpdate_found db userId _ u hfind hid
    unfold disconnect disconnectFacebook
    simp only
    rw [storeAccount_disconnect w db userId _ _ _ _ h u hfind hid hfault,
      storeAccount_disconnect w _ userId _ _ _ _ h' _ hstored hid hfault,
      findByIdAndUpdate_idem db userId _ hid (fun _ => rfl)]
    exact ⟨rfl, ⟨_, hstored, rfl, rfl⟩, rfl⟩
  · have hid : ∀ v, (setTikTok ⟨false, .null, .null, .null⟩ v).id = v.id := fun _ => rfl
    obtain ⟨-, hstored⟩ := findByIdAndUpdate_found db userId _ u hfind hid
    unfold disconnect disconnectTikTok
    simp only
    rw [storeAccount_disconnect w db userId _ _ _ _ h u hfind hid hfault,
      storeAccount_disconnect w _ userId _ _ _ _ h' _ hstored hid hfault,
      findByIdAndUpdate_idem db userId _ hid (fun _ => rfl)]
    exact ⟨rfl, ⟨_, hstored, rfl, rfl⟩, rfl⟩

theorem C8_disconnect_clears_and_idempotent_witness :
    findUser [sampleUser true true true true] "u1" = some (sampleUser true true true true)
      ∧ (disconnect .facebook (sampleWorld none true (.ok sampleAnswer))
          [sampleUser true true true true] "u1" []).1.1.status = 200
      ∧ (disconnect .facebook (sampleWorld none true (.ok sampleAnswer))
          (disconnect .facebook (sampleWorld none true (.ok sampleAnswer))
            [sampleUser true true true true] "u1" []).1.2 "u1" []).1
        = (disconnect .facebook (sampleWorld none true (.ok sampleAnswer))
          [sampleUser true true true true] "u1" []).1 :=
  ⟨rfl,
    (C8_disconnect_clears_and_idempotent .facebook (sampleWorld none true (.ok sampleAnswer))
      [sampleUser true true true true] "u1" (sampleUser true true true true) [] [] rfl
      (fun _ => rfl)).1,
    (C8_disconnect_clears_and_idempotent .facebook (sampleWorld none true (.ok sampleAnswer))
      [sampleUser true true true true] "u1" (sampleUser true true true true) [] [] rfl
      (fun _ => rfl)).2.2⟩

/-- C9: for each connect route and every stored state: when the identity call
that verifies the credentials throws, the response is the error response (500,
without accounts), no database update is made and the stored users are exactly
as before; and whenever the store is written (or changes), the write is the
last call and comes after a verification call that returned. -/
theorem C9_connect_verifies_before_storing (p : Platform) (w : World) (db : List User)
    (userId : String) (body : JsVal) (h : List Event) :
    ((∃ ev ∈ (connect p w db userId body h).2,
          ev.call.isVerification p = true ∧ ev.threw = true) →
        (connect p w db userId body h).1.1.status = 500
          ∧ (connect p w db userId body h).1.1.connectedAccounts = none
          ∧ (connect p w db userId body h).1.2 = db
          ∧ ∀ ev ∈ (connect p w db userId body h).2, ev.call.isUserUpdate = false)
    ∧ (((connect p w db userId body h).1.2 ≠ db
          ∨ ∃ ev ∈ (connect p w db userId body h).2, ev.call.isUserUpdate = true) →
        ∃ before update, (connect p w db userId body h).2 = before ++ [update]
          ∧ update.call.isUserUpdate = true
          ∧ ∃ ev ∈ before, ev.call.isVerification p = true ∧ ev.threw = false) := by
  show VerifiedBeforeStored p db (connect p w db userId body h)
  cases p
  · exact storeAccount_verified .twitter w db userId _ _ _ _ _ h
      (connectTwitterPrepare_spec w body) (failWith_status _)
  · exact storeAccount_verified .linkedin w db userId _ _ _ _ _ h
      (connectLinkedInPrepare_spec w body) (failWith_status _)
  · exact storeAccount_verified .facebook w db userId _ _ _ _ _ h
      (connectFacebookPrepare_spec w body) (fun _ => ⟨rfl, rfl⟩)
  · exact storeAccount_verified .tiktok w db userId _ _ _ _ _ h
      (connectTikTokPrepare_spec w body) (fun _ => ⟨rfl, rfl⟩)

theorem C9_connect_verifies_before_storing_witness :
    (connect .linkedin (sampleWorld none true (.error ⟨[("message", .str "Unauthorized")]⟩))
        [sampleUser false false false false] "u1" (.obj [("accessToken", .str "t")]) []).1.1.status
        = 500
      ∧ (connect .linkedin (sampleWorld none true (.error ⟨[("message", .str "Unauthorized")]⟩))
        [sampleUser false false false false] "u1" (.obj [("accessToken", .str "t")]) []).1.2
        = [sampleUser false false false false] :=
  ⟨((C9_connect_verifies_before_storing .linkedin
      (sampleWorld none true (.error ⟨[("message", .str "Unauthorized")]⟩))
      [sampleUser false false false false] "u1" (.obj [("accessToken", .str "t")]) []).1
      ⟨⟨.axiosGet linkedinUserinfoUrl (bearerConfig (.str "t")), true⟩,
        List.mem_singleton.2 rfl, rfl, rfl⟩).1,
    ((C9_connect_verifies_before_storing .linkedin
      (sampleWorld none true (.error ⟨[("message", .str "Unauthorized")]⟩))
      [sampleUser false false false false] "u1" (.obj [("accessToken", .str "t")]) []).1
      ⟨⟨.axiosGet linkedinUserinfoUrl (bearerConfig (.str "t")), true⟩,
        List.mem_singleton.2 rfl, rfl, rfl⟩).2.2.1⟩

/-- C10 as stated fails: with a `mediaPath` supplied but no file at that path,
the single outbound POST of `postToFacebook` goes to the feed endpoint, not to
the photos endpoint. -/
theorem C10_facebook_endpoint_counterexample :
    (JsVal.str "/tmp/uploads/1-a.png").truthy = true
      ∧ httpCalls (postToFacebook (sampleWorld none false (.ok sampleAnswer)) (.str "Launch")
          (.str "/tmp/uploads/1-a.png") (.str "page1") (.str "tok") []).2
        = [.axiosPost (facebookFeedUrl (.str "page1")) .null
            (.obj [("params", .obj [("message", .str "Launch"), ("access_token", .str "tok")])])] :=
  ⟨rfl, rfl⟩

/-- C10, amended: `postToFacebook` chooses its endpoint by the test `mediaPath &&
fs.existsSync(mediaPath)` alone.  When `mediaPath` is falsy or no file exists at
it, the one outbound HTTP request is the POST to the feed endpoint of the page
with the content as `message`.  When `mediaPath` is truthy and the file exists,
there is at most one outbound HTTP request, every such request is the POST to
the photos endpoint of the page with the content as the `message` of the form,
and it is made exactly when none of the calls before it threw: creating the
form, each of the three `append` calls, opening the file and reading the
headers of the form; when one of them throws, no request is made at all. -/
theorem C10_facebook_endpoint_by_media_and_file (w : World)
    (content mediaPath pageId accessToken : JsVal) (h : List Event) :
    (¬ (mediaPath.truthy = true ∧ w.existsSync h mediaPath = true) →
        httpCalls (postToFacebook w content mediaPath pageId accessToken h).2
          = [.axiosPost (facebookFeedUrl pageId) .null
              (.obj [("params", .obj [("message", content), ("access_token", accessToken)])])])
    ∧ ((mediaPath.truthy = true ∧ w.existsSync h mediaPath = true) →
        (httpCalls (postToFacebook w content mediaPath pageId accessToken h).2).length ≤ 1
        ∧ (∀ c ∈ httpCalls (postToFacebook w content mediaPath pageId accessToken h).2,
            ∃ source headers, c = .axiosPost (facebookPhotosUrl pageId)
              (facebookForm content source accessToken) (.obj [("headers", headers)]))
        ∧ ((httpCalls (postToFacebook w content mediaPath pageId accessToken h).2).length = 1 ↔
            (∀ ev ∈ (postToFacebook w content mediaPath pageId accessToken h).2,
              ev.call.isHttp = false → ev.threw = false))
        ∧ ((∃ ev ∈ (postToFacebook w content mediaPath pageId accessToken h).2,
              ev.call.isHttp = false ∧ ev.threw = true) →
            httpCalls (postToFacebook w content mediaPath pageId accessToken h).2 = [])) := by
  constructor
  · intro hno
    unfold postToFacebook
    rw [Eff.tryCatch_snd]
    unfold postToFacebookTry mediaExists
    by_cases ht : mediaPath.truthy = true
    · have hex : w.existsSync h mediaPath = false := by
        cases hx : w.existsSync h mediaPath
        · rfl
        · exact absurd ⟨ht, hx⟩ hno
      simp only [ht, if_true, Eff.bind_snd, Eff.bind_fst, Eff.call_fst, Eff.call_snd, hex,
        Eff.ofExcept_fst, Eff.ofExcept_snd, Eff.read_fst, Eff.read_snd, Eff.pure_fst, Eff.pure_snd,
        threw, Bool.false_eq_true, if_false, List.append_nil]
      repeat' split
      all_goals simp [httpCalls, Call.isHttp]
    · simp only [ht, if_true, Eff.bind_snd, Eff.bind_fst, Eff.call_fst, Eff.call_snd,
        Eff.ofExcept_fst, Eff.ofExcept_snd, Eff.read_fst, Eff.read_snd, Eff.pure_fst, Eff.pure_snd,
        threw, Bool.false_eq_true, if_false, List.append_nil]
      repeat' split
      all_goals simp [httpCalls, Call.isHttp]
  · rintro ⟨ht, hex⟩
    have hmain : (httpCalls (postToFacebook w content mediaPath pageId accessToken h).2).length ≤ 1
        ∧ (∀ c ∈ httpCalls (postToFacebook w content mediaPath pageId accessToken h).2,
            ∃ source headers, c = .axiosPost (facebookPhotosUrl pageId)
              (facebookForm content source accessToken) (.obj [("headers", headers)]))
        ∧ ((httpCalls (postToFacebook w content mediaPath pageId accessToken h).2).length = 1 ↔
            (∀ ev ∈ (postToFacebook w content mediaPath pageId accessToken h).2,
              ev.call.isHttp = false → ev.threw = false)) := by
      unfold postToFacebook
      rw [Eff.tryCatch_snd]
      unfold postToFacebookTry mediaExists
      simp only [ht, if_true, Eff.bind_snd, Eff.bind_fst, Eff.call_fst, Eff.call_snd, hex,
        Eff.ofExcept_fst, Eff.ofExcept_snd, Eff.read_fst, Eff.read_snd, Eff.pure_fst, Eff.pure_snd,
        threw, Bool.false_eq_true, if_false, List.append_nil]
      repeat' split
      all_goals simp_all [httpCalls, Call.isHttp, Eff.ofExcept, threw]
      all_goals exact ⟨_, rfl⟩
    obtain ⟨hle, hall, hiff⟩ := hmain
    refine ⟨hle, hall, hiff, ?_⟩
    rintro ⟨ev, hev, hcall, hthrew⟩
    have hne : (httpCalls (postToFacebook w content mediaPath pageId accessToken h).2).length ≠ 1 := by
      intro hone
      have := hiff.1 hone ev hev hcall
      rw [hthrew] at this
      cases this
    apply List.eq_nil_of_length_eq_zero
    omega

theorem C10_facebook_endpoint_by_media_and_file_witness :
    httpCalls (postToFacebook (sampleWorld none true (.ok sampleAnswer)) (.str "Launch") .null
        (.str "page1") (.str "tok") []).2
      = [.axiosPost (facebookFeedUrl (.str "page1")) .null
          (.obj [("params", .obj [("message", .str "Launch"), ("access_token", .str "tok")])])]
    ∧ (httpCalls (postToFacebook (sampleWorld none true (.ok sampleAnswer)) (.str "Launch")
        (.str "/tmp/uploads/1-a.png") (.str "page1") (.str "tok") []).2).length = 1
    ∧ httpCalls (postToFacebook (sampleWorld none true (.ok sampleAnswer))
        (.arr [.str "a", .str "b"]) (.str "/tmp/uploads/1-a.png") (.str "page1") (.str "tok")
        []).2 = [] :=
  ⟨(C10_facebook_endpoint_by_media_and_file (sampleWorld none true (.ok sampleAnswer))
      (.str "Launch") .null (.str "page1") (.str "tok") []).1 (by decide),
    ((C10_facebook_endpoint_by_media_and_file (sampleWorld none true (.ok sampleAnswer))
      (.str "Launch") (.str "/tmp/uploads/1-a.png") (.str "page1") (.str "tok") []).2
      ⟨rfl, rfl⟩).2.2.1.2 (by decide),
    ((C10_facebook_endpoint_by_media_and_file (sampleWorld none true (.ok sampleAnswer))
      (.arr [.str "a", .str "b"]) (.str "/tmp/uploads/1-a.png") (.str "page1") (.str "tok") []).2
      ⟨rfl, rfl⟩).2.2.2
      ⟨⟨.formAppend "message" (.arr [.str "a", .str "b"]), true⟩,
        List.mem_cons_of_mem _ (List.mem_cons_of_mem _ (List.Mem.head _)), rfl, rfl⟩⟩

/-- C11 as stated fails: the JSON body that `postToLinkedIn` sends differs with
and without a `mediaPath`; with the path `/tmp/uploads/1-a.png` its
`shareMediaCategory` is `IMAGE`, with `null` it is `NONE`. -/
theorem C11_linkedin_body_counterexample :
    linkedinPostData (.str "Hi") (.str "/tmp/uploads/1-a.png") (.str "p1")
        ≠ linkedinPostData (.str "Hi") .null (.str "p1")
      ∧ httpCalls (postToLinkedIn (sampleWorld none true (.ok sampleAnswer)) (.str "Hi")
          (.str "/tmp/uploads/1-a.png") (.str "tok") (.str "p1") []).2
        = [.axiosPost linkedinUrl
            (linkedinPostData (.str "Hi") (.str "/tmp/uploads/1-a.png") (.str "p1"))
            (linkedinConfig (.str "tok"))]
      ∧ httpCalls (postToLinkedIn (sampleWorld none true (.ok sampleAnswer)) (.str "Hi")
          .null (.str "tok") (.str "p1") []).2
        = [.axiosPost linkedinUrl (linkedinPostData (.str "Hi") .null (.str "p1"))
            (linkedinConfig (.str "tok"))]
      ∧ (shareMediaCategory
          (linkedinPostData (.str "Hi") (.str "/tmp/uploads/1-a.png") (.str "p1"))).isStr
            "IMAGE" = true
      ∧ (shareMediaCategory (linkedinPostData (.str "Hi") .null (.str "p1"))).isStr "NONE"
          = true := by
  refine ⟨?_, rfl, rfl, by decide, by decide⟩
  intro heq
  have hcat := congrArg (fun body => (shareMediaCategory body).isStr "IMAGE") heq
  revert hcat
  decide

/-- C11, amended: `postToLinkedIn` never uploads or attaches media, but its
request is not independent of `mediaPath`.  For every content, access token,
profile id and `mediaPath`, its calls are the file test (made once when
`mediaPath` is truthy) followed by one POST to the same address with the same
headers; the body depends on `mediaPath` only through its truthiness, and only
in `shareMediaCategory`, which is `IMAGE` when `mediaPath` is truthy and `NONE`
otherwise; the outcome returned is determined by the answer to that POST, in
the same way with and without media. -/
theorem C11_linkedin_media_changes_category_only (w : World)
    (content mediaPath accessToken profileId : JsVal) (h : List Event) :
    postToLinkedIn w content mediaPath accessToken profileId h
      = (.ok (linkedinOutcome
            (w.axiosPost (h ++ mediaCheck mediaPath) linkedinUrl
              (linkedinPostData content mediaPath profileId) (linkedinConfig accessToken))
            (w.now (h ++ mediaCheck mediaPath
              ++ [⟨.axiosPost linkedinUrl (linkedinPostData content mediaPath profileId)
                    (linkedinConfig accessToken),
                  threw (w.axiosPost (h ++ mediaCheck mediaPath) linkedinUrl
                    (linkedinPostData content mediaPath profileId)
                    (linkedinConfig accessToken))⟩]))),
          mediaCheck mediaPath
            ++ [⟨.axiosPost linkedinUrl (linkedinPostData content mediaPath profileId)
                  (linkedinConfig accessToken),
                threw (w.axiosPost (h ++ mediaCheck mediaPath) linkedinUrl
                  (linkedinPostData content mediaPath profileId)
                  (linkedinConfig accessToken))⟩])
    ∧ shareMediaCategory (linkedinPostData content mediaPath profileId)
        = (if mediaPath.truthy then .str "IMAGE" else .str "NONE")
    ∧ (∀ other : JsVal, other.truthy = mediaPath.truthy →
        linkedinPostData content other profileId
          = linkedinPostData content mediaPath profileId) := by
  refine ⟨postToLinkedIn_run w content mediaPath accessToken profileId h, ?_, ?_⟩
  · simp [shareMediaCategory, linkedinPostData, JsVal.get, List.lookup]
  · intro other hother
    simp [linkedinPostData, hother]

theorem C11_linkedin_media_changes_category_only_witness :
    (postToLinkedIn (sampleWorld none true (.ok sampleAnswer)) (.str "Hi")
        (.str "/tmp/uploads/1-a.png") (.str "tok") (.str "p1") []).2
      = [⟨.existsSync (.str "/tmp/uploads/1-a.png"), false⟩,
          ⟨.axiosPost linkedinUrl
            (linkedinPostData (.str "Hi") (.str "/tmp/uploads/1-a.png") (.str "p1"))
            (linkedinConfig (.str "tok")), false⟩] :=
  congrArg Prod.snd (C11_linkedin_media_changes_category_only
    (sampleWorld none true (.ok sampleAnswer)) (.str "Hi") (.str "/tmp/uploads/1-a.png")
    (.str "tok") (.str "p1") []).1

/-- C12 as stated fails: with a `mediaPath` supplied but no file at that path,
`postToTwitter` makes no upload call and creates a tweet with the text only. -/
theorem C12_twitter_upload_counterexample :
    (JsVal.str "/tmp/uploads/1-a.png").truthy = true
      ∧ callsOf (postToTwitter (sampleWorld none false (.ok sampleAnswer)) (.str "Hello")
          (.str "/tmp/uploads/1-a.png") ⟨true, .str "tok", .str "sec", .str "a", .str "1"⟩ []).2
        = [.newTwitterApi (twitterOptions (sampleWorld none false (.ok sampleAnswer))
              (.str "tok") (.str "sec")),
            .existsSync (.str "/tmp/uploads/1-a.png"),
            .tweet (.obj [("text", .str "Hello")])] :=
  ⟨rfl, rfl⟩

/-- C12, amended: in `postToTwitter`, once the client is built, the upload is
made exactly when `mediaPath` is truthy and a file exists at it, and then
before the tweet.  If the upload throws, the adapter returns one failed outcome
with the error of the upload and the tweet call is never made.  If the upload
returns an identifier, the tweet is created with that identifier attached when
it is truthy.  When `mediaPath` is falsy or no file exists at it, no upload is
made and the tweet is created with the text only.  When the client cannot be
built, nothing else is called. -/
theorem C12_twitter_upload_before_tweet (w : World) (content mediaPath : JsVal) (credentials : TwitterAccount)
    (h : List Event) :
    (∀ e, w.newTwitterApi h (twitterOptions w credentials.accessToken
          credentials.accessTokenSecret) = .error e →
        callsOf (postToTwitter w content mediaPath credentials h).2
          = [twitterClientCall w credentials])
    ∧ (w.newTwitterApi h (twitterOptions w credentials.accessToken
          credentials.accessTokenSecret) = .ok () →
      (¬ (mediaPath.truthy = true
            ∧ w.existsSync (h ++ [⟨twitterClientCall w credentials, false⟩]) mediaPath = true) →
          callsOf (postToTwitter w content mediaPath credentials h).2
            = [twitterClientCall w credentials] ++ callsOf (mediaCheck mediaPath)
                ++ [.tweet (.obj [("text", content)])])
      ∧ ((mediaPath.truthy = true
            ∧ w.existsSync (h ++ [⟨twitterClientCall w credentials, false⟩]) mediaPath = true) →
          (∀ e, w.uploadMedia (h ++ [⟨twitterClientCall w credentials, false⟩]
                ++ [⟨.existsSync mediaPath, false⟩]) mediaPath = .error e →
              postToTwitter w content mediaPath credentials h
                = (.ok ⟨false, .undefined,
                    (e.get "message").orElse (.str "Failed to post to Twitter"), .undefined⟩,
                  [⟨twitterClientCall w credentials, false⟩, ⟨.existsSync mediaPath, false⟩,
                    ⟨.uploadMedia mediaPath, true⟩]))
          ∧ (∀ mediaId, w.uploadMedia (h ++ [⟨twitterClientCall w credentials, false⟩]
                ++ [⟨.existsSync mediaPath, false⟩]) mediaPath = .ok mediaId →
              callsOf (postToTwitter w content mediaPath credentials h).2
                = [twitterClientCall w credentials, .existsSync mediaPath,
                    .uploadMedia mediaPath, .tweet (tweetData content mediaId)]
              ∧ (mediaId.truthy = true → tweetData content mediaId
                  = .obj [("text", content), ("media", .obj [("media_ids", .arr [mediaId])])])
              ∧ (mediaId.truthy = false → tweetData content mediaId
                  = .obj [("text", content)])))) := by
  refine ⟨?_, ?_⟩
  · intro e hnew
    unfold postToTwitter
    rw [Eff.tryCatch_snd]
    unfold postToTwitterTry
    simp only [Eff.bind_snd, Eff.bind_fst, Eff.call_fst, Eff.call_snd, hnew, threw]
    rfl
  · intro hnew
    refine ⟨?_, ?_⟩
    · intro hno
      unfold postToTwitter
      rw [Eff.tryCatch_snd]
      unfold postToTwitterTry twitterClientCall at *
      simp only [Eff.bind_snd, Eff.bind_fst, Eff.call_fst, Eff.call_snd, hnew, threw,
        mediaExists_fst, mediaExists_snd, Eff.ofExcept_fst, Eff.ofExcept_snd, Eff.read_fst,
        Eff.read_snd, Eff.pure_fst, Eff.pure_snd, List.append_nil]
      have hmedia : (mediaPath.truthy && w.existsSync (h ++ [⟨.newTwitterApi
          (twitterOptions w credentials.accessToken credentials.accessTokenSecret), false⟩])
          mediaPath) = false := by
        cases ht : mediaPath.truthy
        · rfl
        · cases hx : w.existsSync (h ++ [⟨.newTwitterApi
            (twitterOptions w credentials.accessToken credentials.accessTokenSecret), false⟩])
            mediaPath
          · rfl
          · exact absurd ⟨ht, hx⟩ hno
      have htext : tweetData content .undefined = .obj [("text", content)] := rfl
      simp only [hmedia, Bool.false_eq_true, if_false, Eff.pure_fst, Eff.pure_snd,
        List.append_nil, htext]
      repeat' split
      all_goals simp [callsOf]
    · rintro ⟨ht, hx⟩
      unfold twitterClientCall at *
      have hcheck : mediaCheck mediaPath = [⟨.existsSync mediaPath, false⟩] := by
        simp [mediaCheck, ht]
      refine ⟨?_, ?_⟩
      · intro e hup
        apply Prod.ext
        · unfold postToTwitter
          rw [Eff.tryCatch_fst]
          unfold postToTwitterTry
          simp only [Eff.bind_snd, Eff.bind_fst, Eff.call_fst, Eff.call_snd, hnew, threw,
            mediaExists_fst, mediaExists_snd, hcheck, ht, hx, Bool.and_self, if_true, hup]
        · unfold postToTwitter
          rw [Eff.tryCatch_snd]
          unfold postToTwitterTry
          simp only [Eff.bind_snd, Eff.bind_fst, Eff.call_fst, Eff.call_snd, hnew, threw,
            mediaExists_fst, mediaExists_snd, hcheck, ht, hx, Bool.and_self, if_true, hup]
          rfl
      · intro mediaId hup
        refine ⟨?_, ?_, ?_⟩
        · unfold postToTwitter
          rw [Eff.tryCatch_snd]
          unfold postToTwitterTry
          simp only [Eff.bind_snd, Eff.bind_fst, Eff.call_fst, Eff.call_snd, hnew, threw,
            mediaExists_fst, mediaExists_snd, hcheck, ht, hx, Bool.and_self, if_true, hup,
            Eff.ofExcept_fst, Eff.ofExcept_snd, Eff.read_fst,
            Eff.read_snd, Eff.pure_fst, Eff.pure_snd, List.append_nil]
          repeat' split
          all_goals simp [callsOf]
        · intro hid
          simp [tweetData, hid]
        · intro hid
          simp [tweetData, hid]

theorem C12_twitter_upload_before_tweet_witness :
    callsOf (postToTwitter (sampleWorld none true (.ok (.str "m1"))) (.str "Hello")
        (.str "/tmp/uploads/1-a.png") ⟨true, .str "tok", .str "sec", .str "a", .str "1"⟩ []).2
      = [twitterClientCall (sampleWorld none true (.ok (.str "m1")))
            ⟨true, .str "tok", .str "sec", .str "a", .str "1"⟩,
          .existsSync (.str "/tmp/uploads/1-a.png"),
          .uploadMedia (.str "/tmp/uploads/1-a.png"),
          .tweet (tweetData (.str "Hello") (.str "m1"))] :=
  ((((C12_twitter_upload_before_tweet (sampleWorld none true (.ok (.str "m1"))) (.str "Hello")
    (.str "/tmp/uploads/1-a.png") ⟨true, .str "tok", .str "sec", .str "a", .str "1"⟩ []).2
    rfl).2 ⟨rfl, rfl⟩).2 (.str "m1") rfl).1

/-- C13: `authenticateToken`, for every request: when the Authorization header
is absent, or has no token after the first space, the response is 401 `No token
provided` and `next` is not called; when the token fails verification, the
response is 401 `Invalid token` and `next` is not called; when the token is
verified, `req.userId` is set to the `userId` of the decoded token and `next`
is called exactly once, as the first thing done.  So `next` is called only with
a verified token. -/
theorem C13_authenticateToken_guards_next (verify : String → Except JsError JwtPayload)
    (nextThrows : JsVal → Option JsError) (authorization : Option String) :
    ((headerToken authorization = none ∨ headerToken authorization = some "") →
        authenticateToken verify nextThrows authorization
          = ⟨none, [.respond 401 "No token provided"]⟩)
    ∧ (∀ token e, headerToken authorization = some token → token ≠ "" →
        verify token = .error e →
        authenticateToken verify nextThrows authorization
          = ⟨none, [.respond 401 "Invalid token"]⟩)
    ∧ (∀ token decoded, headerToken authorization = some token → token ≠ "" →
        verify token = .ok decoded →
        (authenticateToken verify nextThrows authorization).userId = some decoded.userId
          ∧ (authenticateToken verify nextThrows authorization).events.head?
              = some (.next decoded.userId)
          ∧ (authenticateToken verify nextThrows authorization).events.countP AuthEvent.isNext
              = 1)
    ∧ ((∃ ev ∈ (authenticateToken verify nextThrows authorization).events, ev.isNext = true) →
        ∃ token decoded, headerToken authorization = some token ∧ token ≠ ""
          ∧ verify token = .ok decoded) := by
  unfold authenticateToken
  refine ⟨?_, ?_, ?_, ?_⟩
  · rintro (hnone | hempty)
    · simp [hnone]
    · simp [hempty]
  · intro token e htoken hne hverify
    simp [htoken, hne, hverify]
  · intro token decoded htoken hne hverify
    simp only [htoken, hne, if_false, hverify]
    cases nextThrows decoded.userId <;> simp [AuthEvent.isNext]
  · cases htoken : headerToken authorization with
    | none => simp [AuthEvent.isNext]
    | some token =>
      by_cases hne : token = ""
      · simp [hne, AuthEvent.isNext]
      · cases hverify : verify token with
        | error e => simp [hne, hverify, AuthEvent.isNext]
        | ok decoded =>
          intro _
          exact ⟨token, decoded, rfl, hne, hverify⟩

theorem C13_authenticateToken_guards_next_witness :
    headerToken (some "Bearer abc") = some "abc"
      ∧ authenticateToken (fun _ => .error ⟨[("message", .str "jwt malformed")]⟩)
          (fun _ => none) (some "Bearer abc")
        = ⟨none, [.respond 401 "Invalid token"]⟩ :=
  ⟨by decide,
    (C13_authenticateToken_guards_next (fun _ => .error ⟨[("message", .str "jwt malformed")]⟩)
      (fun _ => none) (some "Bearer abc")).2.1 "abc" ⟨[("message", .str "jwt malformed")]⟩
      (by decide) (by decide) rfl⟩

/-- C14: in the handler of `POST /create`, for every submitted list of platform
names (any strings, repetitions allowed, any length) on a request that reaches
the platform blocks: if the final status is `completed`, then the list is not
empty, has no repeated entry, has at most 4 entries, holds only names of the
four platforms, and every listed platform is connected, its adapter was run
once by the handler (the block of the platform is the entry into the adapter
followed by the calls of that run), that run returned an outcome with
`success = true`, and the platform is recorded with `posted = true`. -/
theorem C14_completed_only_for_exact_lists (w : World) (req : CreateRequest)
    (names : List String) (user : User) (h : List Event)
    (hparse : w.jsonParse (req.platforms.orElse (.str "[]")).toJsString
      = .ok (.arr (names.map JsVal.str)))
    (hcontent : req.content.truthy = true)
    (huser : ∀ h', w.userFindById h' req.userId = .ok (some user))
    (hsave : ∀ h' post, w.postSave h' post = .ok ()) :
    ∃ (post : Post) (results : Results) (block : Platform → List Event),
      createHandler w req h =
        (⟨200, "Post published", .undefined, some post, some results⟩,
          [⟨.userFindById req.userId, false⟩, ⟨.postSave (newPost req), false⟩]
            ++ block .twitter ++ block .linkedin ++ block .facebook ++ block .tiktok
            ++ [⟨.postSave post, false⟩])
      ∧ (post.status = "completed" →
          names ≠ [] ∧ names.Nodup ∧ names.length ≤ 4
            ∧ (∀ s ∈ names, s ∈ Platform.all.map Platform.name)
            ∧ ∀ p : Platform, p.name ∈ names →
                user.connectedAccounts.connected p = true
                  ∧ adapterCalls p (createHandler w req h).2 = 1
                  ∧ (results.get p).posted = true
                  ∧ ∃ o rest,
                      adapterOf w req user p
                          (h ++ [⟨.userFindById req.userId, false⟩,
                              ⟨.postSave (newPost req), false⟩]
                            ++ blocksBefore block p ++ [entered req p]) = (.ok o, rest)
                        ∧ o.success = true
                        ∧ block p = entered req p :: rest
                        ∧ results.get p = ⟨o.success, o.postId, o.error, o.postedAt⟩) := by
  obtain ⟨results, block, hrun, hall⟩ :=
    createHandler_blocks w req (.arr (names.map JsVal.str)) user h
      (fun p => decide (p.name ∈ names)) (.num names.length) hparse
      (fun p => congrArg Except.ok (requested_names names p))
      (by simp [getProp, JsVal.isNullish, JsVal.get]) hcontent huser hsave
  simp only [decide_eq_true_eq] at hall
  have hposted : ∀ p : Platform, (results.get p).posted = true →
      p.name ∈ names ∧ user.connectedAccounts.connected p = true := by
    intro p hp
    by_contra hnot
    have := ((hall p).2 hnot).2.1
    rw [this] at hp
    cases hp
  refine ⟨_, results, block, hrun, ?_⟩
  intro hstatus
  obtain ⟨hne, hlen⟩ := (statusOf_completed_iff _ _).1 hstatus
  have hle := successCount_le_knownCount names results (fun p hp => (hposted p hp).1)
  have hkl := knownCount_le names
  have hknownlen : knownCount names = names.length := by omega
  obtain ⟨hnodup, hknown⟩ := knownCount_eq_length names hknownlen
  have hcount : successCount results = knownCount names := by omega
  rw [successCount_eq, knownCount_count4] at hcount
  obtain ⟨e1, e2, e3, e4⟩ := count4_eq _ _ _ _ _ _ _ _
    (fun hp => decide_eq_true (hposted .twitter hp).1)
    (fun hp => decide_eq_true (hposted .linkedin hp).1)
    (fun hp => decide_eq_true (hposted .facebook hp).1)
    (fun hp => decide_eq_true (hposted .tiktok hp).1) hcount
  have hall_posted : ∀ p : Platform, p.name ∈ names → (results.get p).posted = true := by
    intro p hp
    cases p
    · exact e1.trans (decide_eq_true hp)
    · exact e2.trans (decide_eq_true hp)
    · exact e3.trans (decide_eq_true hp)
    · exact e4.trans (decide_eq_true hp)
  refine ⟨?_, hnodup, ?_, hknown, ?_⟩
  · intro hnil
    rw [hnil] at hlen
    exact hne hlen
  · have h4 : knownCount names ≤ 4 := by
      unfold knownCount
      exact (List.length_filter_le _ _).trans (by decide)
    omega
  · intro p hp
    have hpost := hall_posted p hp
    have hconn := (hposted p hpost).2
    obtain ⟨o, rest, ho, hblock, hres, -, hcalls⟩ := (hall p).1 ⟨hp, hconn⟩
    refine ⟨hconn, hcalls, hpost, o, rest, ho, ?_, hblock, hres⟩
    rw [hres] at hpost
    exact hpost

theorem C14_completed_only_for_exact_lists_witness :
    (sampleRequest (.str "Hello") (.str "[\"twitter\"]")).content.truthy = true
      ∧ adapterCalls .twitter (createHandler (sampleWorld
          (some (sampleUser true false false false)) true (.ok sampleAnswer))
          (sampleRequest (.str "Hello") (.str "[\"twitter\"]")) []).2 = 1
      ∧ ["twitter"].Nodup
      ∧ ∃ o rest,
          postToTwitter (sampleWorld (some (sampleUser true false false false)) true
              (.ok sampleAnswer)) (.str "Hello") .null
              (sampleUser true false false false).connectedAccounts.twitter
              [⟨.userFindById "u1", false⟩,
                ⟨.postSave (newPost (sampleRequest (.str "Hello") (.str "[\"twitter\"]"))), false⟩,
                ⟨.adapter .twitter (.str "Hello") .null, false⟩] = (.ok o, rest)
            ∧ o.success = true := by
  obtain ⟨post, results, block, hrun, hcompleted⟩ :=
    C14_completed_only_for_exact_lists (sampleWorld (some (sampleUser true false false false))
      true (.ok sampleAnswer)) (sampleRequest (.str "Hello") (.str "[\"twitter\"]"))
      ["twitter"] (sampleUser true false false false) [] rfl rfl (fun _ => rfl)
      (fun _ _ => rfl)
  have hstatus : ((createHandler (sampleWorld (some (sampleUser true false false false)) true
      (.ok sampleAnswer)) (sampleRequest (.str "Hello") (.str "[\"twitter\"]")) []).1.post.map
      (fun doc => doc.status)) = some "completed" := by decide
  rw [hrun] at hstatus
  obtain ⟨-, hnodup, -, -, hlisted⟩ := hcompleted (by simpa using hstatus)
  obtain ⟨-, hcalls, -, o, rest, ho, hsuccess, -, -⟩ := hlisted .twitter (by decide)
  exact ⟨rfl, hcalls, hnodup, o, rest, ho, hsuccess⟩

end SCserver
